import Mathlib

/-!
# DroneBuilder diagnostic core — a shallow embedding

This file embeds the diagnostic reasoning core of the DroneBuilder
repository (field resolver / expression evaluator, constraint validator,
discrepancy detector, firmware cross-validator, confidence scorer,
symptom mapper / prioritizer, diagnostic orchestrator) as executable Lean
definitions, and proves or refutes the stated claims about it.

Conventions of the embedding:
* Python `int` and `float` are both modelled as `ℚ` (no verified claim
  observes the int/float distinction or float rounding);
* Python dictionaries are modelled as association lists with
  insert-overwrite-in-place semantics (matching Python dict insertion
  order);
* Python operations that can raise (`int(...)` on a malformed string,
  rich comparison of incompatible types, string methods on non-strings,
  hashing of unhashable values) are modelled in `Except String`;
  a `.error` result models a raised exception;
* the sandboxed `eval` of the expression evaluator is kept abstract as a
  function parameter `sandbox : String → DB.Value` (a raised exception
  and an evaluation to Python `None` both map to `DB.Value.none`, which
  is exactly how the source collapses them);
* Python character classes (`isdigit`, `isalpha`, whitespace) are
  modelled at ASCII level.
-/

namespace DB

/-- A dynamically-typed Python value, as stored in component `specs`
dictionaries, constraint `check` descriptors and result `details`
payloads.  `num` models both Python `int` and `float` (as `ℚ`);
`obj` stands for any other Python object (methods, dicts) that the data
model cannot otherwise represent. -/
inductive Value where
  | none : Value
  | bool : Bool → Value
  | num : ℚ → Value
  | str : String → Value
  | list : List Value → Value
  | obj : String → Value
deriving Repr

mutual

/-- Structural decidable equality on `Value` (Lean-level, used only to
state theorems; Python `==` is `pyEq` below). -/
def Value.beq : Value → Value → Bool
  | .none, .none => true
  | .bool a, .bool b => a = b
  | .num a, .num b => a = b
  | .str a, .str b => a = b
  | .obj a, .obj b => a = b
  | .list a, .list b => Value.beqList a b
  | _, _ => false

/-- Structural equality on value lists. -/
def Value.beqList : List Value → List Value → Bool
  | [], [] => true
  | a :: as_, b :: bs => Value.beq a b && Value.beqList as_ bs
  | _, _ => false

end

mutual

/-- `Value.beq` is sound. -/
theorem Value.eq_of_beq : ∀ {a b : Value}, Value.beq a b = true → a = b
  | .none, .none, _ => rfl
  | .bool _, .bool _, h => by
      simpa [Value.beq] using congrArg Value.bool (by simpa [Value.beq] using h)
  | .num _, .num _, h => by
      simpa using congrArg Value.num (by simpa [Value.beq] using h)
  | .str _, .str _, h => by
      simpa using congrArg Value.str (by simpa [Value.beq] using h)
  | .obj _, .obj _, h => by
      simpa using congrArg Value.obj (by simpa [Value.beq] using h)
  | .list a, .list b, h => by
      exact congrArg Value.list (Value.eqList_of_beqList (by simpa [Value.beq] using h))

/-- `Value.beqList` is sound. -/
theorem Value.eqList_of_beqList : ∀ {a b : List Value},
    Value.beqList a b = true → a = b
  | [], [], _ => rfl
  | x :: xs, y :: ys, h => by
      have h' := h
      simp only [Value.beqList, Bool.and_eq_true] at h'
      exact by rw [Value.eq_of_beq h'.1, Value.eqList_of_beqList h'.2]

end

mutual

/-- `Value.beq` is reflexive. -/
theorem Value.beq_refl : ∀ (a : Value), Value.beq a a = true
  | .none => rfl
  | .bool _ => by simp [Value.beq]
  | .num _ => by simp [Value.beq]
  | .str _ => by simp [Value.beq]
  | .obj _ => by simp [Value.beq]
  | .list l => by simpa [Value.beq] using Value.beqList_refl l

/-- `Value.beqList` is reflexive. -/
theorem Value.beqList_refl : ∀ (l : List Value), Value.beqList l l = true
  | [] => rfl
  | x :: xs => by
      simp only [Value.beqList, Bool.and_eq_true]
      exact ⟨Value.beq_refl x, Value.beqList_refl xs⟩

end

instance : DecidableEq Value := fun a b =>
  if h : Value.beq a b = true then
    .isTrue (Value.eq_of_beq h)
  else
    .isFalse (fun he => h (he ▸ Value.beq_refl a))

/-!
Exact rational arithmetic routed through `mkRat`, so that the kernel
can evaluate concrete instances (the library's `Rat.add`/`Rat.mul`/
floor are definitionally opaque to it).  Each helper computes the exact
mathematical operation on `ℚ`.
-/

/-- Exact addition on `ℚ`. -/
def qAdd (a b : ℚ) : ℚ := mkRat (a.num * b.den + b.num * a.den) (a.den * b.den)

/-- Exact subtraction on `ℚ`. -/
def qSub (a b : ℚ) : ℚ := mkRat (a.num * b.den - b.num * a.den) (a.den * b.den)

/-- Exact multiplication on `ℚ`. -/
def qMul (a b : ℚ) : ℚ := mkRat (a.num * b.num) (a.den * b.den)

/-- Floor of a rational. -/
def qFloor (a : ℚ) : Int := a.num.fdiv a.den

/-- Minimum of two rationals (Python `min`). -/
def qMin (a b : ℚ) : ℚ := if a ≤ b then a else b

/-- Sum of a list of rationals. -/
def qSum (l : List ℚ) : ℚ := l.foldr qAdd 0

/-- Python `<` on strings (lexicographic by code point), computed on
the character lists so the kernel can evaluate it. -/
def listCharLt : List Char → List Char → Bool
  | [], [] => false
  | [], _ :: _ => true
  | _ :: _, [] => false
  | a :: as_, b :: bs =>
    a.toNat < b.toNat || (a.toNat = b.toNat && listCharLt as_ bs)

/-- Python `<` on strings. -/
def pyStrLt (a b : String) : Bool := listCharLt a.data b.data

/-- Python `<=` on strings (the negation of the reversed `<`, as in any
total order). -/
def pyStrLe (a b : String) : Bool := !pyStrLt b a

/-- Python `str.startswith`, computed on the character lists. -/
def pyStartsWith (s pre : String) : Bool := pre.data.isPrefixOf s.data

/-- Python truthiness (`bool(x)`). -/
def pyTruthy : Value → Bool
  | .none => false
  | .bool b => b
  | .num q => q ≠ 0
  | .str s => s ≠ ""
  | .list l => l ≠ []
  | .obj _ => true

/-- ASCII model of Python `str.isdigit` on a single character. -/
def pyIsDigit (c : Char) : Bool := '0' ≤ c && c ≤ '9'

/-- ASCII model of Python whitespace (as stripped by `str.strip`). -/
def pyIsSpace (c : Char) : Bool :=
  c = ' ' || c = '\t' || c = '\n' || c = '\x0d' || c = '\x0b' || c = '\x0c'

/-- Python `str.strip()` (strip whitespace from both ends). -/
def pyStrip (s : String) : String :=
  ⟨(s.data.dropWhile pyIsSpace).reverse.dropWhile pyIsSpace |>.reverse⟩

/-- Python `str.lower()` (ASCII). -/
def pyLower (s : String) : String := ⟨s.data.map Char.toLower⟩

/-- Python `str.upper()` (ASCII). -/
def pyUpper (s : String) : String := ⟨s.data.map Char.toUpper⟩

/-- Python substring test `needle in hay`. -/
def pyInStr (needle hay : String) : Bool :=
  go hay.data
where
  /-- Check `needle` as a prefix of every suffix of `hay`. -/
  go : List Char → Bool
    | [] => needle.data.isPrefixOf []
    | c :: rest => needle.data.isPrefixOf (c :: rest) || go rest

/-- Python `sep.join(parts)`. -/
def pyJoin (sep : String) : List String → String
  | [] => ""
  | [x] => x
  | x :: xs => x ++ sep ++ pyJoin sep xs

/-- Python `str.replace(old, new)` on character lists (all occurrences,
left to right, non-overlapping; `old` is never empty where the source
uses it).  Fuel-based structural recursion (each step consumes at least
one character, so `l.length` fuel is exact). -/
def pyReplaceListAux (old new : List Char) : Nat → List Char → List Char
  | 0, l => l
  | _ + 1, [] => []
  | fuel + 1, c :: rest =>
    if old ≠ [] ∧ old.isPrefixOf (c :: rest) then
      new ++ pyReplaceListAux old new fuel ((c :: rest).drop old.length)
    else
      c :: pyReplaceListAux old new fuel rest

/-- Python `str.replace(old, new)` on character lists. -/
def pyReplaceList (old new l : List Char) : List Char :=
  pyReplaceListAux old new l.length l

/-- Python `str.replace(old, new)` (all occurrences). -/
def pyReplace (s old new : String) : String :=
  ⟨pyReplaceList old.data new.data s.data⟩

/-- Python `str.replace(old, new, 1)` (first occurrence only). -/
def pyReplaceOnceList (old new : List Char) : List Char → List Char
  | [] => []
  | c :: rest =>
    if old ≠ [] ∧ old.isPrefixOf (c :: rest) then
      new ++ (c :: rest).drop old.length
    else
      c :: pyReplaceOnceList old new rest

/-- Python `str.replace(old, new, 1)`. -/
def pyReplaceOnce (s old new : String) : String :=
  ⟨pyReplaceOnceList old.data new.data s.data⟩

/-- Python `str.isdigit()` (nonempty, all digits). -/
def pyAllDigits (s : String) : Bool :=
  s.data ≠ [] && s.data.all pyIsDigit

/-- Digits of a character list read as a natural number. -/
def digitsToNat : List Char → Nat
  | [] => 0
  | c :: rest => digitsToNatAux (c.toNat - '0'.toNat) rest
where
  /-- Accumulating helper. -/
  digitsToNatAux (acc : Nat) : List Char → Nat
    | [] => acc
    | c :: rest => digitsToNatAux (acc * 10 + (c.toNat - '0'.toNat)) rest

/-- Python `int(s)`: strip whitespace, then an optional single sign
followed by at least one digit (digit-group underscores are not
modelled).  Returns an error — modelling a raised `ValueError` — on
anything else. -/
def pyIntE (s : String) : Except String Int :=
  let t := (pyStrip s).data
  match t with
  | '-' :: rest =>
    if rest ≠ [] ∧ rest.all pyIsDigit then .ok (-(digitsToNat rest : Int))
    else .error ("int() ValueError: " ++ s)
  | '+' :: rest =>
    if rest ≠ [] ∧ rest.all pyIsDigit then .ok (digitsToNat rest : Int)
    else .error ("int() ValueError: " ++ s)
  | rest =>
    if rest ≠ [] ∧ rest.all pyIsDigit then .ok (digitsToNat rest : Int)
    else .error ("int() ValueError: " ++ s)

/-- Python `int(s)` inside a `try/except ValueError` block. -/
def pyIntOpt (s : String) : Option Int :=
  match pyIntE s with
  | .ok n => some n
  | .error _ => none

/-- Association-list lookup, modelling Python `dict.get(key)`. -/
def alGet {κ α : Type} [DecidableEq κ] (l : List (κ × α)) (k : κ) : Option α :=
  match l with
  | [] => Option.none
  | (k', v) :: rest => if k' = k then some v else alGet rest k

/-- Association-list insert with Python dict semantics: an existing key
is overwritten in place, a new key is appended. -/
def alInsert {κ α : Type} [DecidableEq κ] (l : List (κ × α)) (k : κ) (v : α) :
    List (κ × α) :=
  match l with
  | [] => [(k, v)]
  | (k', v') :: rest =>
    if k' = k then (k', v) :: rest else (k', v') :: alInsert rest k v

/-- The keys of an association list, in insertion order. -/
def alKeys {κ α : Type} (l : List (κ × α)) : List κ := l.map Prod.fst

instance {ε α : Type} [DecidableEq ε] [DecidableEq α] :
    DecidableEq (Except ε α)
  | .ok a, .ok b => decidable_of_iff (a = b) (by simp)
  | .error e, .error f => decidable_of_iff (e = f) (by simp)
  | .ok _, .error _ => isFalse (by simp)
  | .error _, .ok _ => isFalse (by simp)

/-- Map a fallible function over a list, failing on the first error —
the behaviour of a Python `for` loop whose body may raise. -/
def mapME {α β : Type} (f : α → Except String β) : List α →
    Except String (List β)
  | [] => .ok []
  | x :: xs => do
    let y ← f x
    let ys ← mapME f xs
    pure (y :: ys)

/-- Rendering of a value by Python `str()`; numbers are rendered from
their `ℚ` model (integers exactly; non-integral rationals as fractions,
which differs from Python float formatting — no verified claim below
inspects a message built from a non-integral number). -/
def pyStr : Value → String
  | .none => "None"
  | .bool b => if b then "True" else "False"
  | .num q => if q.den = 1 then toString q.num else toString q
  | .str s => s
  | .list l => "[" ++ pyJoin ", " (l.map pyStrList) ++ "]"
  | .obj t => "<" ++ t ++ ">"
where
  /-- Element rendering inside a list (Python uses `repr`; quoting of
  strings is modelled without escape processing). -/
  pyStrList : Value → String
    | .str s => "'" ++ s ++ "'"
    | .none => "None"
    | .bool b => if b then "True" else "False"
    | .num q => if q.den = 1 then toString q.num else toString q
    | .list _ => "[...]"
    | .obj t => "<" ++ t ++ ">"

/-- Numeric view of a value for Python arithmetic/comparison: `bool` is
an `int` subclass in Python, so `True` counts as 1 and `False` as 0. -/
def toNum : Value → Option ℚ
  | .bool b => some (if b then 1 else 0)
  | .num q => some q
  | _ => Option.none

mutual

/-- Python `==` on values: numeric cross-type equality (including
`bool`), structural equality on strings and lists, `None == None`;
everything else compares unequal.  Never raises. -/
def pyEq : Value → Value → Bool
  | a, b =>
    match toNum a, toNum b with
    | some x, some y => x = y
    | _, _ =>
      match a, b with
      | .str s, .str t => s = t
      | .none, .none => true
      | .list l, .list m => pyEqList l m
      | _, _ => false

/-- Python `==` on lists (elementwise). -/
def pyEqList : List Value → List Value → Bool
  | [], [] => true
  | x :: xs, y :: ys => pyEq x y && pyEqList xs ys
  | _, _ => false

end

/-- Python `<` on values.  Numbers (and `bool`) compare numerically,
strings lexicographically by code point; any other combination raises
`TypeError`, modelled as an error.  (Python can also order lists
elementwise; no constraint in the verified claims orders lists, so that
case is conservatively modelled as an error.) -/
def pyLt (a b : Value) : Except String Bool :=
  match toNum a, toNum b with
  | some x, some y => .ok (decide (x < y))
  | _, _ =>
    match a, b with
    | .str s, .str t => .ok (decide (s < t))
    | _, _ => .error "TypeError: unorderable types"

/-- Python `<=`. -/
def pyLe (a b : Value) : Except String Bool :=
  match toNum a, toNum b with
  | some x, some y => .ok (decide (x ≤ y))
  | _, _ =>
    match a, b with
    | .str s, .str t => .ok (decide (s ≤ t))
    | _, _ => .error "TypeError: unorderable types"

/-- Python `>`. -/
def pyGt (a b : Value) : Except String Bool :=
  match toNum a, toNum b with
  | some x, some y => .ok (decide (y < x))
  | _, _ =>
    match a, b with
    | .str s, .str t => .ok (decide (t < s))
    | _, _ => .error "TypeError: unorderable types"

/-- Python `>=`. -/
def pyGe (a b : Value) : Except String Bool :=
  match toNum a, toNum b with
  | some x, some y => .ok (decide (y ≤ x))
  | _, _ =>
    match a, b with
    | .str s, .str t => .ok (decide (t ≤ s))
    | _, _ => .error "TypeError: unorderable types"

/-- Python `*` as used by the `multiply_lte` operator.  Numeric
multiplication succeeds; any non-numeric operand is modelled as an
error (Python `str * int` would produce a string that then fails the
subsequent `<=` anyway, so the observable run outcome agrees). -/
def pyMul (a b : Value) : Except String Value :=
  match toNum a, toNum b with
  | some x, some y => .ok (.num (qMul x y))
  | _, _ => .error "TypeError: unsupported operand types for *"

/-- Python `.lower()` called on a dynamically-typed value: raises
`AttributeError` unless the value is a string. -/
def pyLowerE : Value → Except String String
  | .str s => .ok (pyLower s)
  | _ => .error "AttributeError: lower"

/-- Python `.upper()` called on a dynamically-typed value. -/
def pyUpperE : Value → Except String String
  | .str s => .ok (pyUpper s)
  | _ => .error "AttributeError: upper"

/-- Python `value in set_of_strings`: requires the probe to be hashable
(a list raises `TypeError`); membership itself uses `==`. -/
def setMemE (v : Value) (set_ : List String) : Except String Bool :=
  match v with
  | .list _ => .error "TypeError: unhashable type"
  | _ => .ok (set_.any (fun s => pyEq v (.str s)))

/-- Severity of a constraint or finding. -/
inductive Severity where
  | critical : Severity
  | warning : Severity
  | info : Severity
deriving DecidableEq, Repr

/-- A single FPV component with flattened specs
(from `src/core/models.py`). -/
structure Component where
  id : String
  component_type : String
  manufacturer : String
  model : String
  weight_g : ℚ
  price_usd : ℚ
  category : String
  specs : List (String × Value)
deriving DecidableEq, Repr

/-- `Component.get`: resolve a dot-less field name from top-level
attributes first, then the flattened specs, with an explicit default.
Python `hasattr` would also find methods and dunder attributes; those
resolve to opaque objects and are modelled by `Value.obj` for the two
non-scalar attributes the dataclass declares (`specs` and the `get`
method itself); other special attribute names are not modelled (no
constraint path in the claims below reaches one). -/
def Component.getD (c : Component) (path : String) (dflt : Value) : Value :=
  if path = "id" then .str c.id
  else if path = "component_type" then .str c.component_type
  else if path = "manufacturer" then .str c.manufacturer
  else if path = "model" then .str c.model
  else if path = "weight_g" then .num c.weight_g
  else if path = "price_usd" then .num c.price_usd
  else if path = "category" then .str c.category
  else if path = "specs" then .obj "dict"
  else if path = "get" then .obj "method"
  else (alGet c.specs path).getD dflt

/-- `Component.get` with the default `None`. -/
def Component.get (c : Component) (path : String) : Value :=
  c.getD path .none

/-- A slot of a build: one component or an ordered list (motors). -/
inductive CompEntry where
  | one : Component → CompEntry
  | many : List Component → CompEntry
deriving DecidableEq, Repr

/-- Modelled from the spec: the `Build` declaration in
`src/core/models.py` is missing the metadata fields that
`core/fleet.py` supplies and `engines/discrepancy.py` reads (the source
file in `src/` declares only `name`, `drone_class` and `components`,
yet its own callers construct builds with a `nickname` and the craft
name check reads `build.nickname`).  Per spec §6 a build exposes
`nickname`; it is modelled as a string, empty when absent.  The
remaining metadata fields (`status`, `notes`, `tags`, ...) are read by
no code the claims touch and are omitted. -/
structure Build where
  name : String
  drone_class : String
  components : List (String × CompEntry)
  nickname : String := ""
deriving DecidableEq, Repr

/-- `Build.motors` (from `src/core/models.py`): the motor slot as a
list. -/
def Build.motors (b : Build) : List Component :=
  match alGet b.components "motor" with
  | some (.many l) => l
  | some (.one c) => [c]
  | Option.none => []

/-- `Build.motor_count`. -/
def Build.motor_count (b : Build) : Nat := b.motors.length

/-- `Build.get_component`: first element of a list slot, or the single
component. -/
def Build.get_component (b : Build) (comp_type : String) : Option Component :=
  match alGet b.components comp_type with
  | some (.many l) => l.head?
  | some (.one c) => some c
  | Option.none => Option.none

/-- Weight of one slot entry. -/
def CompEntry.weight : CompEntry → ℚ
  | .one c => c.weight_g
  | .many l => qSum (l.map Component.weight_g)

/-- Price of one slot entry. -/
def CompEntry.price : CompEntry → ℚ
  | .one c => c.price_usd
  | .many l => qSum (l.map Component.price_usd)

/-- `Build.all_up_weight_g`. -/
def Build.all_up_weight_g (b : Build) : ℚ :=
  qSum (b.components.map (fun kv => kv.2.weight))

/-- `Build.dry_weight_g` (all-up weight minus battery). -/
def Build.dry_weight_g (b : Build) : ℚ :=
  qSub b.all_up_weight_g
    (match b.get_component "battery" with
     | some batt => batt.weight_g
     | Option.none => 0)

/-- `Build.total_price_usd`. -/
def Build.total_price_usd (b : Build) : ℚ :=
  qSum (b.components.map (fun kv => kv.2.price))

/-- The `check` descriptor of a constraint: models the Python
`dict[str, Any]` with the defaults the resolver applies at each
`check.get(...)` site baked in as field defaults. -/
structure Check where
  operator : String := "expression"
  field_a : Value := .str ""
  field_b : Value := .str ""
  expression : String := ""
  multiplier : Value := .num 1
  field_b_high : Value := .str ""
deriving DecidableEq, Repr

/-- A single externally-authored compatibility rule
(from `src/core/models.py`). -/
structure Constraint where
  id : String
  category : String
  name : String
  description : String
  severity : Severity
  components : List String
  check : Check
  message_template : String
deriving DecidableEq, Repr

/-- Result of evaluating one constraint or firmware check against a
build (from `src/core/models.py`). -/
structure ValidationResult where
  constraint_id : String
  constraint_name : String
  severity : Severity
  passed : Bool
  message : String
  details : List (String × Value) := []
deriving DecidableEq, Repr

/-- Modelled from the spec: the `Discrepancy` dataclass is imported
from `core.models` by three engine modules and constructed by
`engines/discrepancy.py`, but its declaration is missing from
`src/core/models.py`.  Its fields are taken from spec §3 (identifier,
component type, category tag, severity, fleet value, detected value,
message, suggested fix), matching every construction site in the
source. -/
structure Discrepancy where
  id : String
  component_type : String
  category : String
  severity : Severity
  fleet_value : String
  detected_value : String
  message : String
  fix_suggestion : String
deriving DecidableEq, Repr

/-- A single UART/serial port configuration
(from `src/fc_serial/models.py`; baud fields are read by no claim and
omitted). -/
structure SerialPortConfig where
  port_id : Int
  function_mask : Int := 0
  functions : List String := []
deriving DecidableEq, Repr

/-- Parsed flight controller configuration
(from `src/fc_serial/models.py`; PID/rate profiles, aux modes and raw
text are read by none of the diagnostic code). -/
structure FCConfig where
  firmware : String
  firmware_version : String
  board_name : String := ""
  master_settings : List (String × String) := []
  features : List String := []
  serial_ports : List SerialPortConfig := []
  resource_mappings : List (String × String) := []
deriving DecidableEq, Repr

/-- `FCConfig.get_setting` with an explicit default. -/
def FCConfig.get_settingD (c : FCConfig) (key : String) (dflt : Option String) :
    Option String :=
  match alGet c.master_settings key with
  | some v => some v
  | Option.none => dflt

/-- `FCConfig.get_setting` with the default `None`. -/
def FCConfig.get_setting (c : FCConfig) (key : String) : Option String :=
  c.get_settingD key Option.none

/-- `FCConfig.has_feature` (case-insensitive). -/
def FCConfig.has_feature (c : FCConfig) (feature : String) : Bool :=
  c.features.any (fun f => pyUpper f = pyUpper feature)

/-- `FCConfig.get_serial_port_with_function`: first port carrying the
function. -/
def FCConfig.get_serial_port_with_function (c : FCConfig)
    (function_name : String) : Option SerialPortConfig :=
  c.serial_ports.find? (fun p => p.functions.contains function_name)

/-- `FCConfig.serial_ports_with_function`: all ports carrying the
function. -/
def FCConfig.serial_ports_with_function (c : FCConfig)
    (function_name : String) : List SerialPortConfig :=
  c.serial_ports.filter (fun p => p.functions.contains function_name)

/-! ## Field resolver and expression evaluator (`src/core/resolver.py`) -/

/-- The guard for the literal-float branch of `resolve_field`:
`"." in path and path.replace(".", "", 1).replace("-", "", 1).isdigit()`. -/
def floatGuard (s : String) : Bool :=
  pyInStr "." s && pyAllDigits (pyReplaceOnce (pyReplaceOnce s "." "") "-" "")

/-- The guard for the literal-int branch:
`path.lstrip("-").isdigit()`. -/
def intGuard (s : String) : Bool :=
  pyAllDigits ⟨s.data.dropWhile (· = '-')⟩

/-- Python `float(s)` on the restricted grammar the float guard admits
(an optional leading minus, digits with at most one dot, at least one
digit; the general `float` grammar with exponents never reaches this
call because the guard rejects it).  `Option.none` models a raised
`ValueError`. -/
def pyFloatOpt (s : String) : Option ℚ :=
  let (neg, t) :=
    match s.data with
    | '-' :: r => (true, r)
    | r => (false, r)
  if t.all (fun c => pyIsDigit c || c = '.') ∧
      (t.filter (· = '.')).length ≤ 1 ∧ (t.filter pyIsDigit) ≠ [] then
    let ip := t.takeWhile (· ≠ '.')
    let fp := (t.dropWhile (· ≠ '.')).drop 1
    let q : ℚ :=
      qAdd (mkRat (digitsToNat ip) 1) (mkRat (digitsToNat fp) (10 ^ fp.length))
    some (if neg then -q else q)
  else
    Option.none

/-- Python `int(s)` as reached from the literal-int branch (the guard
has verified `s.lstrip("-")` is all digits, so `int` succeeds iff at
most one leading minus is present). -/
def pyIntLit (s : String) : Option Int :=
  match pyIntE s with
  | .ok n => some n
  | .error _ => Option.none

/-- `_resolve_build_field`: the four build-level computed fields. -/
def resolve_build_field (field_name : String) (b : Build) : Value :=
  if field_name = "all_up_weight_g" then .num b.all_up_weight_g
  else if field_name = "dry_weight_g" then .num b.dry_weight_g
  else if field_name = "motor_count" then .num b.motor_count
  else if field_name = "total_price_usd" then .num b.total_price_usd
  else .none

/-- Python `str.split(".", 1)` when it yields two parts. -/
def splitOnceDot (s : String) : Option (String × String) :=
  let before := s.data.takeWhile (· ≠ '.')
  let rest := s.data.dropWhile (· ≠ '.')
  match rest with
  | '.' :: after => some (⟨before⟩, ⟨after⟩)
  | _ => Option.none

/-- The non-`calc:` part of `resolve_field` on an already-stripped
string: literal numbers, boolean literals, then two-part dot-path
resolution.  Identifier tokens produced by the expression tokenizer can
never carry a `calc:` prefix (the token grammar has no colon), so the
expression evaluator resolves its tokens through this function; the
full `resolve_field` below adds the `calc:` branch on top. -/
def resolveCore (path : String) (b : Build) : Value :=
  -- try: literal float / int (a parse failure falls through the
  -- whole try block, skipping the int branch too)
  let numAttempt : Option (Option ℚ) :=
    if floatGuard path then some (pyFloatOpt path)
    else if intGuard path then some ((pyIntLit path).map (fun n => (n : ℚ)))
    else Option.none
  match numAttempt with
  | some (some q) => .num q
  | _ =>
    if path = "true" then .bool true
    else if path = "false" then .bool false
    else
      match splitOnceDot path with
      | some (comp_type, field_name) =>
        if comp_type = "build" then resolve_build_field field_name b
        else
          match b.get_component comp_type with
          | Option.none => .none
          | some comp => comp.get field_name
      | Option.none => .none

/-- The character predicate of `[a-zA-Z_]` (a token start). -/
def wordStart (c : Char) : Bool := c.isAlpha || c = '_'

/-- The character predicate of `\w` (ASCII). -/
def wordChar (c : Char) : Bool := c.isAlphanum || c = '_'

/-- Consume the `(?:\.[a-zA-Z_]\w*)+` tail of a token: returns the
consumed characters (empty if no group matches) and the rest. -/
def dotGroups : Nat → List Char → (List Char × List Char)
  | 0, l => ([], l)
  | fuel + 1, '.' :: c :: rest =>
    if wordStart c then
      let w := (c :: rest).takeWhile wordChar
      let r := (c :: rest).dropWhile wordChar
      let (g, r') := dotGroups fuel r
      ('.' :: (w ++ g), r')
    else
      ([], '.' :: c :: rest)
  | _, l => ([], l)

/-- `re.findall(r"[a-zA-Z_]\w*(?:\.[a-zA-Z_]\w*)+", expr)`: scan left
to right for non-overlapping maximal dot-path tokens; a position with
no match advances by one character. -/
def findTokensAux : Nat → List Char → List String
  | 0, _ => []
  | _, [] => []
  | fuel + 1, c :: rest =>
    if wordStart c then
      let w := (c :: rest).takeWhile wordChar
      let r1 := (c :: rest).dropWhile wordChar
      let (g, r2) := dotGroups fuel r1
      if g ≠ [] then ⟨w ++ g⟩ :: findTokensAux fuel r2
      else findTokensAux fuel rest
    else
      findTokensAux fuel rest

/-- All dot-path tokens of an expression. -/
def findTokens (expr : String) : List String :=
  findTokensAux (expr.data.length + 1) expr.data

/-- Deduplicate preserving first occurrence (the `seen` set of the
source). -/
def dedupKeepFirst {α : Type} [DecidableEq α] (l : List α) : List α :=
  go [] l
where
  /-- Accumulating scan. -/
  go (seen : List α) : List α → List α
    | [] => []
    | x :: xs => if x ∈ seen then go seen xs else x :: go (x :: seen) xs

/-- `sorted(set(tokens), key=len, reverse=True)`: a stable sort by
length descending.  Python set iteration order is implementation
defined; this model uses first-occurrence order for equal lengths
(observable only when one token's substituted value contains another
token of the same length as text, which no claim below exercises). -/
def orderTokens (l : List String) : List String :=
  (dedupKeepFirst l).insertionSort (fun x y => y.length ≤ x.length)

/-- The literal text substituted for a resolved token: booleans
lower-cased, strings via `repr` (quoting modelled without escapes),
numbers via `str`. -/
def valueSubst : Value → String
  | .bool b => if b then "true" else "false"
  | .str s => "'" ++ s ++ "'"
  | v => pyStr v

/-- The token-substitution loop of `_eval_expression`: resolve each
token in order, failing the whole expression on the first unresolvable
token, otherwise replacing every occurrence of the token text by its
value literal. -/
def substituteTokens (b : Build) : List String → String → Option String
  | [], e => some e
  | t :: ts, e =>
    match resolveCore t b with
    | .none => Option.none
    | v => substituteTokens b ts (pyReplace e t (valueSubst v))

/-- The sanitizer whitelist of `_eval_expression`:
`set("0123456789.+-*/()<>= !&|truefalsTRUEFALS andornot\t\n ")`. -/
def allowedChars : List Char := "0123456789.+-*/()<>= !&|truefalsTRUEFALS andornot\t\n ".data

/-- One character passes the sanitizer: member of the whitelist **or
any alphabetic character** (`c in allowed or c.isalpha()`). -/
def sanitizeChar (c : Char) : Bool := allowedChars.contains c || c.isAlpha

/-- The substituted expression text passes the sanitizer. -/
def sanitizeOk (s : String) : Bool := s.data.all sanitizeChar

/-- `&&`/`||` normalization applied just before evaluation. -/
def normalizeBool (s : String) : String :=
  pyReplace (pyReplace s "&&" " and ") "||" " or "

/-- `_eval_expression`: extract and resolve all dot-path tokens
(unresolvable token ⇒ unresolvable expression), substitute, sanitize,
normalize and hand to the sandboxed evaluator.  The sandbox parameter
abstracts Python `eval` with empty builtins; an exception inside it and
an evaluation to `None` both yield `Value.none`, exactly as the
source's `try/except` collapses them. -/
def eval_expression (sandbox : String → Value) (expr : String) (b : Build) :
    Value :=
  match substituteTokens b (orderTokens (findTokens expr)) expr with
  | Option.none => .none
  | some t =>
    if sanitizeOk t then sandbox (normalizeBool t)
    else .none

/-- `resolve_field` on a dynamically-typed path value.  Numbers and
booleans (`isinstance(path, (int, float))` — `bool` is an `int`
subclass) are returned as-is; anything else is stringified and
stripped, then resolved as a literal, a boolean word, a `calc:`
expression, or a two-part dot-path.  The stringification of `None`,
lists and opaque objects never forms a resolvable path against the
builds of the claims below and is modelled as unresolvable. -/
def resolve_field (sandbox : String → Value) (path : Value) (b : Build) :
    Value :=
  match path with
  | .num q => .num q
  | .bool bb => .bool bb
  | .str s =>
    let s := pyStrip s
    if pyStartsWith s "calc:" then
      -- the literal-number and boolean branches cannot fire on a
      -- string with a colon, so testing the calc prefix first is
      -- behaviour-preserving
      eval_expression sandbox ⟨s.data.drop 5⟩ b
    else resolveCore s b
  | _ => .none

/-- The skipped result produced when a required slot is the unmodeled
`transmitter` slot. -/
def skipTransmitter (c : Constraint) : ValidationResult :=
  { constraint_id := c.id
    constraint_name := c.name
    severity := c.severity
    passed := true
    message := "Skipped — transmitter not in build model."
    details := [("skipped", .bool true)] }

/-- The skipped result produced when a required slot has no component
in the build. -/
def skipMissing (c : Constraint) (comp_type : String) : ValidationResult :=
  { constraint_id := c.id
    constraint_name := c.name
    severity := c.severity
    passed := true
    message := "Skipped — " ++ comp_type ++ " not present in build."
    details := [("skipped", .bool true)] }

/-- The required-components scan at the head of `evaluate_constraint`:
returns the skip result of the first required slot that is either the
unmodeled `transmitter` slot or absent from the build. -/
def requiredScan (c : Constraint) (b : Build) : List String →
    Option ValidationResult
  | [] => Option.none
  | comp_type :: rest =>
    if comp_type = "transmitter" then some (skipTransmitter c)
    else if (b.get_component comp_type).isNone then
      some (skipMissing c comp_type)
    else requiredScan c b rest

/-- `str(x) if x is not None else "?"` — the message-placeholder
rendering. -/
def strOrQ : Value → String
  | .none => "?"
  | v => pyStr v

/-- The message-template substitution of `evaluate_constraint`. -/
def formatMessage (template : String) (val_a val_b actual limit : Value) :
    String :=
  pyStrip
    (pyReplace
      (pyReplace
        (pyReplace
          (pyReplace template "{field_a}" (strOrQ val_a))
          "{field_b}" (strOrQ val_b))
        "{actual}" (strOrQ actual))
      "{limit}" (strOrQ limit))

/-- The result constructed at the foot of `evaluate_constraint` after
message formatting. -/
def finishResult (c : Constraint) (val_a val_b : Value) (passed : Bool)
    (actual limit : Value) : ValidationResult :=
  { constraint_id := c.id
    constraint_name := c.name
    severity := c.severity
    passed := passed
    message := formatMessage c.message_template val_a val_b actual limit
    details := [("actual", actual), ("limit", limit)] }

/-- The skipped result produced when a compared operand cannot be
resolved under a non-expression operator. -/
def skipUnresolved (c : Constraint) : ValidationResult :=
  { constraint_id := c.id
    constraint_name := c.name
    severity := c.severity
    passed := true
    message := "Skipped — could not resolve fields."
    details := [("skipped", .bool true),
                ("field_a", .str (pyStr c.check.field_a)),
                ("field_b", .str (pyStr c.check.field_b))] }

/-- `True if result is None else bool(result)` — how an expression
evaluation outcome becomes the `passed` flag (an unresolvable
expression is treated as passing). -/
def exprPassed : Value → Bool
  | .none => true
  | v => pyTruthy v

/-- The operator dispatch at the core of `evaluate_constraint`, after
the required-components scan, over the two resolved operands. -/
def evalCore (sandbox : String → Value) (c : Constraint) (b : Build)
    (val_a val_b : Value) : Except String ValidationResult :=
  let op := c.check.operator
  let finish (passed : Bool) (actual limit : Value) : ValidationResult :=
    finishResult c val_a val_b passed actual limit
  if op = "expression" then
      let expr := c.check.expression
      if expr ≠ "" then
        let result := eval_expression sandbox expr b
        .ok (finish (exprPassed result) result val_b)
      else
        .ok (finish true val_a val_b)
    else if val_a = .none ∨ val_b = .none then
      .ok (skipUnresolved c)
    else if op = "lt" then do
      let p ← pyLt val_a val_b
      .ok (finish p val_a val_b)
    else if op = "lte" then do
      let p ← pyLe val_a val_b
      .ok (finish p val_a val_b)
    else if op = "gt" then do
      let p ← pyGt val_a val_b
      .ok (finish p val_a val_b)
    else if op = "gte" then do
      let p ← pyGe val_a val_b
      .ok (finish p val_a val_b)
    else if op = "eq" then
      .ok (finish (pyEq val_a val_b) val_a val_b)
    else if op = "neq" then
      .ok (finish (!pyEq val_a val_b) val_a val_b)
    else if op = "in" then
      match val_b with
      | .list l => .ok (finish (l.any (fun x => pyEq val_a x)) val_a val_b)
      | _ => .ok (finish (pyEq val_a val_b) val_a val_b)
    else if op = "contains" then
      match val_a with
      | .list l => .ok (finish (l.any (fun x => pyEq val_b x)) val_a val_b)
      | _ => .ok (finish (pyEq val_a val_b) val_a val_b)
    else if op = "multiply_lte" then do
      let computed ← pyMul val_a c.check.multiplier
      let p ← pyLe computed val_b
      .ok (finish p computed val_b)
    else if op = "range" then
      let val_b_high := resolve_field sandbox c.check.field_b_high b
      if val_b_high ≠ .none then do
        -- chained comparison `val_b <= val_a <= val_b_high` with
        -- Python short-circuiting
        let p1 ← pyLe val_b val_a
        let p ← if p1 then pyLe val_a val_b_high else pure false
        .ok (finish p val_a
          (.str (pyStr val_b ++ " to " ++ pyStr val_b_high)))
      else do
        let p ← pyGe val_a val_b
        .ok (finish p val_a val_b)
    else
      -- unknown operator tag: `passed` keeps its initial `False`
      .ok (finish false val_a val_b)

/-- `evaluate_constraint`: evaluate one constraint against a build.
A result of `.error` models a raised Python exception (a type-mismatch
comparison); `.ok` carries the `ValidationResult` the source returns. -/
def evaluate_constraint (sandbox : String → Value) (c : Constraint)
    (b : Build) : Except String ValidationResult :=
  match requiredScan c b c.components with
  | some skip => .ok skip
  | Option.none =>
    evalCore sandbox c b (resolve_field sandbox c.check.field_a b)
      (resolve_field sandbox c.check.field_b b)

/-! ## Compatibility engine (`src/engines/compatibility.py`) -/

/-- Structured report produced by running constraints against a build
(the ANSI `summary()` rendering is presentation-layer and not
modelled). -/
structure ValidationReport where
  build_name : String
  results : List ValidationResult := []
deriving DecidableEq, Repr

/-- `ValidationReport.critical_failures`. -/
def ValidationReport.critical_failures (r : ValidationReport) :
    List ValidationResult :=
  r.results.filter (fun x => x.severity = Severity.critical && !x.passed)

/-- `ValidationReport.warnings`. -/
def ValidationReport.warnings (r : ValidationReport) :
    List ValidationResult :=
  r.results.filter (fun x => x.severity = Severity.warning && !x.passed)

/-- `ValidationReport.info`. -/
def ValidationReport.info (r : ValidationReport) : List ValidationResult :=
  r.results.filter (fun x => x.severity = Severity.info && !x.passed)

/-- `ValidationReport.passed`: true only if there are zero critical
failures. -/
def ValidationReport.passed (r : ValidationReport) : Bool :=
  r.critical_failures.length = 0

/-- `validate_build`: run every constraint of the externally-loaded
rule set against a full build (the rule set, loaded from YAML files
outside the diagnostic core, is a parameter). -/
def validate_build (sandbox : String → Value) (constraints : List Constraint)
    (b : Build) : Except String ValidationReport := do
  let results ← mapME (fun c => evaluate_constraint sandbox c b) constraints
  pure { build_name := b.name, results := results }

/-- One insertion into the transient component dict of `check_pair`: a
motor component is replicated to the conventional quantity of four. -/
def pairInsert (acc : List (String × CompEntry)) (comp : Component) :
    List (String × CompEntry) :=
  if comp.component_type = "motor" then
    alInsert acc "motor" (.many [comp, comp, comp, comp])
  else
    alInsert acc comp.component_type (.one comp)

/-- The transient minimal component dict of `check_pair`. -/
def pairComponents (comp_a comp_b : Component) : List (String × CompEntry) :=
  pairInsert (pairInsert [] comp_a) comp_b

/-- The transient minimal build of `check_pair`. -/
def pairBuild (comp_a comp_b : Component) : Build :=
  { name := "Pair check: " ++ comp_a.id ++ " + " ++ comp_b.id
    drone_class := "unknown"
    components := pairComponents comp_a comp_b
    nickname := "" }

/-- `check_pair`: build a minimal two-component build and evaluate only
the constraints whose full required-slot-type set is a subset of the
mini build's slots. -/
def check_pair (sandbox : String → Value) (constraints : List Constraint)
    (comp_a comp_b : Component) : Except String (List ValidationResult) :=
  let components := pairComponents comp_a comp_b
  let applicable := constraints.filter
    (fun c => c.components.all (fun t => (alKeys components).contains t))
  mapME (fun c => evaluate_constraint sandbox c (pairBuild comp_a comp_b))
    applicable

/-! ## Firmware cross-validator (`src/engines/firmware_validator.py`) -/

/-- `_MOTOR_PROTOCOL_MAP`: FC `motor_pwm_protocol` values to the set of
acceptable ESC protocol spec values. -/
def motorProtocolMap (key : String) : List String :=
  if key = "DSHOT600" then ["DShot600", "DShot1200"]
  else if key = "DSHOT300" then ["DShot300", "DShot600", "DShot1200"]
  else if key = "DSHOT150" then ["DShot150", "DShot300", "DShot600", "DShot1200"]
  else if key = "DSHOT1200" then ["DShot1200"]
  else if key = "MULTISHOT" then
    ["Multishot", "DShot150", "DShot300", "DShot600", "DShot1200"]
  else if key = "ONESHOT125" then
    ["Oneshot125", "Oneshot42", "Multishot", "DShot150", "DShot300",
     "DShot600", "DShot1200"]
  else if key = "ONESHOT42" then
    ["Oneshot42", "Multishot", "DShot150", "DShot300", "DShot600", "DShot1200"]
  else if key = "PWM" then
    ["PWM", "Oneshot125", "Oneshot42", "Multishot", "DShot150", "DShot300",
     "DShot600", "DShot1200"]
  else []

/-- `_SERIALRX_MAP`: FC `serialrx_provider` values to acceptable
receiver `output_protocol` spec values. -/
def serialrxMap (key : String) : List String :=
  if key = "CRSF" then ["CRSF"]
  else if key = "SBUS" then ["SBUS"]
  else if key = "IBUS" then ["IBUS"]
  else if key = "SPEKTRUM1024" then ["DSMX", "DSM2"]
  else if key = "SPEKTRUM2048" then ["DSMX", "DSM2"]
  else if key = "SUMD" then ["SUMD"]
  else if key = "SUMH" then ["SUMH"]
  else if key = "FPORT" then ["FPORT"]
  else if key = "GHST" then ["GHST"]
  else []

/-- `_result`: the shared result constructor of the firmware checks
(details left empty). -/
def fwResult (check_id name : String) (severity : Severity) (passed : Bool)
    (message : String) : ValidationResult :=
  { constraint_id := check_id
    constraint_name := name
    severity := severity
    passed := passed
    message := message
    details := [] }

/-- `get_setting(key, "")` when the source immediately treats the
value as a string. -/
def settingStr (config : FCConfig) (key : String) : String :=
  (config.get_settingD key (some "")).getD ""

/-- Truthiness of an optional setting (`None` and `""` are falsy). -/
def settingTruthy : Option String → Bool
  | Option.none => false
  | some s => s ≠ ""

/-- Python `needle in hay` where `hay` is a dynamically-typed value: a
substring test on strings, an `==`-based membership test on lists, a
raised `TypeError` elsewhere. -/
def pyInE (needle : String) (hay : Value) : Except String Bool :=
  match hay with
  | .str s => .ok (pyInStr needle s)
  | .list l => .ok (l.any (fun x => pyEq (.str needle) x))
  | _ => .error "TypeError: argument is not iterable"

/-- `{n/100:.2f}` for a centivolt integer setting. -/
def fmtCentivolt (n : Int) : String :=
  let sign := if n < 0 then "-" else ""
  let m := n.natAbs
  let frac := m % 100
  sign ++ toString (m / 100) ++ "." ++
    (if frac < 10 then "0" else "") ++ toString frac

/-- fw_001: motor protocol in FC matches ESC protocol. -/
def fw_check_motor_protocol (config : FCConfig) (b : Build) :
    Except String (Option ValidationResult) :=
  match b.get_component "esc" with
  | Option.none => .ok Option.none
  | some esc =>
    let fc_protocol := pyUpper (settingStr config "motor_pwm_protocol")
    let esc_protocol := esc.getD "protocol" (.str "")
    if fc_protocol = "" ∨ ¬ pyTruthy esc_protocol then
      .ok Option.none
    else do
      let mem ← setMemE esc_protocol (motorProtocolMap fc_protocol)
      if mem then
        .ok (some (fwResult "fw_001" "Motor protocol match" .critical true
          ("FC protocol " ++ fc_protocol ++ " is compatible with ESC " ++
            pyStr esc_protocol)))
      else
        .ok (some (fwResult "fw_001" "Motor protocol match" .critical false
          ("FC motor protocol " ++ fc_protocol ++
            " does not match ESC protocol " ++ pyStr esc_protocol ++
            " — motors may not spin")))

/-- fw_002: BLHeli_S ESCs cannot run DShot1200. -/
def fw_check_blheli_s_dshot1200 (config : FCConfig) (b : Build) :
    Except String (Option ValidationResult) :=
  match b.get_component "esc" with
  | Option.none => .ok Option.none
  | some esc =>
    let esc_firmware := esc.getD "firmware" (.str "")
    let fc_protocol := pyUpper (settingStr config "motor_pwm_protocol")
    if ¬ pyEq esc_firmware (.str "BLHeli_S") ∨ fc_protocol ≠ "DSHOT1200" then
      .ok Option.none
    else
      .ok (some (fwResult "fw_002" "BLHeli_S DShot1200 incompatibility"
        .critical false
        "BLHeli_S ESCs cannot run DShot1200 — use DShot600 or lower, or upgrade to BLHeli_32/AM32"))

/-- fw_003: bidirectional DShot needs BLHeli_32 or AM32. -/
def fw_check_bidir_dshot (config : FCConfig) (b : Build) :
    Except String (Option ValidationResult) :=
  if config.get_setting "dshot_bidir" ≠ some "ON" then .ok Option.none
  else
    match b.get_component "esc" with
    | Option.none => .ok Option.none
    | some esc =>
      let esc_firmware := esc.getD "firmware" (.str "")
      if pyEq esc_firmware (.str "BLHeli_32") ∨ pyEq esc_firmware (.str "AM32") then
        .ok (some (fwResult "fw_003" "Bidirectional DShot firmware" .warning true
          ("Bidirectional DShot enabled with compatible " ++
            pyStr esc_firmware ++ " ESC firmware")))
      else
        .ok (some (fwResult "fw_003" "Bidirectional DShot firmware" .warning false
          ("Bidirectional DShot requires BLHeli_32 or AM32, but ESC has " ++
            pyStr esc_firmware)))

/-- fw_004: `serialrx_provider` matches receiver output protocol. -/
def fw_check_receiver_protocol (config : FCConfig) (b : Build) :
    Except String (Option ValidationResult) :=
  match b.get_component "receiver" with
  | Option.none => .ok Option.none
  | some rx =>
    let fc_serialrx := pyUpper (settingStr config "serialrx_provider")
    let rx_protocol := rx.getD "output_protocol" (.str "")
    if fc_serialrx = "" ∨ ¬ pyTruthy rx_protocol then
      .ok Option.none
    else do
      let mem ← setMemE rx_protocol (serialrxMap fc_serialrx)
      if mem then
        .ok (some (fwResult "fw_004" "Receiver protocol match" .critical true
          ("FC serial RX provider " ++ fc_serialrx ++
            " matches receiver protocol " ++ pyStr rx_protocol)))
      else
        .ok (some (fwResult "fw_004" "Receiver protocol match" .critical false
          ("FC serial RX provider " ++ fc_serialrx ++
            " does not match receiver protocol " ++ pyStr rx_protocol ++
            " — no RC input")))

/-- fw_005: a serial port must have the SERIAL_RX function assigned. -/
def fw_check_receiver_uart (config : FCConfig) (b : Build) :
    Except String (Option ValidationResult) :=
  match b.get_component "receiver" with
  | Option.none => .ok Option.none
  | some _ =>
    if config.serial_ports = [] then .ok Option.none
    else
      match config.get_serial_port_with_function "SERIAL_RX" with
      | some rx_port =>
        .ok (some (fwResult "fw_005" "Receiver UART assigned" .critical true
          ("SERIAL_RX assigned to UART " ++ toString rx_port.port_id)))
      | Option.none =>
        .ok (some (fwResult "fw_005" "Receiver UART assigned" .critical false
          "No UART has SERIAL_RX function — receiver will not work. Assign serial RX in Ports tab."))

/-- fw_006: SBUS on F4 boards needs software inversion. -/
def fw_check_sbus_inversion (config : FCConfig) (b : Build) :
    Except String (Option ValidationResult) :=
  match b.get_component "receiver", b.get_component "fc" with
  | some rx, some fc =>
    let rx_protocol := rx.getD "output_protocol" (.str "")
    if ¬ pyEq rx_protocol (.str "SBUS") then .ok Option.none
    else do
      let mcu := fc.getD "mcu" (.str "")
      let has405 ← pyInE "F405" mcu
      let has411 ← pyInE "F411" mcu
      if ¬ has405 ∧ ¬ has411 then .ok Option.none
      else
        let serialrx_inverted := (config.get_settingD "serialrx_inverted" (some "OFF")).getD "OFF"
        if serialrx_inverted = "ON" then
          .ok (some (fwResult "fw_006" "SBUS inversion on F4" .warning true
            "SBUS inversion enabled for F4 board"))
        else
          .ok (some (fwResult "fw_006" "SBUS inversion on F4" .warning false
            ("SBUS on " ++ pyStr mcu ++
              " needs set serialrx_inverted = ON — F4 boards lack hardware inversion")))
  | _, _ => .ok Option.none

/-- fw_007: SmartAudio/Tramp VTX should have a UART for control. -/
def fw_check_vtx_uart (config : FCConfig) (b : Build) :
    Except String (Option ValidationResult) :=
  match b.get_component "vtx" with
  | Option.none => .ok Option.none
  | some vtx => do
    -- the source computes (and thereby type-checks) `system` even
    -- though only `type` is used by this check
    let _vtx_system ← pyLowerE (vtx.getD "system" (.str ""))
    let vtx_type ← pyLowerE (vtx.getD "type" (.str ""))
    if pyInStr "digital" vtx_type then .ok Option.none
    else if config.serial_ports = [] then .ok Option.none
    else
      let sa_port := config.get_serial_port_with_function "VTX_SMARTAUDIO"
      let tramp_port := config.get_serial_port_with_function "VTX_TRAMP"
      match sa_port.orElse (fun _ => tramp_port) with
      | some port =>
        .ok (some (fwResult "fw_007" "VTX UART assigned" .warning true
          ("VTX control UART assigned to port " ++ toString port.port_id)))
      | Option.none =>
        .ok (some (fwResult "fw_007" "VTX UART assigned" .warning false
          "No UART assigned for VTX control (SmartAudio/Tramp) — you won't be able to change VTX settings from OSD"))

/-- fw_008: DJI/HDZero/Walksnail VTX needs MSP DisplayPort on a UART. -/
def fw_check_dji_msp (config : FCConfig) (b : Build) :
    Except String (Option ValidationResult) :=
  match b.get_component "vtx" with
  | Option.none => .ok Option.none
  | some vtx => do
    let vtx_system ← pyLowerE (vtx.getD "system" (.str ""))
    let vtx_type ← pyLowerE (vtx.getD "type" (.str ""))
    let needs_msp := ["dji", "hdzero", "walksnail", "avatar"].any
      (fun kw => pyInStr kw vtx_system)
    if ¬ needs_msp ∧ ¬ pyInStr "digital" vtx_type then .ok Option.none
    else if ¬ needs_msp then .ok Option.none
    else if config.serial_ports = [] then .ok Option.none
    else
      let msp_port := config.get_serial_port_with_function "VTX_MSP"
      let displayport := config.get_serial_port_with_function "MSP_DISPLAYPORT"
      match msp_port.orElse (fun _ => displayport) with
      | some port =>
        .ok (some (fwResult "fw_008" "Digital VTX MSP DisplayPort" .critical true
          ("MSP/DisplayPort assigned to UART " ++ toString port.port_id ++
            " for digital VTX")))
      | Option.none =>
        .ok (some (fwResult "fw_008" "Digital VTX MSP DisplayPort" .critical false
          (pyStr (vtx.getD "system" (.str "Digital")) ++
            " VTX needs MSP DisplayPort on a UART — no OSD will be displayed")))

/-- fw_009: FC VTX table type should match VTX hardware.  The
`int(vtx_type_setting)` call sits outside any `try` block and is
reached — and can raise — whenever the declared VTX type contains
"digital" (Python `and` short-circuits otherwise). -/
def fw_check_vtx_type_match (config : FCConfig) (b : Build) :
    Except String (Option ValidationResult) :=
  match b.get_component "vtx" with
  | Option.none => .ok Option.none
  | some vtx =>
    let vtx_type_setting := config.get_setting "vtx_table_bands"
    if ¬ settingTruthy vtx_type_setting then .ok Option.none
    else do
      let _vtx_system ← pyLowerE (vtx.getD "system" (.str ""))
      let vtx_hw_type ← pyLowerE (vtx.getD "type" (.str ""))
      if pyInStr "digital" vtx_hw_type then do
        let n ← pyIntE (vtx_type_setting.getD "")
        if n > 0 then
          .ok (some (fwResult "fw_009" "VTX type match" .warning true
            "VTX table configured for digital VTX"))
        else .ok Option.none
      else .ok Option.none

/-- fw_010: `vbat_min_cell_voltage` should be in a reasonable range. -/
def fw_check_battery_min_voltage (config : FCConfig) (_b : Build) :
    Except String (Option ValidationResult) :=
  let min_v := config.get_setting "vbat_min_cell_voltage"
  if ¬ settingTruthy min_v then .ok Option.none
  else
    match pyIntOpt (min_v.getD "") with
    | Option.none => .ok Option.none
    | some min_val =>
      if 310 ≤ min_val ∧ min_val ≤ 360 then
        .ok (some (fwResult "fw_010" "Battery min cell voltage" .warning true
          ("Min cell voltage " ++ fmtCentivolt min_val ++ "V is reasonable")))
      else if min_val < 310 then
        .ok (some (fwResult "fw_010" "Battery min cell voltage" .warning false
          ("Min cell voltage " ++ fmtCentivolt min_val ++
            "V is dangerously low — risk of over-discharging LiPo")))
      else
        .ok (some (fwResult "fw_010" "Battery min cell voltage" .warning false
          ("Min cell voltage " ++ fmtCentivolt min_val ++
            "V is unusually high — will land early unnecessarily")))

/-- fw_011: FC cell detection should match battery cell count. -/
def fw_check_battery_cell_count (config : FCConfig) (b : Build) :
    Except String (Option ValidationResult) :=
  match b.get_component "battery" with
  | Option.none => .ok Option.none
  | some battery =>
    let bat_cells := battery.get "cell_count"
    if ¬ pyTruthy bat_cells then .ok Option.none
    else
      let max_v := config.get_setting "vbat_max_cell_voltage"
      if ¬ settingTruthy max_v then .ok Option.none
      else
        match pyIntOpt (max_v.getD "") with
        | Option.none => .ok Option.none
        | some max_val =>
          if 410 ≤ max_val ∧ max_val ≤ 440 then
            .ok (some (fwResult "fw_011" "Battery cell detection" .warning true
              ("Max cell voltage " ++ fmtCentivolt max_val ++
                "V is reasonable for " ++ pyStr bat_cells ++ "S battery")))
          else
            .ok (some (fwResult "fw_011" "Battery cell detection" .warning false
              ("Max cell voltage " ++ fmtCentivolt max_val ++
                "V may cause incorrect cell count detection for " ++
                pyStr bat_cells ++ "S battery")))

/-- fw_012: PID process denominator should be adequate for the DShot
protocol. -/
def fw_check_pid_loop_rate (config : FCConfig) (_b : Build) :
    Except String (Option ValidationResult) :=
  let pid_denom := config.get_setting "pid_process_denom"
  let fc_protocol := pyUpper (settingStr config "motor_pwm_protocol")
  if ¬ settingTruthy pid_denom then .ok Option.none
  else
    match pyIntOpt (pid_denom.getD "") with
    | Option.none => .ok Option.none
    | some denom =>
      if fc_protocol = "DSHOT1200" ∧ denom > 2 then
        .ok (some (fwResult "fw_012" "PID loop rate for DShot" .warning false
          ("DShot1200 performs best with pid_process_denom <= 2, currently " ++
            toString denom)))
      else if (fc_protocol = "DSHOT600" ∨ fc_protocol = "DSHOT300") ∧ denom > 4 then
        .ok (some (fwResult "fw_012" "PID loop rate for DShot" .warning false
          (fc_protocol ++ " works best with pid_process_denom <= 4, currently " ++
            toString denom)))
      else
        .ok (some (fwResult "fw_012" "PID loop rate for DShot" .warning true
          ("PID loop rate (denom=" ++ toString denom ++ ") adequate for " ++
            fc_protocol)))

/-- fw_013: gyro LPF1 frequency reasonable for the quad size. -/
def fw_check_gyro_filter (config : FCConfig) (b : Build) :
    Except String (Option ValidationResult) :=
  let lpf1 := config.get_setting "gyro_lpf1_static_hz"
  if ¬ settingTruthy lpf1 then .ok Option.none
  else
    match pyIntOpt (lpf1.getD "") with
    | Option.none => .ok Option.none
    | some lpf1_hz =>
      let drone_class := b.drone_class
      if lpf1_hz = 0 then
        .ok (some (fwResult "fw_013" "Gyro filter range" .info true
          "Gyro LPF1 disabled (using dynamic filtering)"))
      else if pyInStr "whoop" drone_class ∧ lpf1_hz > 200 then
        .ok (some (fwResult "fw_013" "Gyro filter range" .info false
          ("Gyro LPF1 at " ++ toString lpf1_hz ++
            "Hz is high for a whoop — consider 100-150Hz")))
      else if pyInStr "7inch" drone_class ∧ lpf1_hz > 200 then
        .ok (some (fwResult "fw_013" "Gyro filter range" .info false
          ("Gyro LPF1 at " ++ toString lpf1_hz ++
            "Hz may be too high for 7\" — consider 100-150Hz")))
      else
        .ok (some (fwResult "fw_013" "Gyro filter range" .info true
          ("Gyro LPF1 at " ++ toString lpf1_hz ++ "Hz is reasonable for " ++
            drone_class)))

/-- fw_014: RPM filter recommendation when bidirectional DShot and a
BLHeli_32/AM32 ESC are available.  As in fw_009 the `int(rpm_filter)`
call is unguarded. -/
def fw_check_rpm_filtering (config : FCConfig) (b : Build) :
    Except String (Option ValidationResult) :=
  let bidir := config.get_setting "dshot_bidir"
  let rpm_filter := config.get_setting "rpm_filter_harmonics"
  if bidir ≠ some "ON" then .ok Option.none
  else
    match b.get_component "esc" with
    | Option.none => .ok Option.none
    | some esc =>
      let esc_firmware := esc.getD "firmware" (.str "")
      if ¬ pyEq esc_firmware (.str "BLHeli_32") ∧ ¬ pyEq esc_firmware (.str "AM32") then
        .ok Option.none
      else if settingTruthy rpm_filter then do
        let n ← pyIntE (rpm_filter.getD "")
        if n > 0 then
          .ok (some (fwResult "fw_014" "RPM filtering" .info true
            ("RPM filtering enabled with " ++ rpm_filter.getD "" ++
              " harmonics — good for noise reduction")))
        else
          .ok (some (fwResult "fw_014" "RPM filtering" .info false
            "Bidirectional DShot is enabled with BLHeli_32/AM32 but RPM filtering is off — enable for better filtering"))
      else
        .ok (some (fwResult "fw_014" "RPM filtering" .info false
          "Bidirectional DShot is enabled with BLHeli_32/AM32 but RPM filtering is off — enable for better filtering"))

/-- fw_015: OSD feature should be enabled when the FC has an OSD chip. -/
def fw_check_osd_feature (config : FCConfig) (b : Build) :
    Except String (Option ValidationResult) :=
  match b.get_component "vtx", b.get_component "fc" with
  | some _, some fc =>
    let fc_osd := fc.getD "osd" (.str "")
    if ¬ pyTruthy fc_osd ∨ pyEq fc_osd (.str "none") then .ok Option.none
    else if config.has_feature "OSD" then
      .ok (some (fwResult "fw_015" "OSD feature" .warning true
        "OSD feature enabled"))
    else
      .ok (some (fwResult "fw_015" "OSD feature" .warning false
        "FC has OSD chip but OSD feature is disabled — enable it to see telemetry overlay"))
  | _, _ => .ok Option.none

/-- fw_016: TELEMETRY feature should match the receiver capability. -/
def fw_check_telemetry_feature (config : FCConfig) (b : Build) :
    Except String (Option ValidationResult) :=
  match b.get_component "receiver" with
  | Option.none => .ok Option.none
  | some rx =>
    let has_telemetry := rx.getD "telemetry" (.bool false)
    if ¬ pyTruthy has_telemetry then .ok Option.none
    else if config.has_feature "TELEMETRY" then
      .ok (some (fwResult "fw_016" "Telemetry feature" .info true
        "TELEMETRY feature enabled — receiver supports telemetry"))
    else
      .ok (some (fwResult "fw_016" "Telemetry feature" .info false
        "Receiver supports telemetry but TELEMETRY feature is disabled — enable for battery/RSSI on TX"))

/-- fw_017: ESC_SENSOR assignment when the ESC has a current sensor. -/
def fw_check_esc_sensor (config : FCConfig) (b : Build) :
    Except String (Option ValidationResult) :=
  match b.get_component "esc" with
  | Option.none => .ok Option.none
  | some esc =>
    let has_sensor := esc.getD "current_sensor" (.bool false)
    if ¬ pyTruthy has_sensor then .ok Option.none
    else
      match config.get_serial_port_with_function "ESC_SENSOR" with
      | some esc_sensor_port =>
        .ok (some (fwResult "fw_017" "ESC sensor feature" .info true
          ("ESC sensor on UART " ++ toString esc_sensor_port.port_id ++
            " — per-motor telemetry available")))
      | Option.none =>
        .ok (some (fwResult "fw_017" "ESC sensor feature" .info false
          "ESC has current sensor but no UART assigned for ESC_SENSOR — per-motor telemetry unavailable"))

/-- All ordered pairs `(l[i], l[j])` with `i < j` (the nested
`enumerate` loop of the serial-conflict scan). -/
def pairsAfter : List String → List (String × String)
  | [] => []
  | f1 :: rest => rest.map (fun f2 => (f1, f2)) ++ pairsAfter rest

/-- Whether two functions sharing a port conflict: GPS with SERIAL_RX,
two VTX_* functions, or two TELEMETRY_* functions. -/
def pairConflict (f1 f2 : String) : Bool :=
  if (f1 = "SERIAL_RX" || f2 = "SERIAL_RX") && (f1 = "GPS" || f2 = "GPS") then
    true
  else if pyStartsWith f1 "VTX_" && pyStartsWith f2 "VTX_" then true
  else if pyStartsWith f1 "TELEMETRY_" && pyStartsWith f2 "TELEMETRY_" then true
  else false

/-- The conflict strings contributed by one port. -/
def portConflicts (port : SerialPortConfig) : List String :=
  let active := port.functions.filter (fun f => f ≠ "UNUSED")
  ((pairsAfter active).filter (fun p => pairConflict p.1 p.2)).map
    (fun p => "UART" ++ toString port.port_id ++ ": " ++ p.1 ++ " + " ++ p.2)

/-- fw_018: no conflicting function assignments on the same UART; all
violations of a run are aggregated into one failing result. -/
def fw_check_serial_conflicts (config : FCConfig) (_b : Build) :
    Except String (Option ValidationResult) :=
  if config.serial_ports = [] then .ok Option.none
  else
    let conflicts := config.serial_ports.flatMap portConflicts
    if conflicts ≠ [] then
      .ok (some (fwResult "fw_018" "Serial port conflicts" .critical false
        ("Conflicting serial assignments: " ++ pyJoin "; " conflicts)))
    else
      .ok (some (fwResult "fw_018" "Serial port conflicts" .critical true
        "No conflicting serial port assignments"))

/-- fw_019: iNav navigation settings reasonable for the drone class. -/
def fw_check_inav_nav_settings (config : FCConfig) (b : Build) :
    Except String (Option ValidationResult) :=
  if config.firmware ≠ "INAV" then .ok Option.none
  else
    let nav_max_speed := config.get_setting "nav_mc_vel_xy_max"
    if ¬ settingTruthy nav_max_speed then .ok Option.none
    else
      let drone_class := b.drone_class
      match pyIntOpt (nav_max_speed.getD "") with
      | Option.none => .ok Option.none
      | some speed =>
        if pyInStr "7inch" drone_class ∨ pyInStr "lr" drone_class then
          if speed < 500 then
            .ok (some (fwResult "fw_019" "iNav nav speed settings" .warning false
              ("nav_mc_vel_xy_max=" ++ toString speed ++
                " is low for long range — consider 800-1200")))
          else
            .ok (some (fwResult "fw_019" "iNav nav speed settings" .warning true
              ("Nav speed " ++ toString speed ++ " cm/s is reasonable for " ++
                drone_class)))
        else if pyInStr "whoop" drone_class ∧ speed > 800 then
          .ok (some (fwResult "fw_019" "iNav nav speed settings" .warning false
            ("nav_mc_vel_xy_max=" ++ toString speed ++
              " is high for a whoop — consider 300-500")))
        else .ok Option.none

/-- fw_020: iNav fixed-wing settings for the flying-wing class. -/
def fw_check_inav_fixed_wing (config : FCConfig) (b : Build) :
    Except String (Option ValidationResult) :=
  if config.firmware ≠ "INAV" then .ok Option.none
  else if b.drone_class ≠ "flying_wing" then .ok Option.none
  else
    let platform := config.get_setting "platform_type"
    if ¬ settingTruthy platform then .ok Option.none
    else
      let p := platform.getD ""
      if pyUpper p = "AIRPLANE" ∨ pyUpper p = "FLYING_WING" then
        .ok (some (fwResult "fw_020" "iNav fixed-wing platform" .warning true
          ("Platform type '" ++ p ++ "' correct for flying wing")))
      else
        .ok (some (fwResult "fw_020" "iNav fixed-wing platform" .warning false
          ("Platform type '" ++ p ++
            "' should be AIRPLANE or FLYING_WING for flying wing drone class")))

/-- `ALL_CHECKS`: the firmware check registry, in source order. -/
def ALL_CHECKS : List (FCConfig → Build → Except String (Option ValidationResult)) :=
  [fw_check_motor_protocol, fw_check_blheli_s_dshot1200, fw_check_bidir_dshot,
   fw_check_receiver_protocol, fw_check_receiver_uart, fw_check_sbus_inversion,
   fw_check_vtx_uart, fw_check_dji_msp, fw_check_vtx_type_match,
   fw_check_battery_min_voltage, fw_check_battery_cell_count,
   fw_check_pid_loop_rate, fw_check_gyro_filter, fw_check_rpm_filtering,
   fw_check_osd_feature, fw_check_telemetry_feature, fw_check_esc_sensor,
   fw_check_serial_conflicts, fw_check_inav_nav_settings,
   fw_check_inav_fixed_wing]

/-- `validate_firmware_config`: run all firmware cross-validation
checks, collecting the non-`None` results in order. -/
def validate_firmware_config (config : FCConfig) (b : Build) :
    Except String ValidationReport := do
  let opts ← mapME (fun check => check config b) ALL_CHECKS
  pure { build_name := b.name, results := opts.reduceOption }

/-! ## Discrepancy detector (`src/engines/discrepancy.py`) -/

/-- disc_001: FC board mismatch — config board name vs fleet FC MCU. -/
def disc_check_fc_board (config : FCConfig) (b : Build) :
    Except String (Option Discrepancy) :=
  match b.get_component "fc" with
  | Option.none => .ok Option.none
  | some fc =>
    let fleet_mcu := fc.getD "mcu" (.str "")
    let board_name := config.board_name
    if ¬ pyTruthy fleet_mcu ∨ board_name = "" then .ok Option.none
    else do
      let fleet_mcu_upper ← pyUpperE fleet_mcu
      let board_upper := pyUpper board_name
      let mcu_short := pyReplace (pyReplace fleet_mcu_upper "STM32" "") "AT32" ""
      if mcu_short ≠ "" ∧ pyInStr mcu_short board_upper then .ok Option.none
      else
        let mcu_family :=
          if mcu_short.data.length ≥ 2 then ⟨mcu_short.data.take 2⟩ else ""
        if mcu_family ≠ "" ∧ pyInStr mcu_family board_upper then .ok Option.none
        else
          .ok (some
            { id := "disc_001"
              component_type := "fc"
              category := "identity"
              severity := .critical
              fleet_value := fc.manufacturer ++ " " ++ fc.model ++ " (" ++
                pyStr fleet_mcu ++ ")"
              detected_value := "Board: " ++ board_name
              message := "FC board '" ++ board_name ++
                "' does not match fleet MCU '" ++ pyStr fleet_mcu ++
                "' — the flight controller may have been swapped"
              fix_suggestion := "If you replaced the FC, update the fleet record with the new FC. If this is the same FC, verify the board_name target in Betaflight Configurator." })

/-- disc_002: receiver protocol mismatch — `serialrx_provider` vs fleet
receiver. -/
def disc_check_receiver_protocol (config : FCConfig) (b : Build) :
    Except String (Option Discrepancy) :=
  match b.get_component "receiver" with
  | Option.none => .ok Option.none
  | some rx =>
    let fc_serialrx := settingStr config "serialrx_provider"
    let fleet_protocol := rx.getD "output_protocol" (.str "")
    if fc_serialrx = "" ∨ ¬ pyTruthy fleet_protocol then .ok Option.none
    else do
      let mem ← setMemE fleet_protocol (serialrxMap (pyUpper fc_serialrx))
      if mem then .ok Option.none
      else
        .ok (some
          { id := "disc_002"
            component_type := "receiver"
            category := "protocol"
            severity := .critical
            fleet_value := rx.manufacturer ++ " " ++ rx.model ++ " (" ++
              pyStr fleet_protocol ++ ")"
            detected_value := "serialrx_provider = " ++ fc_serialrx
            message := "FC serial RX provider '" ++ fc_serialrx ++
              "' does not match fleet receiver protocol '" ++
              pyStr fleet_protocol ++ "' — receiver may have been swapped"
            fix_suggestion := "If you swapped the receiver, update the fleet record. If the FC is misconfigured, change serialrx_provider in Betaflight Configurator → Configuration → Receiver." })

/-- disc_003: VTX type mismatch — analog (SmartAudio/Tramp) vs digital
(MSP); fires only when exactly one side is unambiguous. -/
def disc_check_vtx_type (config : FCConfig) (b : Build) :
    Except String (Option Discrepancy) :=
  match b.get_component "vtx" with
  | Option.none => .ok Option.none
  | some vtx => do
    let fleet_type ← pyLowerE (vtx.getD "type" (.str ""))
    if fleet_type = "" then .ok Option.none
    else if config.serial_ports = [] then .ok Option.none
    else
      let fleet_is_digital := pyInStr "digital" fleet_type
      let has_smartaudio :=
        (config.get_serial_port_with_function "VTX_SMARTAUDIO").isSome
      let has_tramp := (config.get_serial_port_with_function "VTX_TRAMP").isSome
      let has_vtx_msp := (config.get_serial_port_with_function "VTX_MSP").isSome
      let has_msp_dp :=
        (config.get_serial_port_with_function "MSP_DISPLAYPORT").isSome
      let config_is_analog := has_smartaudio || has_tramp
      let config_is_digital := has_vtx_msp || has_msp_dp
      if ¬ config_is_analog ∧ ¬ config_is_digital then .ok Option.none
      else if fleet_is_digital ∧ config_is_analog ∧ ¬ config_is_digital then
        let analog_fn := if has_smartaudio then "VTX_SMARTAUDIO" else "VTX_TRAMP"
        let port_id :=
          match config.get_serial_port_with_function analog_fn with
          | some port => toString port.port_id
          | Option.none => "?"
        .ok (some
          { id := "disc_003"
            component_type := "vtx"
            category := "identity"
            severity := .critical
            fleet_value := vtx.manufacturer ++ " " ++ vtx.model ++ " (" ++
              pyStr (vtx.getD "type" (.str "")) ++ ")"
            detected_value := analog_fn ++ " on UART " ++ port_id ++
              " (Analog VTX)"
            message := "Fleet says digital VTX but FC has analog VTX control (" ++
              analog_fn ++ ") — VTX may have been swapped"
            fix_suggestion := "If you swapped to an analog VTX, update the fleet record. If the FC is misconfigured, switch the UART to VTX (MSP+DisplayPort) for digital." })
      else if ¬ fleet_is_digital ∧ config_is_digital ∧ ¬ config_is_analog then
        .ok (some
          { id := "disc_003"
            component_type := "vtx"
            category := "identity"
            severity := .critical
            fleet_value := vtx.manufacturer ++ " " ++ vtx.model ++ " (" ++
              pyStr (vtx.getD "type" (.str "")) ++ ")"
            detected_value := "VTX_MSP / MSP_DISPLAYPORT (Digital VTX)"
            message := "Fleet says analog VTX but FC has digital VTX control (MSP) — VTX may have been swapped"
            fix_suggestion := "If you swapped to a digital VTX, update the fleet record. If the FC is misconfigured, switch the UART to SmartAudio or Tramp for analog." })
      else .ok Option.none

/-- disc_004: motor protocol mismatch — FC `motor_pwm_protocol` vs ESC
spec. -/
def disc_check_motor_protocol (config : FCConfig) (b : Build) :
    Except String (Option Discrepancy) :=
  match b.get_component "esc" with
  | Option.none => .ok Option.none
  | some esc =>
    let fc_protocol := pyUpper (settingStr config "motor_pwm_protocol")
    let esc_protocol := esc.getD "protocol" (.str "")
    if fc_protocol = "" ∨ ¬ pyTruthy esc_protocol then .ok Option.none
    else do
      let mem ← setMemE esc_protocol (motorProtocolMap fc_protocol)
      if mem then .ok Option.none
      else
        .ok (some
          { id := "disc_004"
            component_type := "esc"
            category := "protocol"
            severity := .warning
            fleet_value := esc.manufacturer ++ " " ++ esc.model ++
              " (supports " ++ pyStr esc_protocol ++ ")"
            detected_value := "motor_pwm_protocol = " ++ fc_protocol
            message := "FC motor protocol '" ++ fc_protocol ++
              "' is not compatible with fleet ESC protocol '" ++
              pyStr esc_protocol ++
              "' — ESC may have been swapped or FC misconfigured"
            fix_suggestion := "If you swapped the ESC, update the fleet record. Otherwise, change motor protocol in Betaflight Configurator → Configuration → ESC/Motor Features." })

/-- disc_005: ESC firmware mismatch — bidirectional DShot implies
BLHeli_32/AM32. -/
def disc_check_bidir_dshot_firmware (config : FCConfig) (b : Build) :
    Except String (Option Discrepancy) :=
  if config.get_setting "dshot_bidir" ≠ some "ON" then .ok Option.none
  else
    match b.get_component "esc" with
    | Option.none => .ok Option.none
    | some esc =>
      let esc_firmware := esc.getD "firmware" (.str "")
      if ¬ pyTruthy esc_firmware then .ok Option.none
      else if pyEq esc_firmware (.str "BLHeli_32") ∨ pyEq esc_firmware (.str "AM32") then
        .ok Option.none
      else
        .ok (some
          { id := "disc_005"
            component_type := "esc"
            category := "feature"
            severity := .warning
            fleet_value := esc.manufacturer ++ " " ++ esc.model ++ " (" ++
              pyStr esc_firmware ++ ")"
            detected_value := "dshot_bidir = ON (requires BLHeli_32 or AM32)"
            message := "Bidirectional DShot is enabled but fleet ESC has " ++
              pyStr esc_firmware ++
              " firmware — ESC may have been upgraded or swapped"
            fix_suggestion := "If you upgraded/swapped the ESC to BLHeli_32 or AM32, update the fleet record. If the fleet record is correct, disable bidirectional DShot." })

/-- disc_006: battery chemistry vs the configured per-cell voltage
ceiling. -/
def disc_check_battery_cells (config : FCConfig) (b : Build) :
    Except String (Option Discrepancy) :=
  match b.get_component "battery" with
  | Option.none => .ok Option.none
  | some battery =>
    let fleet_cells := battery.get "cell_count"
    if ¬ pyTruthy fleet_cells then .ok Option.none
    else
      -- the source also reads `vbat_warning_cell_voltage` but never
      -- uses it
      let max_v := config.get_setting "vbat_max_cell_voltage"
      if ¬ settingTruthy max_v then .ok Option.none
      else
        match pyIntOpt (max_v.getD "") with
        | Option.none => .ok Option.none
        | some max_val =>
          let battery_type := battery.getD "chemistry" (.str "LiPo")
          if pyEq battery_type (.str "LiHV") ∧ max_val < 430 then
            .ok (some
              { id := "disc_006"
                component_type := "battery"
                category := "feature"
                severity := .warning
                fleet_value := pyStr fleet_cells ++ "S " ++ pyStr battery_type ++
                  " (max 4.35V/cell)"
                detected_value := "vbat_max_cell_voltage = " ++
                  fmtCentivolt max_val ++ "V"
                message := "Fleet battery is " ++ pyStr battery_type ++
                  " (4.35V/cell max) but FC max cell voltage is " ++
                  fmtCentivolt max_val ++ "V — battery type may have changed"
                fix_suggestion := "If you switched to HV LiPo, set vbat_max_cell_voltage to 435 in CLI. If still using standard LiPo, update the fleet record." })
          else if ¬ pyEq battery_type (.str "LiHV") ∧ max_val ≥ 435 then
            .ok (some
              { id := "disc_006"
                component_type := "battery"
                category := "feature"
                severity := .warning
                fleet_value := pyStr fleet_cells ++ "S " ++ pyStr battery_type ++
                  " (max 4.20V/cell)"
                detected_value := "vbat_max_cell_voltage = " ++
                  fmtCentivolt max_val ++ "V (HV LiPo setting)"
                message := "Fleet battery is standard " ++ pyStr battery_type ++
                  " but FC is set for HV LiPo (" ++ fmtCentivolt max_val ++
                  "V/cell) — battery may have been swapped"
                fix_suggestion := "If you switched to HV LiPo, update the fleet battery record. Otherwise, set vbat_max_cell_voltage to 430 in CLI." })
          else .ok Option.none

/-- disc_007: craft name mismatch — FC craft name vs build name or
nickname. -/
def disc_check_craft_name (config : FCConfig) (b : Build) :
    Except String (Option Discrepancy) :=
  let craft_name0 := settingStr config "name"
  let craft_name :=
    if craft_name0 = "" then settingStr config "craft_name" else craft_name0
  if craft_name = "" then .ok Option.none
  else
    let build_name := pyStrip (pyLower b.name)
    let build_nickname := pyStrip (pyLower b.nickname)
    let craft_lower := pyStrip (pyLower craft_name)
    if craft_lower = build_name ∨ craft_lower = build_nickname then
      .ok Option.none
    else if pyInStr craft_lower build_name ∨ pyInStr build_name craft_lower then
      .ok Option.none
    else if build_nickname ≠ "" ∧
        (pyInStr craft_lower build_nickname ∨
          pyInStr build_nickname craft_lower) then
      .ok Option.none
    else
      .ok (some
        { id := "disc_007"
          component_type := "fc"
          category := "identity"
          severity := .info
          fleet_value := "'" ++ b.name ++ "'" ++
            (if b.nickname ≠ "" then " / '" ++ b.nickname ++ "'" else "")
          detected_value := "craft_name = '" ++ craft_name ++ "'"
          message := "FC craft name '" ++ craft_name ++
            "' does not match fleet drone name — may indicate a different drone"
          fix_suggestion := "Update the craft name in Betaflight CLI: set name = YOUR_DRONE_NAME" })

/-- disc_008: GPS presence mismatch — FC GPS feature/UART vs fleet GPS
component. -/
def disc_check_gps_presence (config : FCConfig) (b : Build) :
    Except String (Option Discrepancy) :=
  let fleet_has_gps := (b.get_component "gps").isSome
  let config_has_gps := config.has_feature "GPS" ||
    (config.get_serial_port_with_function "GPS").isSome
  if fleet_has_gps = config_has_gps then .ok Option.none
  else if fleet_has_gps ∧ ¬ config_has_gps then
    .ok (some
      { id := "disc_008"
        component_type := "gps"
        category := "feature"
        severity := .info
        fleet_value :=
          match b.get_component "gps" with
          | some gps => "GPS: " ++ gps.manufacturer ++ " " ++ gps.model
          | Option.none => "GPS present"
        detected_value := "No GPS feature or UART configured"
        message := "Fleet has a GPS component but FC has no GPS configured — GPS may have been removed"
        fix_suggestion := "If you removed the GPS, remove it from the fleet record. If GPS should be active, enable GPS feature and assign a UART." })
  else
    .ok (some
      { id := "disc_008"
        component_type := "gps"
        category := "feature"
        severity := .info
        fleet_value := "No GPS in fleet record"
        detected_value := "GPS feature/UART configured in FC"
        message := "FC has GPS configured but fleet record has no GPS component — GPS may have been added"
        fix_suggestion := "If you added a GPS module, add it to the fleet record." })

/-- disc_009: ESC telemetry mismatch — ESC_SENSOR feature vs the fleet
ESC current sensor. -/
def disc_check_esc_telemetry (config : FCConfig) (b : Build) :
    Except String (Option Discrepancy) :=
  match b.get_component "esc" with
  | Option.none => .ok Option.none
  | some esc =>
    let fleet_has_sensor := esc.getD "current_sensor" (.bool false)
    let config_has_esc_sensor := config.has_feature "ESC_SENSOR" ||
      (config.get_serial_port_with_function "ESC_SENSOR").isSome
    if pyEq fleet_has_sensor (.bool config_has_esc_sensor) then .ok Option.none
    else if pyTruthy fleet_has_sensor ∧ ¬ config_has_esc_sensor then
      .ok (some
        { id := "disc_009"
          component_type := "esc"
          category := "feature"
          severity := .info
          fleet_value := esc.manufacturer ++ " " ++ esc.model ++
            " (has current sensor)"
          detected_value := "ESC_SENSOR not enabled"
          message := "Fleet ESC has current sensor but FC doesn't have ESC_SENSOR enabled — may be intentionally unused"
          fix_suggestion := "To enable per-motor telemetry, assign ESC_SENSOR to a UART in Betaflight Ports tab." })
    else
      .ok (some
        { id := "disc_009"
          component_type := "esc"
          category := "feature"
          severity := .info
          fleet_value := esc.manufacturer ++ " " ++ esc.model ++
            " (no current sensor listed)"
          detected_value := "ESC_SENSOR is enabled"
          message := "FC has ESC_SENSOR enabled but fleet ESC doesn't list a current sensor — ESC may have been upgraded"
          fix_suggestion := "If you upgraded the ESC, update the fleet record with current_sensor: true." })

/-- disc_010: motor count mismatch — MOTOR resource mappings vs the
build motor count. -/
def disc_check_motor_count (config : FCConfig) (b : Build) :
    Except String (Option Discrepancy) :=
  if config.resource_mappings = [] then .ok Option.none
  else
    let motor_resources :=
      (alKeys config.resource_mappings).filter (fun k => pyStartsWith k "MOTOR ")
    let config_motor_count := motor_resources.length
    if config_motor_count = 0 then .ok Option.none
    else
      let fleet_motor_count := b.motor_count
      if config_motor_count = fleet_motor_count then .ok Option.none
      else
        .ok (some
          { id := "disc_010"
            component_type := "motor"
            category := "identity"
            severity := .warning
            fleet_value := toString fleet_motor_count ++ " motors"
            detected_value := toString config_motor_count ++
              " MOTOR resource mappings"
            message := "FC has " ++ toString config_motor_count ++
              " motor outputs configured but fleet has " ++
              toString fleet_motor_count ++
              " motors — frame or motor setup may have changed"
            fix_suggestion := "If the motor count changed (e.g. quad to hex), update the fleet record's drone class and motors." })

/-- `ALL_DISCREPANCY_CHECKS`: the discrepancy check registry, in source
order. -/
def ALL_DISCREPANCY_CHECKS :
    List (FCConfig → Build → Except String (Option Discrepancy)) :=
  [disc_check_fc_board, disc_check_receiver_protocol, disc_check_vtx_type,
   disc_check_motor_protocol, disc_check_bidir_dshot_firmware,
   disc_check_battery_cells, disc_check_craft_name, disc_check_gps_presence,
   disc_check_esc_telemetry, disc_check_motor_count]

/-- `detect_discrepancies`: compare the FC config against the fleet
build, returning all detected discrepancies in registry order. -/
def detect_discrepancies (config : FCConfig) (b : Build) :
    Except String (List Discrepancy) := do
  let opts ← mapME (fun check => check config b) ALL_DISCREPANCY_CHECKS
  pure opts.reduceOption

/-! ## Symptom mapper and prioritizer (`src/engines/symptom_map.py`) -/

/-- Python `str.split()` (split on whitespace runs, dropping empties),
used to count the words of a keyword phrase. -/
def pySplitWSAux : Nat → List Char → List String
  | 0, _ => []
  | fuel + 1, l =>
    match l.dropWhile pyIsSpace with
    | [] => []
    | l1 =>
      ⟨l1.takeWhile (fun c => ¬ pyIsSpace c)⟩ ::
        pySplitWSAux fuel (l1.dropWhile (fun c => ¬ pyIsSpace c))

/-- Python `str.split()`. -/
def pySplitWS (s : String) : List String :=
  pySplitWSAux (s.data.length + 1) s.data

/-- Round-half-to-even on rationals (the rounding mode of Python
`round`). -/
def roundHalfEven (q : ℚ) : ℤ :=
  let n := qFloor q
  let r := qSub q (mkRat n 1)
  if r < mkRat 1 2 then n
  else if mkRat 1 2 < r then n + 1
  else if Even n then n else n + 1

/-- Python `round(x, 2)` on the `ℚ` model of a float. -/
def pyRound2 (q : ℚ) : ℚ := mkRat (roundHalfEven (qMul q 100)) 100

/-- `_SYMPTOM_KEYWORDS`: the fuzzy-matching keyword index, verbatim
from the source. -/
def symptomKeywords : List (String × List String) :=
  [("cant_arm",
    ["arm", "wont arm", "won't arm", "not arming", "cant arm", "can't arm",
     "arming", "disarmed", "failsafe arming", "arm switch", "wont disarm",
     "refuses to arm", "unable to arm", "arming disabled", "arming prevention"]),
   ("motors_wont_spin",
    ["motor", "spin", "not spinning", "wont spin", "won't spin",
     "motors dead", "no motor", "props not turning", "propellers not spinning",
     "esc not initializing", "esc beeping", "esc no tones", "motor not responding",
     "props wont spin", "motors stopped", "motors not working"]),
   ("flips_on_takeoff",
    ["flip", "flips", "flips on takeoff", "flip on arm", "flip on takeoff",
     "crashes immediately", "death roll", "tumble", "rolls over",
     "yaw spin", "flips over", "instant crash", "takes off sideways"]),
   ("no_video",
    ["video", "no video", "black screen", "no image", "vtx", "osd",
     "blank goggles", "no feed", "static", "no osd", "no display",
     "video black", "goggles black", "no picture", "video lost",
     "screen blank", "no fpv", "fpv black"]),
   ("no_receiver",
    ["receiver", "no receiver", "rx not working", "no rc", "no signal",
     "rc input", "no channels", "receiver not detected", "rx dead",
     "no rx", "rc not connected", "receiver disconnected", "sbus",
     "crsf not working", "elrs not binding", "no rc input"]),
   ("low_range",
    ["range", "low range", "signal drop", "signal loss", "failsafe range",
     "short range", "rssi low", "rssi drops", "link quality", "lq drops",
     "connection drops", "drops out", "radio range", "antenna range"]),
   ("gps_not_working",
    ["gps", "no gps", "gps fix", "no satellites", "satellite",
     "gps not found", "position", "no position", "gps module",
     "ublox", "gps lock", "gps search", "no gps signal"]),
   ("rth_not_working",
    ["rth", "return to home", "return home", "gps rescue", "rescue mode",
     "rth not working", "home point", "failsafe rth", "return to launch",
     "go home", "navigation", "nav not working"]),
   ("bad_vibrations",
    ["vibration", "jello", "shaking", "oscillation", "wobble",
     "pid", "noisy", "gyro", "propwash", "prop wash",
     "unstable", "shaky video", "motor noise", "desync",
     "oscillating", "bouncing", "flutter"]),
   ("short_flight_time",
    ["flight time", "short flight", "battery life", "battery drain",
     "voltage", "low battery", "sag", "battery sag", "lands early",
     "not enough flight time", "battery dies fast", "quick discharge",
     "battery warning", "capacity"]),
   ("failsafe_issues",
    ["failsafe", "fail safe", "failsafe not working", "failsafe trigger",
     "unexpected failsafe", "failsafe land", "failsafe drop",
     "signal lost", "rx loss", "link lost", "failsafe activates"]),
   ("vtx_not_changing",
    ["vtx channel", "vtx power", "smartaudio", "smart audio",
     "tramp", "vtx control", "vtx settings", "change channel",
     "change power", "vtx band", "pit mode", "vtx table",
     "vtx not responding", "vtx stuck"]),
   ("compass_drift",
    ["compass", "heading", "drift", "compass drift", "heading wrong",
     "mag", "magnetometer", "compass calibration", "yaw drift",
     "heading offset", "compass error"]),
   ("altitude_hold_issues",
    ["altitude", "altitude hold", "alt hold", "height", "baro",
     "barometer", "climbing", "sinking", "altitude drift",
     "position hold altitude", "vario", "alt not holding"])]

/-- The score a single keyword hit contributes:
`1.0 + (word_count - 1) * 0.5`. -/
def kwWeight (kw : String) : ℚ :=
  qAdd 1 (qMul (mkRat (((pySplitWS kw).length : Int) - 1) 1) (mkRat 1 2))

/-- The sort relation of `match_symptom`:
`key=lambda x: (-x[1], x[0])` — score descending, then symptom key
ascending. -/
def scoreRel (x y : String × ℚ) : Prop :=
  y.2 < x.2 ∨ (x.2 = y.2 ∧ pyStrLe x.1 y.1 = true)

instance : DecidableRel scoreRel := fun x y => by
  unfold scoreRel; infer_instance

/-- `match_symptom`: fuzzy-match free text to ranked symptom keys.  The
score of each candidate is the sum of its keyword-hit weights,
normalized by its keyword count, clipped to 1, scaled by 3.5, clipped
to 1 again; candidates at or below 0.2 are discarded and survivors are
rounded to two decimals and sorted by score descending then key
ascending. -/
def match_symptom (user_text : String) : List (String × ℚ) :=
  let text_lower := pyStrip (pyLower user_text)
  if text_lower = "" then []
  else
    let scores := symptomKeywords.filterMap (fun kv =>
      let keywords := kv.2
      let weighted_hits : ℚ :=
        qSum ((keywords.filter (fun kw => pyInStr kw text_lower)).map kwWeight)
      if weighted_hits = 0 then Option.none
      else
        let base_per_hit : ℚ := mkRat 1 (max keywords.length 1)
        let raw_score := qMin 1 (qMul weighted_hits base_per_hit)
        let confidence := qMin 1 (qMul raw_score (mkRat 7 2))
        if confidence > mkRat 1 5 then some (kv.1, pyRound2 confidence)
        else Option.none)
    scores.insertionSort scoreRel

/-- `SYMPTOM_CHECKS`: the curated symptom-to-check-identifier map,
verbatim from the source. -/
def symptomChecksTable : List (String × List String) :=
  [("cant_arm", ["disc_002", "fw_005", "fw_018"]),
   ("motors_wont_spin",
    ["disc_004", "disc_005", "fw_001", "fw_002", "elec_001", "elec_002"]),
   ("flips_on_takeoff", ["disc_010", "fw_001", "disc_004"]),
   ("no_video", ["disc_003", "fw_007", "fw_008", "fw_015"]),
   ("no_receiver", ["disc_002", "fw_004", "fw_005", "fw_006"]),
   ("low_range", ["disc_002", "fw_004", "fw_005", "fw_016"]),
   ("gps_not_working", ["disc_008", "fw_018"]),
   ("rth_not_working", ["disc_008", "fw_018", "fw_019"]),
   ("bad_vibrations", ["fw_012", "fw_013", "fw_014"]),
   ("short_flight_time", ["disc_006", "fw_010", "fw_011", "elec_005"]),
   ("failsafe_issues", ["disc_002", "fw_004", "fw_005", "fw_016"]),
   ("vtx_not_changing", ["disc_003", "fw_007", "fw_008", "fw_009"]),
   ("compass_drift", ["disc_008", "fw_018"]),
   ("altitude_hold_issues", ["disc_008", "fw_018", "fw_019"])]

/-- `SYMPTOM_CHECKS.get(symptom, [])`. -/
def symptomChecks (symptom : String) : List String :=
  (alGet symptomChecksTable symptom).getD []

/-- A finding handled by the prioritizer and the confidence scorer:
either a validation result or a discrepancy. -/
inductive Finding where
  | vr : ValidationResult → Finding
  | disc : Discrepancy → Finding
deriving DecidableEq, Repr

/-- `_get_check_id`. -/
def Finding.check_id : Finding → String
  | .vr r => r.constraint_id
  | .disc d => d.id

/-- The severity of a finding. -/
def Finding.severity : Finding → Severity
  | .vr r => r.severity
  | .disc d => d.severity

/-- `_severity_order`: lower number = higher priority. -/
def severity_order : Severity → Nat
  | .critical => 0
  | .warning => 1
  | .info => 2

/-- The sort relation of `prioritize_results`: severity rank ascending,
then check identifier ascending. -/
def findingRel (x y : Finding) : Prop :=
  severity_order x.severity < severity_order y.severity ∨
    (severity_order x.severity = severity_order y.severity ∧
      pyStrLe x.check_id y.check_id = true)

instance : DecidableRel findingRel := fun x y => by
  unfold findingRel; infer_instance

/-- `prioritize_results`: pool the failed validation results with all
discrepancies, partition by membership of the check identifier in the
union of the active symptoms' check lists, and sort each partition by
severity then identifier. -/
def prioritize_results (all_results : List ValidationResult)
    (discrepancies : List Discrepancy) (symptoms : List String) :
    List Finding × List Finding :=
  let relevant_ids := symptoms.flatMap symptomChecks
  let all_items : List Finding :=
    (all_results.filter (fun r => !r.passed)).map .vr ++
      discrepancies.map .disc
  let symptom_relevant :=
    all_items.filter (fun item => relevant_ids.contains item.check_id)
  let other :=
    all_items.filter (fun item => !relevant_ids.contains item.check_id)
  (symptom_relevant.insertionSort findingRel, other.insertionSort findingRel)

/-! ## Diagnostic orchestrator and confidence scorer
(`src/engines/diagnose.py`) -/

/-- Truthiness of a `details` entry (`item.details.get(key)`). -/
def detailTruthy (details : List (String × Value)) (key : String) : Bool :=
  pyTruthy ((alGet details key).getD .none)

/-- `compute_confidence`: heuristic certainty of a finding in [0, 1]. -/
def compute_confidence (item : Finding) : ℚ :=
  match item with
  | .vr r =>
    if detailTruthy r.details "skipped" then 0
    else if detailTruthy r.details "estimated" ∨
        detailTruthy r.details "missing_spec" then mkRat 1 2
    else if pyStartsWith r.constraint_id "fw_" then
      match r.severity with
      | .critical => mkRat 9 10
      | .warning => mkRat 4 5
      | .info => mkRat 7 10
    else if pyStartsWith r.constraint_id "elec_" then
      match r.severity with
      | .critical => mkRat 9 10
      | .warning => mkRat 4 5
      | .info => mkRat 7 10
    else
      match r.severity with
      | .critical => mkRat 17 20
      | .warning => mkRat 4 5
      | .info => mkRat 7 10
  | .disc d =>
    match d.severity with
    | .critical => mkRat 19 20
    | .warning => mkRat 17 20
    | .info => mkRat 7 10

/-- Complete diagnostic report combining all analysis results. -/
structure DiagnosticReport where
  build_name : String
  fc_info : String
  discrepancies : List Discrepancy := []
  compatibility_report : Option ValidationReport := Option.none
  firmware_report : Option ValidationReport := Option.none
  symptoms : List String := []
  config_changes : Option (List String) := Option.none
  confidence_scores : List (String × ℚ) := []
  is_quick_check : Bool := false
deriving DecidableEq, Repr

/-- `assign_confidence_scores`: a confidence value for every
discrepancy and every failed validation result of the report, keyed by
check identifier. -/
def assign_confidence_scores (report : DiagnosticReport) :
    List (String × ℚ) :=
  let s1 := report.discrepancies.foldl
    (fun acc d => alInsert acc d.id (compute_confidence (.disc d))) []
  let s2 := match report.compatibility_report with
    | some rep => rep.results.foldl
        (fun acc r =>
          if ¬ r.passed then
            alInsert acc r.constraint_id (compute_confidence (.vr r))
          else acc) s1
    | Option.none => s1
  match report.firmware_report with
  | some rep => rep.results.foldl
      (fun acc r =>
        if ¬ r.passed then
          alInsert acc r.constraint_id (compute_confidence (.vr r))
        else acc) s2
  | Option.none => s2

/-- `DiagnosticReport.has_critical_issues`: true if any critical
discrepancy or any critical validation failure exists. -/
def DiagnosticReport.has_critical_issues (rep : DiagnosticReport) : Bool :=
  rep.discrepancies.any (fun d => d.severity = Severity.critical) ||
    (match rep.compatibility_report with
     | some r => r.critical_failures ≠ []
     | Option.none => false) ||
    (match rep.firmware_report with
     | some r => r.critical_failures ≠ []
     | Option.none => false)

/-- The string order as a proposition-valued relation (for sorting). -/
def strLeRel (a b : String) : Prop := pyStrLe a b = true

instance : DecidableRel strLeRel := fun a b => by
  unfold strLeRel; infer_instance

/-- A sorted duplicate-free list (Python `sorted(some_set)`) under a
given order relation. -/
def sortedUniqueBy {α : Type} [DecidableEq α] (r : α → α → Prop)
    [DecidableRel r] (l : List α) : List α :=
  (dedupKeepFirst l).insertionSort r

/-- Python `sorted` of a set of strings. -/
def sortedUnique (l : List String) : List String :=
  sortedUniqueBy strLeRel l

/-- Python `sorted` of a set of integers. -/
def sortedUniqueInt (l : List Int) : List Int :=
  sortedUniqueBy (· ≤ ·) l

/-- Python `set(a) != set(b)` on string lists, negated. -/
def listSetEqB (a b : List String) : Bool :=
  a.all (fun x => b.contains x) && b.all (fun x => a.contains x)

/-- The master-settings block of `diff_configs`: additions, removals
and value changes over the sorted union of setting keys. -/
def diffSettings (old new_ : FCConfig) : List String :=
  (sortedUnique (alKeys old.master_settings ++ alKeys new_.master_settings)).flatMap
    (fun key =>
      if alGet old.master_settings key = alGet new_.master_settings key then []
      else
        match alGet old.master_settings key, alGet new_.master_settings key with
        | Option.none, some nv => [key ++ " added: " ++ nv]
        | some ov, Option.none => [key ++ " removed (was " ++ ov ++ ")"]
        | some ov, some nv => [key ++ " changed from " ++ ov ++ " to " ++ nv]
        | Option.none, Option.none => [])

/-- The feature block of `diff_configs`: enable then disable events,
each sorted. -/
def diffFeatures (old new_ : FCConfig) : List String :=
  (sortedUnique (new_.features.filter (fun f => !old.features.contains f))).map
    (fun feat => "Feature " ++ feat ++ " was enabled") ++
  (sortedUnique (old.features.filter (fun f => !new_.features.contains f))).map
    (fun feat => "Feature " ++ feat ++ " was disabled")

/-- The per-port dict (`{p.port_id: p for p in serial_ports}`). -/
def portDict (c : FCConfig) : List (Int × SerialPortConfig) :=
  c.serial_ports.foldl (fun acc p => alInsert acc p.port_id p) []

/-- The serial-port block of `diff_configs`: function-set changes,
additions and removals over the sorted union of port ids. -/
def diffPorts (old new_ : FCConfig) : List String :=
  (sortedUniqueInt (alKeys (portDict old) ++ alKeys (portDict new_))).flatMap
    (fun port_id =>
      match alGet (portDict old) port_id, alGet (portDict new_) port_id with
      | some old_port, some new_port =>
        if listSetEqB old_port.functions new_port.functions then []
        else
          ["UART " ++ toString port_id ++ " functions changed from " ++
            pyJoin ", " (sortedUnique old_port.functions) ++ " to " ++
            pyJoin ", " (sortedUnique new_port.functions)]
      | Option.none, some new_port =>
        ["UART " ++ toString port_id ++ " added with functions: " ++
          pyJoin ", " new_port.functions]
      | some old_port, Option.none =>
        ["UART " ++ toString port_id ++ " removed (had functions: " ++
          pyJoin ", " old_port.functions ++ ")"]
      | Option.none, Option.none => [])

/-- `diff_configs`: compare two configuration snapshots, returning the
human-readable change list for master settings, features and serial
port assignments (in that order, as the source appends them). -/
def diff_configs (old new_ : FCConfig) : List String :=
  diffSettings old new_ ++ diffFeatures old new_ ++ diffPorts old new_

/-- `run_diagnostics`: the full diagnostic pipeline — discrepancy
detection, component compatibility, firmware cross-validation, an
optional configuration diff, and confidence scoring.  The rule set and
the expression sandbox are parameters (they are external to the
diagnostic core); an `.error` result models an exception escaping the
pipeline. -/
def run_diagnostics (sandbox : String → Value)
    (constraints : List Constraint) (config : FCConfig) (b : Build)
    (symptoms : Option (List String)) (previous_config : Option FCConfig) :
    Except String DiagnosticReport := do
  let fc_info0 := config.firmware ++ " " ++ config.firmware_version
  let fc_info :=
    if config.board_name ≠ "" then fc_info0 ++ " on " ++ config.board_name
    else fc_info0
  let discrepancies ← detect_discrepancies config b
  let compatibility_report ← validate_build sandbox constraints b
  let firmware_report ← validate_firmware_config config b
  let config_changes := previous_config.map (fun prev => diff_configs prev config)
  let report : DiagnosticReport :=
    { build_name := b.name
      fc_info := fc_info
      discrepancies := discrepancies
      compatibility_report := some compatibility_report
      firmware_report := some firmware_report
      symptoms := symptoms.getD []
      config_changes := config_changes
      confidence_scores := []
      is_quick_check := false }
  pure { report with confidence_scores := assign_confidence_scores report }

/-! ## Verification -/

/-- A `flatMap` of empty lists is empty. -/
theorem flatMap_nil_of {α β : Type} {l : List α} {f : α → List β}
    (h : ∀ x ∈ l, f x = []) : l.flatMap f = [] := by
  induction l with
  | nil => rfl
  | cons x xs ih =>
    have hx := h x (by simp)
    have hxs := ih (fun y hy => h y (by simp [hy]))
    simp [List.flatMap, hx] at *
    simpa [List.flatMap] using hxs

/-- No element survives a filter that excludes the members of the list
itself. -/
theorem filter_not_contains_self (l : List String) :
    l.filter (fun f => !l.contains f) = [] := by
  apply List.filter_eq_nil_iff.mpr
  intro a ha
  simpa using ha

/-- `listSetEqB` is reflexive. -/
theorem listSetEqB_refl (l : List String) : listSetEqB l l = true := by
  simp only [listSetEqB, Bool.and_self, List.all_eq_true]
  intro x hx
  exact List.elem_iff.mpr hx

/-- C10: `diff_configs(X, X)` returns the empty list: comparing a
snapshot against itself yields no setting additions, removals or
changes, no feature enable/disable events, and no port-function
changes. -/
theorem C10_diff_configs_self (X : FCConfig) : diff_configs X X = [] := by
  have hs : diffSettings X X = [] := by
    unfold diffSettings
    exact flatMap_nil_of (fun k _ => by simp)
  have hf : diffFeatures X X = [] := by
    unfold diffFeatures
    rw [filter_not_contains_self]
    rfl
  have hp : diffPorts X X = [] := by
    unfold diffPorts
    refine flatMap_nil_of (fun pid _ => ?_)
    cases h : alGet (portDict X) pid with
    | none => simp [h]
    | some p => simp [h, listSetEqB_refl]
  simp [diff_configs, hs, hf, hp]

/-- The confidence table exactly as claim C4 words it (the refinement
side of the comparison, written from the claim's sentence): a skipped
result ↦ 0.0; a result flagged estimated or missing-spec ↦ 0.50;
otherwise a discrepancy ↦ 0.95/0.85/0.70 for critical/warning/info; a
validation result whose identifier starts with `fw_` or `elec_` ↦
0.90/0.80/0.70; any other validation result ↦ 0.85/0.80/0.70. -/
def claimConfidence (item : Finding) : ℚ :=
  match item with
  | .vr r =>
    if detailTruthy r.details "skipped" then 0
    else if detailTruthy r.details "estimated" ∨
        detailTruthy r.details "missing_spec" then mkRat 1 2
    else if pyStartsWith r.constraint_id "fw_" ∨
        pyStartsWith r.constraint_id "elec_" then
      match r.severity with
      | .critical => mkRat 9 10
      | .warning => mkRat 4 5
      | .info => mkRat 7 10
    else
      match r.severity with
      | .critical => mkRat 17 20
      | .warning => mkRat 4 5
      | .info => mkRat 7 10
  | .disc d =>
    match d.severity with
    | .critical => mkRat 19 20
    | .warning => mkRat 17 20
    | .info => mkRat 7 10

/-- The same finding with its severity replaced (for stating the
within-category monotonicity of the confidence table). -/
def Finding.withSeverity : Finding → Severity → Finding
  | .vr r, s => .vr { r with severity := s }
  | .disc d, s => .disc { d with severity := s }

/-- C4: `compute_confidence` maps every finding exactly as specified —
skipped ↦ 0.0; estimated/missing-spec ↦ 0.50; a discrepancy ↦
0.95/0.85/0.70; a `fw_`/`elec_` validation result ↦ 0.90/0.80/0.70;
any other validation result ↦ 0.85/0.80/0.70 — and within each
category the value for critical ≥ warning ≥ info. -/
theorem C4_compute_confidence (item : Finding) :
    compute_confidence item = claimConfidence item ∧
    compute_confidence (item.withSeverity .warning) ≤
      compute_confidence (item.withSeverity .critical) ∧
    compute_confidence (item.withSeverity .info) ≤
      compute_confidence (item.withSeverity .warning) := by
  refine ⟨?_, ?_, ?_⟩
  · cases item with
    | vr r =>
      simp only [compute_confidence, claimConfidence]
      split_ifs <;> first | (cases r.severity <;> rfl) | rfl | tauto
    | disc d => rfl
  · cases item with
    | vr r =>
      simp only [compute_confidence, Finding.withSeverity]
      split_ifs <;> decide
    | disc d => show (mkRat 17 20 : ℚ) ≤ mkRat 19 20; decide
  · cases item with
    | vr r =>
      simp only [compute_confidence, Finding.withSeverity]
      split_ifs <;> decide
    | disc d => show (mkRat 7 10 : ℚ) ≤ mkRat 17 20; decide

/-- The skip result of `requiredScan` is always a passed result with
the skipped flag set. -/
theorem requiredScan_passed (c : Constraint) (b : Build) :
    ∀ comps r, requiredScan c b comps = some r →
      r.passed = true ∧ alGet r.details "skipped" = some (.bool true) := by
  intro comps
  induction comps with
  | nil => intro r h; simp [requiredScan] at h
  | cons t rest ih =>
    intro r h
    unfold requiredScan at h
    split_ifs at h with h1 h2
    · cases h; exact ⟨rfl, rfl⟩
    · cases h; exact ⟨rfl, rfl⟩
    · exact ih r h

/-- A required slot that is `transmitter` or missing makes
`requiredScan` return a skip result. -/
theorem requiredScan_bad (c : Constraint) (b : Build) :
    ∀ comps, (∃ t ∈ comps, t = "transmitter" ∨
        b.get_component t = Option.none) →
      ∃ r, requiredScan c b comps = some r := by
  intro comps
  induction comps with
  | nil => rintro ⟨t, ht, _⟩; simp at ht
  | cons t rest ih =>
    rintro ⟨t', ht', hbad⟩
    by_cases h1 : t = "transmitter"
    · exact ⟨skipTransmitter c, by simp [requiredScan, h1]⟩
    · by_cases h2 : (b.get_component t).isNone
      · exact ⟨skipMissing c t, by simp [requiredScan, h1, h2]⟩
      · rcases List.mem_cons.mp ht' with rfl | hmem
        · rcases hbad with rfl | hnone
          · exact absurd rfl h1
          · exact absurd (by simp [hnone]) h2
        · obtain ⟨r, hr⟩ := ih ⟨t', hmem, hbad⟩
          exact ⟨r, by simp [requiredScan, h1, h2, hr]⟩

/-- C1: if any required slot type of a constraint is the unmodeled
`transmitter` slot or has no component in the build,
`evaluate_constraint` returns a result with `passed = true` and the
`skipped` flag set in its details — never a failed result. -/
theorem C1_missing_slot_skips (sandbox : String → Value) (c : Constraint)
    (b : Build)
    (h : ∃ t ∈ c.components, t = "transmitter" ∨
      b.get_component t = Option.none) :
    ∃ r, evaluate_constraint sandbox c b = .ok r ∧ r.passed = true ∧
      alGet r.details "skipped" = some (.bool true) := by
  obtain ⟨r, hr⟩ := requiredScan_bad c b c.components h
  obtain ⟨hp, hsk⟩ := requiredScan_passed c b c.components r hr
  exact ⟨r, by unfold evaluate_constraint; rw [hr], hp, hsk⟩

/-- A rule requiring the unmodeled transmitter slot (for the C1
witness). -/
def transmitterConstraint : Constraint :=
  { id := "elec_100"
    category := "electrical"
    name := "Transmitter rule"
    description := ""
    severity := .critical
    components := ["transmitter"]
    check := {}
    message_template := "" }

/-- A build with no components at all. -/
def noComponentsBuild : Build :=
  { name := "Empty", drone_class := "unknown", components := [] }

/-- Witness for C1 at a concrete constraint and build. -/
theorem C1_missing_slot_skips_witness :
    ∃ r, evaluate_constraint (fun _ => Value.none) transmitterConstraint
        noComponentsBuild = .ok r ∧ r.passed = true ∧
      alGet r.details "skipped" = some (.bool true) :=
  C1_missing_slot_skips (fun _ => Value.none) transmitterConstraint
    noComponentsBuild ⟨"transmitter", by decide, Or.inl rfl⟩

/-- A character of the fixed safe set exactly as claim C3 words it:
digits, the characters `. + - * / ( ) < > = ! & |`, and whitespace
(the five word-forms are handled at word level below). -/
def claimSymbolChar (c : Char) : Bool :=
  pyIsDigit c || pyIsSpace c ||
  c = '.' || c = '+' || c = '-' || c = '*' || c = '/' || c = '(' ||
  c = ')' || c = '<' || c = '>' || c = '=' || c = '!' || c = '&' || c = '|'

/-- The maximal alphabetic runs (words) of a character list. -/
def alphaRunsAux : Nat → List Char → List String
  | 0, _ => []
  | _ + 1, [] => []
  | fuel + 1, c :: rest =>
    if c.isAlpha then
      ⟨(c :: rest).takeWhile Char.isAlpha⟩ ::
        alphaRunsAux fuel ((c :: rest).dropWhile Char.isAlpha)
    else
      alphaRunsAux fuel rest

/-- The maximal alphabetic words of a string. -/
def alphaRuns (s : String) : List String :=
  alphaRunsAux (s.data.length + 1) s.data

/-- The safe-set membership test exactly as claim C3 words it: every
character is a digit, one of `. + - * / ( ) < > = ! & |`, whitespace,
or part of one of the words `and/or/not/true/false`. -/
def claimSafeText (s : String) : Bool :=
  s.data.all (fun c => claimSymbolChar c || c.isAlpha) &&
  (alphaRuns s).all
    (fun w => w = "and" || w = "or" || w = "not" || w = "true" || w = "false")

/-- The sandboxed `eval` with empty builtins, modelled on the bare
constant words reachable by the theorems below: the Python literals
`True`/`False` evaluate to themselves; any other bare name raises
`NameError`, which the source's `try/except` collapses to `None`. -/
def pySandboxConst : String → Value := fun s =>
  if s = "True" then .bool true
  else if s = "False" then .bool false
  else .none

/-- Counterexample to C3: the substituted text `True` lies outside the
claim's fixed safe set (its alphabetic word is not one of
`and/or/not/true/false`), yet the sanitizer — whose real whitelist
admits any alphabetic character — passes it (as it passes `qzx`), and
the evaluator hands it to the sandbox and returns the evaluated value
`True` rather than rejecting it outright with the unresolvable
sentinel. -/
theorem C3_counterexample :
    substituteTokens noComponentsBuild (orderTokens (findTokens "True"))
        "True" = some "True" ∧
    claimSafeText "True" = false ∧
    sanitizeOk "True" = true ∧
    sanitizeOk "qzx" = true ∧
    eval_expression pySandboxConst "True" noComponentsBuild =
      Value.bool true ∧
    Value.bool true ≠ Value.none := by
  refine ⟨by decide, by decide, by decide, by decide, by decide, by decide⟩

/-- C3 (amended): the evaluator rejects an expression outright —
returning the unresolvable sentinel without consulting the sandbox —
exactly when a token is unresolvable or the substituted text contains a
character that is neither in the source whitelist nor alphabetic;
substituted text whose characters are all whitelisted-or-alphabetic
(which includes alphabetic words beyond `and/or/not/true/false`) is
normalized and handed to the sandboxed evaluation. -/
theorem C3_sanitizer_rejects (sandbox : String → Value) (expr : String)
    (b : Build) :
    (substituteTokens b (orderTokens (findTokens expr)) expr = Option.none →
      eval_expression sandbox expr b = Value.none) ∧
    (∀ t, substituteTokens b (orderTokens (findTokens expr)) expr = some t →
      sanitizeOk t = false → eval_expression sandbox expr b = Value.none) ∧
    (∀ t, substituteTokens b (orderTokens (findTokens expr)) expr = some t →
      sanitizeOk t = true →
      eval_expression sandbox expr b = sandbox (normalizeBool t)) := by
  refine ⟨?_, ?_, ?_⟩
  · intro h; unfold eval_expression; rw [h]
  · intro t h hs; unfold eval_expression; rw [h]; simp [hs]
  · intro t h hs; unfold eval_expression; rw [h]; simp [hs]

/-- Witness for the amended C3 at a concrete rejected expression. -/
theorem C3_sanitizer_rejects_witness :
    eval_expression pySandboxConst "1 @ 2" noComponentsBuild = Value.none :=
  (C3_sanitizer_rejects pySandboxConst "1 @ 2" noComponentsBuild).2.1
    "1 @ 2" (by decide) (by decide)

/-- Every member of a successful `mapME` run is the image of a member
of the input list. -/
theorem mapME_ok_mem {α β : Type} (f : α → Except String β) :
    ∀ (l : List α) (ys : List β), mapME f l = .ok ys →
      ∀ y ∈ ys, ∃ x ∈ l, f x = .ok y := by
  intro l
  induction l with
  | nil =>
    intro ys h y hy
    simp only [mapME] at h
    cases h
    simp at hy
  | cons x xs ih =>
    intro ys h y hy
    unfold mapME at h
    cases hfx : f x with
    | error e => rw [hfx] at h; simp [Bind.bind, Except.bind] at h
    | ok y0 =>
      rw [hfx] at h
      cases hrest : mapME f xs with
      | error e => rw [hrest] at h; simp [Bind.bind, Except.bind] at h
      | ok ys0 =>
        rw [hrest] at h
        simp only [Bind.bind, Except.bind, pure, Except.pure, Except.ok.injEq] at h
        subst h
        rcases List.mem_cons.mp hy with rfl | hmem
        · exact ⟨x, by simp, hfx⟩
        · obtain ⟨x', hx', hfx'⟩ := ih ys0 hrest y hmem
          exact ⟨x', by simp [hx'], hfx'⟩

/-- The keys of a dict insert are the inserted key plus the old keys. -/
theorem mem_alKeys_alInsert {κ α : Type} [DecidableEq κ] :
    ∀ (l : List (κ × α)) (k : κ) (v : α), ∀ x ∈ alKeys (alInsert l k v),
      x = k ∨ x ∈ alKeys l := by
  intro l
  induction l with
  | nil =>
    intro k v x hx
    simp [alInsert, alKeys] at hx
    exact Or.inl hx
  | cons p rest ih =>
    intro k v x hx
    obtain ⟨k', v'⟩ := p
    by_cases h : k' = k
    · simp only [alInsert, if_pos h] at hx
      rcases List.mem_cons.mp hx with rfl | hmem
      · exact Or.inr (by simp [alKeys])
      · exact Or.inr (by simp [alKeys]; right; simpa [alKeys] using hmem)
    · simp only [alInsert, if_neg h] at hx
      rcases List.mem_cons.mp hx with rfl | hmem
      · exact Or.inr (by simp [alKeys])
      · rcases ih k v x (by simpa [alKeys] using hmem) with h1 | h2
        · exact Or.inl h1
        · exact Or.inr (by simp [alKeys]; right; simpa [alKeys] using h2)

/-- A key of the pair-check insert is the inserted component's type or
an old key (the motor slot key equals the motor's component type). -/
theorem pairInsert_keys (acc : List (String × CompEntry)) (comp : Component) :
    ∀ x ∈ alKeys (pairInsert acc comp),
      x = comp.component_type ∨ x ∈ alKeys acc := by
  intro x hx
  unfold pairInsert at hx
  by_cases h : comp.component_type = "motor"
  · rw [if_pos h] at hx
    rcases mem_alKeys_alInsert acc "motor" _ x hx with h1 | h2
    · exact Or.inl (h1.trans h.symm)
    · exact Or.inr h2
  · rw [if_neg h] at hx
    exact mem_alKeys_alInsert acc comp.component_type _ x hx

/-- Every slot key of the transient pair build is one of the two
components' types. -/
theorem pairComponents_keys (comp_a comp_b : Component) :
    ∀ x ∈ alKeys (pairComponents comp_a comp_b),
      x = comp_a.component_type ∨ x = comp_b.component_type := by
  intro x hx
  rcases pairInsert_keys _ comp_b x hx with h1 | h2
  · exact Or.inr h1
  · rcases pairInsert_keys _ comp_a x h2 with h3 | h4
    · exact Or.inl h3
    · simp [alKeys] at h4

/-- C5: every result returned by `check_pair(A, B)` comes from a rule
whose full required-slot-type set is a subset of the two components'
types; rules requiring any other slot type contribute no result, and
the returned list may be empty. -/
theorem C5_check_pair (sandbox : String → Value) (cs : List Constraint)
    (comp_a comp_b : Component) (rs : List ValidationResult)
    (h : check_pair sandbox cs comp_a comp_b = .ok rs) :
    (∀ r ∈ rs, ∃ c ∈ cs,
      (∀ t ∈ c.components,
        t = comp_a.component_type ∨ t = comp_b.component_type) ∧
      evaluate_constraint sandbox c (pairBuild comp_a comp_b) = .ok r) ∧
    (cs = [] → rs = []) := by
  simp only [check_pair] at h
  constructor
  · intro r hr
    obtain ⟨c, hc, hev⟩ := mapME_ok_mem _ _ rs h r hr
    obtain ⟨hcs, hpred⟩ := List.mem_filter.mp hc
    refine ⟨c, hcs, ?_, hev⟩
    intro t ht
    have hall := (List.all_eq_true.mp hpred) t ht
    have hmem : t ∈ alKeys (pairComponents comp_a comp_b) := by
      simpa using hall
    exact pairComponents_keys comp_a comp_b t hmem
  · rintro rfl
    simp only [List.filter_nil, mapME] at h
    cases h
    rfl

/-- A demonstration motor component (for the C5 witness). -/
def motorDemo : Component :=
  { id := "m1", component_type := "motor", manufacturer := "Demo"
    model := "M1", weight_g := 30, price_usd := 20, category := "5inch"
    specs := [] }

/-- A demonstration ESC component. -/
def escDemo : Component :=
  { id := "e1", component_type := "esc", manufacturer := "Demo"
    model := "E1", weight_g := 12, price_usd := 35, category := "5inch"
    specs := [] }

/-- A rule requiring motor and ESC slots. -/
def motorEscConstraint : Constraint :=
  { id := "elec_003", category := "electrical", name := "Motor ESC rule"
    description := "", severity := .critical
    components := ["motor", "esc"], check := {}, message_template := "" }

/-- A rule requiring a battery slot (never satisfied by a motor/ESC
pair). -/
def batteryEscConstraint : Constraint :=
  { id := "elec_001", category := "electrical", name := "Battery ESC rule"
    description := "", severity := .critical
    components := ["battery", "esc"], check := {}, message_template := "" }

/-- The single result of the demonstration pair check. -/
def pairDemoResult : ValidationResult :=
  { constraint_id := "elec_003", constraint_name := "Motor ESC rule"
    severity := .critical, passed := true, message := ""
    details := [("actual", Value.none), ("limit", Value.none)] }

/-- Witness for C5 at a concrete pair and rule set. -/
theorem C5_check_pair_witness :
    ∃ c ∈ [motorEscConstraint, batteryEscConstraint],
      (∀ t ∈ c.components,
        t = motorDemo.component_type ∨ t = escDemo.component_type) ∧
      evaluate_constraint (fun _ => Value.none) c
        (pairBuild motorDemo escDemo) = .ok pairDemoResult :=
  (C5_check_pair (fun _ => Value.none)
      [motorEscConstraint, batteryEscConstraint] motorDemo escDemo
      [pairDemoResult] (by decide)).1 pairDemoResult (by decide)

/-- The character-list order is asymmetric. -/
theorem listCharLt_asymm :
    ∀ (a b : List Char), listCharLt a b = true → listCharLt b a = false := by
  intro a
  induction a with
  | nil =>
    intro b h
    cases b with
    | nil => simp [listCharLt] at h
    | cons y ys => simp [listCharLt]
  | cons x xs ih =>
    intro b h
    cases b with
    | nil => simp [listCharLt] at h
    | cons y ys =>
      simp only [listCharLt, Bool.or_eq_true, Bool.and_eq_true,
        decide_eq_true_eq] at h
      rcases h with h | ⟨he, h2⟩
      · have d1 : decide (y.toNat < x.toNat) = false := decide_eq_false (by omega)
        have d2 : decide (y.toNat = x.toNat) = false := decide_eq_false (by omega)
        simp [listCharLt, d1, d2]
      · have d1 : decide (y.toNat < x.toNat) = false := decide_eq_false (by omega)
        have d2 : listCharLt ys xs = false := ih ys h2
        simp [listCharLt, d1, d2]

/-- The character-list order is transitive. -/
theorem listCharLt_trans :
    ∀ (a b c : List Char), listCharLt a b = true → listCharLt b c = true →
      listCharLt a c = true := by
  intro a
  induction a with
  | nil =>
    intro b c h1 h2
    cases b with
    | nil => simp [listCharLt] at h1
    | cons y ys =>
      cases c with
      | nil => simp [listCharLt] at h2
      | cons z zs => simp [listCharLt]
  | cons x xs ih =>
    intro b c h1 h2
    cases b with
    | nil => simp [listCharLt] at h1
    | cons y ys =>
      cases c with
      | nil => simp [listCharLt] at h2
      | cons z zs =>
        simp only [listCharLt, Bool.or_eq_true, Bool.and_eq_true,
          decide_eq_true_eq] at h1 h2 ⊢
        rcases h1 with h1 | ⟨e1, l1⟩ <;> rcases h2 with h2 | ⟨e2, l2⟩
        · exact Or.inl (h1.trans h2)
        · exact Or.inl (by omega)
        · exact Or.inl (by omega)
        · exact Or.inr ⟨e1.trans e2, ih ys zs l1 l2⟩

/-- Characters with equal code points are equal. -/
theorem char_eq_of_toNat {a b : Char} (h : a.toNat = b.toNat) : a = b := by
  cases a with
  | mk av ah =>
    cases b with
    | mk bv bh =>
      simp only [Char.toNat] at h
      congr 1
      exact UInt32.toNat.inj h

/-- Two lists neither of which precedes the other are equal. -/
theorem listCharLt_connex :
    ∀ (a b : List Char), listCharLt a b = false → listCharLt b a = false →
      a = b := by
  intro a
  induction a with
  | nil =>
    intro b h1 _
    cases b with
    | nil => rfl
    | cons y ys => simp [listCharLt] at h1
  | cons x xs ih =>
    intro b h1 h2
    cases b with
    | nil => simp [listCharLt] at h2
    | cons y ys =>
      simp only [listCharLt, Bool.or_eq_false_iff, Bool.and_eq_false_iff,
        decide_eq_false_iff_not] at h1 h2
      obtain ⟨hxy, hrest1⟩ := h1
      obtain ⟨hyx, hrest2⟩ := h2
      have he : x.toNat = y.toNat := by omega
      have hx : x = y := char_eq_of_toNat he
      subst hx
      have hr1 : listCharLt xs ys = false := by
        rcases hrest1 with h | h
        · simp at h
        · exact h
      have hr2 : listCharLt ys xs = false := by
        rcases hrest2 with h | h
        · simp at h
        · exact h
      rw [ih ys hr1 hr2]

/-- The string order is total. -/
theorem pyStrLe_total (a b : String) :
    pyStrLe a b = true ∨ pyStrLe b a = true := by
  unfold pyStrLe pyStrLt
  cases h : listCharLt b.data a.data with
  | false => left; simp [h]
  | true => right; simp [listCharLt_asymm _ _ h]

/-- The string order is transitive. -/
theorem pyStrLe_trans {a b c : String} (h1 : pyStrLe a b = true)
    (h2 : pyStrLe b c = true) : pyStrLe a c = true := by
  unfold pyStrLe pyStrLt at *
  simp only [Bool.not_eq_true'] at h1 h2 ⊢
  by_contra hca
  have hca' : listCharLt c.data a.data = true := by
    cases h : listCharLt c.data a.data with
    | false => exact absurd h hca
    | true => rfl
  cases hab : listCharLt a.data b.data with
  | true =>
    have := listCharLt_trans _ _ _ hca' hab
    rw [this] at h2
    cases h2
  | false =>
    have hba : a.data = b.data := listCharLt_connex _ _ hab h1
    rw [hba] at hca'
    rw [hca'] at h2
    cases h2

instance : IsTotal Finding findingRel :=
  ⟨fun x y => by
    unfold findingRel
    rcases Nat.lt_trichotomy (severity_order x.severity)
        (severity_order y.severity) with h | h | h
    · exact Or.inl (Or.inl h)
    · rcases pyStrLe_total x.check_id y.check_id with hs | hs
      · exact Or.inl (Or.inr ⟨h, hs⟩)
      · exact Or.inr (Or.inr ⟨h.symm, hs⟩)
    · exact Or.inr (Or.inl h)⟩

instance : IsTrans Finding findingRel :=
  ⟨fun x y z hxy hyz => by
    unfold findingRel at *
    rcases hxy with h1 | ⟨e1, s1⟩ <;> rcases hyz with h2 | ⟨e2, s2⟩
    · exact Or.inl (h1.trans h2)
    · exact Or.inl (e2 ▸ h1)
    · exact Or.inl (e1 ▸ h2)
    · exact Or.inr ⟨e1.trans e2, pyStrLe_trans s1 s2⟩⟩

/-- C7: `prioritize_results` puts an item in the symptom-relevant
partition only if its identifier is in the union of the active
symptoms' check lists; every passing validation result appears in
neither partition; every discrepancy appears in exactly one partition;
and each partition is sorted by severity rank then identifier. -/
theorem C7_prioritize_results (all_results : List ValidationResult)
    (discrepancies : List Discrepancy) (symptoms : List String) :
    (∀ x ∈ (prioritize_results all_results discrepancies symptoms).1,
      x.check_id ∈ symptoms.flatMap symptomChecks) ∧
    (∀ r ∈ all_results, r.passed = true →
      Finding.vr r ∉ (prioritize_results all_results discrepancies symptoms).1 ∧
      Finding.vr r ∉ (prioritize_results all_results discrepancies symptoms).2) ∧
    (∀ d ∈ discrepancies,
      (Finding.disc d ∈ (prioritize_results all_results discrepancies symptoms).1 ∧
        Finding.disc d ∉ (prioritize_results all_results discrepancies symptoms).2) ∨
      (Finding.disc d ∈ (prioritize_results all_results discrepancies symptoms).2 ∧
        Finding.disc d ∉ (prioritize_results all_results discrepancies symptoms).1)) ∧
    List.Sorted findingRel (prioritize_results all_results discrepancies symptoms).1 ∧
    List.Sorted findingRel (prioritize_results all_results discrepancies symptoms).2 := by
  simp only [prioritize_results]
  set ids := symptoms.flatMap symptomChecks with hids
  set pool : List Finding :=
    (all_results.filter (fun r => !r.passed)).map .vr ++
      discrepancies.map .disc with hpool
  refine ⟨?_, ?_, ?_, ?_, ?_⟩
  · intro x hx
    have hx' : x ∈ pool.filter (fun item => ids.contains item.check_id) :=
      (List.perm_insertionSort findingRel _).mem_iff.mp hx
    have := (List.mem_filter.mp hx').2
    simpa using this
  · intro r hr hp
    constructor
    · intro hx
      have hx' : Finding.vr r ∈
          pool.filter (fun item => ids.contains item.check_id) :=
        (List.perm_insertionSort findingRel _).mem_iff.mp hx
      have hmem := (List.mem_filter.mp hx').1
      rcases List.mem_append.mp hmem with hl | hrr
      · obtain ⟨r', hr', he⟩ := List.mem_map.mp hl
        cases he
        have := (List.mem_filter.mp hr').2
        simp [hp] at this
      · obtain ⟨d', _, he⟩ := List.mem_map.mp hrr
        cases he
    · intro hx
      have hx' : Finding.vr r ∈
          pool.filter (fun item => !ids.contains item.check_id) :=
        (List.perm_insertionSort findingRel _).mem_iff.mp hx
      have hmem := (List.mem_filter.mp hx').1
      rcases List.mem_append.mp hmem with hl | hrr
      · obtain ⟨r', hr', he⟩ := List.mem_map.mp hl
        cases he
        have := (List.mem_filter.mp hr').2
        simp [hp] at this
      · obtain ⟨d', _, he⟩ := List.mem_map.mp hrr
        cases he
  · intro d hd
    have hdp : Finding.disc d ∈ pool := by
      rw [hpool]
      exact List.mem_append.mpr (Or.inr (List.mem_map.mpr ⟨d, hd, rfl⟩))
    cases hc : ids.contains (Finding.disc d).check_id with
    | true =>
      left
      constructor
      · exact (List.perm_insertionSort findingRel _).mem_iff.mpr
          (List.mem_filter.mpr ⟨hdp, hc⟩)
      · intro hx
        have hx' := (List.perm_insertionSort findingRel _).mem_iff.mp hx
        have hb : (!ids.contains (Finding.disc d).check_id) = true :=
          (List.mem_filter.mp hx').2
        rw [hc] at hb
        simp at hb
    | false =>
      right
      constructor
      · refine (List.perm_insertionSort findingRel _).mem_iff.mpr
          (List.mem_filter.mpr ⟨hdp, ?_⟩)
        show (!ids.contains (Finding.disc d).check_id) = true
        rw [hc]
        rfl
      · intro hx
        have hx' := (List.perm_insertionSort findingRel _).mem_iff.mp hx
        have hb : ids.contains (Finding.disc d).check_id = true :=
          (List.mem_filter.mp hx').2
        rw [hc] at hb
        simp at hb
  · exact List.sorted_insertionSort findingRel _
  · exact List.sorted_insertionSort findingRel _

/-- A failing critical firmware result (for the C7 witness). -/
def failingFw001 : ValidationResult :=
  { constraint_id := "fw_001", constraint_name := "Motor protocol match"
    severity := .critical, passed := false, message := "" }

/-- A passing firmware result. -/
def passingFw004 : ValidationResult :=
  { constraint_id := "fw_004", constraint_name := "Receiver protocol match"
    severity := .critical, passed := true, message := "" }

/-- A warning discrepancy (for the C7 witness). -/
def demoDisc : Discrepancy :=
  { id := "disc_004", component_type := "esc", category := "protocol"
    severity := .warning, fleet_value := "", detected_value := ""
    message := "", fix_suggestion := "" }

/-- Witness for C7 at concrete findings: the passing result lands in
neither partition. -/
theorem C7_prioritize_results_witness :
    Finding.vr passingFw004 ∉
      (prioritize_results [failingFw001, passingFw004] [demoDisc]
        ["motors_wont_spin"]).1 ∧
    Finding.vr passingFw004 ∉
      (prioritize_results [failingFw001, passingFw004] [demoDisc]
        ["motors_wont_spin"]).2 :=
  (C7_prioritize_results [failingFw001, passingFw004] [demoDisc]
      ["motors_wont_spin"]).2.1 passingFw004 (by decide) rfl

/-- An ASCII uppercase letter lowers to its code point plus 32. -/
theorem toLower_toNat_of_upper {c : Char} (h1 : 65 ≤ c.toNat)
    (h2 : c.toNat ≤ 90) : (Char.toLower c).toNat = c.toNat + 32 := by
  have hcond : c.toNat ≥ 65 ∧ c.toNat ≤ 90 := ⟨h1, h2⟩
  simp only [Char.toLower, if_pos hcond]
  set n := c.toNat with hn
  interval_cases n <;> decide

/-- `Char.toLower` is idempotent. -/
theorem toLower_idem (c : Char) :
    Char.toLower (Char.toLower c) = Char.toLower c := by
  by_cases h : c.toNat ≥ 65 ∧ c.toNat ≤ 90
  · have ht := toLower_toNat_of_upper h.1 h.2
    have hc : ¬((Char.toLower c).toNat ≥ 65 ∧ (Char.toLower c).toNat ≤ 90) := by
      rw [ht]; omega
    nth_rewrite 1 [Char.toLower]
    rw [if_neg hc]
  · have hfix : Char.toLower c = c := by
      simp only [Char.toLower, if_neg h]
    rw [hfix, hfix]

/-- `pyLower` is idempotent. -/
theorem pyLower_idem (s : String) : pyLower (pyLower s) = pyLower s := by
  simp only [pyLower, List.map_map]
  congr 1
  apply List.map_congr_left
  intro c _
  exact toLower_idem c

/-- The score formula exactly as claim C9 words it (the refinement side
of the comparison): the sum over substring hits of
`1 + 0.5 × (phrase word count − 1)`, divided by the symptom's
phrase-list length, clipped to 1, scaled by 3.5, clipped to 1 again. -/
def claimScore (keywords : List String) (text_lower : String) : ℚ :=
  qMin 1 (qMul
    (qMin 1 (qMul
      (qSum ((keywords.filter (fun kw => pyInStr kw text_lower)).map
        (fun kw => qAdd 1 (qMul
          (mkRat (((pySplitWS kw).length : Int) - 1) 1) (mkRat 1 2)))))
      (mkRat 1 keywords.length)))
    (mkRat 7 2))

/-- Every symptom of the keyword index has a nonempty phrase list. -/
theorem symptomKeywords_nonempty :
    ∀ kv ∈ symptomKeywords, kv.2.length ≠ 0 := by decide

instance : IsTotal (String × ℚ) scoreRel :=
  ⟨fun x y => by
    unfold scoreRel
    rcases lt_trichotomy x.2 y.2 with h | h | h
    · exact Or.inr (Or.inl h)
    · rcases pyStrLe_total x.1 y.1 with hs | hs
      · exact Or.inl (Or.inr ⟨h, hs⟩)
      · exact Or.inr (Or.inr ⟨h.symm, hs⟩)
    · exact Or.inl (Or.inl h)⟩

instance : IsTrans (String × ℚ) scoreRel :=
  ⟨fun x y z hxy hyz => by
    unfold scoreRel at *
    rcases hxy with h1 | ⟨e1, s1⟩ <;> rcases hyz with h2 | ⟨e2, s2⟩
    · exact Or.inl (h2.trans h1)
    · exact Or.inl (e2 ▸ h1)
    · exact Or.inl (e1 ▸ h2)
    · exact Or.inr ⟨e1.trans e2, pyStrLe_trans s1 s2⟩⟩

/-- C9 (amended): `match_symptom` returns nothing on empty or
whitespace-only input; matching is case-insensitive; every returned
score is the claim's formula **rounded to two decimals** and its
unrounded value exceeds 0.2; and the result is sorted by score
descending with ties broken by symptom key ascending. -/
theorem C9_match_symptom_amended (text : String) :
    (pyStrip (pyLower text) = "" → match_symptom text = []) ∧
    match_symptom (pyLower text) = match_symptom text ∧
    (∀ p ∈ match_symptom text, ∃ kws, (p.1, kws) ∈ symptomKeywords ∧
      claimScore kws (pyStrip (pyLower text)) > mkRat 1 5 ∧
      p.2 = pyRound2 (claimScore kws (pyStrip (pyLower text)))) ∧
    List.Sorted scoreRel (match_symptom text) := by
  refine ⟨?_, ?_, ?_, ?_⟩
  · intro h
    unfold match_symptom
    rw [if_pos h]
  · unfold match_symptom
    rw [pyLower_idem]
  · intro p hp
    have hne : ¬(pyStrip (pyLower text) = "") := by
      intro h
      rw [(by unfold match_symptom; rw [if_pos h] :
        match_symptom text = [])] at hp
      simp at hp
    unfold match_symptom at hp
    rw [if_neg hne] at hp
    have hp' := (List.perm_insertionSort scoreRel _).mem_iff.mp hp
    obtain ⟨kv, hkv, hf⟩ := List.mem_filterMap.mp hp'
    simp only at hf
    split_ifs at hf with h1 h2
    cases hf
    have hlen : kv.2.length ≠ 0 := symptomKeywords_nonempty kv hkv
    have hmax : max kv.2.length 1 = kv.2.length := by omega
    refine ⟨kv.2, ?_, ?_, ?_⟩
    · simpa using hkv
    · rw [hmax] at h2
      exact h2
    · rw [hmax]
      rfl
  · simp only [match_symptom]
    by_cases h : pyStrip (pyLower text) = ""
    · simp [h]
    · rw [if_neg h]
      exact List.sorted_insertionSort scoreRel _

/-- Counterexample to C9 as stated: on the input `arm` the single
returned score is the rounded value 0.23, while the claim's exact
formula yields 7/30 — the code rounds to two decimals before returning
and sorting, which the claimed formula omits. -/
theorem C9_counterexample :
    match_symptom "arm" = [("cant_arm", mkRat 23 100)] ∧
    claimScore ((alGet symptomKeywords "cant_arm").getD []) "arm" =
      mkRat 7 30 ∧
    (mkRat 23 100 : ℚ) ≠ mkRat 7 30 := by
  refine ⟨by decide, by decide, by decide⟩

/-- Witness for the amended C9 at the concrete input `arm`. -/
theorem C9_match_symptom_amended_witness :
    ∃ kws, (("cant_arm", kws) : String × List String) ∈ symptomKeywords ∧
      claimScore kws (pyStrip (pyLower "arm")) > mkRat 1 5 ∧
      (mkRat 23 100 : ℚ) = pyRound2 (claimScore kws (pyStrip (pyLower "arm"))) :=
  (C9_match_symptom_amended "arm").2.2.1 ("cant_arm", mkRat 23 100) (by decide)

/-- The skipped flag of a result's details, read the way the report
renderer reads it: the truthiness of `details.get("skipped")`. -/
def skipFlagSet (r : ValidationResult) : Bool :=
  match alGet r.details "skipped" with
  | some v => pyTruthy v
  | Option.none => false

/-- Claim C6's notion of a non-skipped critical failure: a result that
is critical, not passed, and does not carry the skipped flag. -/
def nonSkippedCriticalFailures (rep : ValidationReport) :
    List ValidationResult :=
  rep.results.filter (fun r =>
    r.severity = Severity.critical && !r.passed && !skipFlagSet r)

/-- Destructuring an `Except` bind that succeeded. -/
theorem except_bind_ok {α β : Type} {x : Except String α}
    {f : α → Except String β} {r : β} (h : x >>= f = .ok r) :
    ∃ a, x = .ok a ∧ f a = .ok r := by
  cases x with
  | error e => simp [Bind.bind, Except.bind] at h
  | ok a => exact ⟨a, rfl, by simpa [Bind.bind, Except.bind] using h⟩

/-- Every successful `evalCore` result is the unresolved-operand skip
or a `finishResult`. -/
theorem evalCore_shape (sandbox : String → Value) (c : Constraint)
    (b : Build) (va vb : Value) (r : ValidationResult)
    (h : evalCore sandbox c b va vb = .ok r) :
    r = skipUnresolved c ∨
    ∃ va2 vb2 p a l, r = finishResult c va2 vb2 p a l := by
  unfold evalCore at h
  simp only at h
  by_cases h1 : c.check.operator = "expression"
  · rw [if_pos h1] at h
    by_cases h2 : c.check.expression ≠ ""
    · rw [if_pos h2] at h
      exact Or.inr ⟨_, _, _, _, _, (Except.ok.inj h).symm⟩
    · rw [if_neg h2] at h
      exact Or.inr ⟨_, _, _, _, _, (Except.ok.inj h).symm⟩
  · rw [if_neg h1] at h
    by_cases h2 : va = Value.none ∨ vb = Value.none
    · rw [if_pos h2] at h
      exact Or.inl (Except.ok.inj h).symm
    · rw [if_neg h2] at h
      by_cases h3 : c.check.operator = "lt"
      · rw [if_pos h3] at h
        obtain ⟨p, hx, hf⟩ := except_bind_ok h
        exact Or.inr ⟨_, _, _, _, _, (Except.ok.inj hf).symm⟩
      · rw [if_neg h3] at h
        by_cases h4 : c.check.operator = "lte"
        · rw [if_pos h4] at h
          obtain ⟨p, hx, hf⟩ := except_bind_ok h
          exact Or.inr ⟨_, _, _, _, _, (Except.ok.inj hf).symm⟩
        · rw [if_neg h4] at h
          by_cases h5 : c.check.operator = "gt"
          · rw [if_pos h5] at h
            obtain ⟨p, hx, hf⟩ := except_bind_ok h
            exact Or.inr ⟨_, _, _, _, _, (Except.ok.inj hf).symm⟩
          · rw [if_neg h5] at h
            by_cases h6 : c.check.operator = "gte"
            · rw [if_pos h6] at h
              obtain ⟨p, hx, hf⟩ := except_bind_ok h
              exact Or.inr ⟨_, _, _, _, _, (Except.ok.inj hf).symm⟩
            · rw [if_neg h6] at h
              by_cases h7 : c.check.operator = "eq"
              · rw [if_pos h7] at h
                exact Or.inr ⟨_, _, _, _, _, (Except.ok.inj h).symm⟩
              · rw [if_neg h7] at h
                by_cases h8 : c.check.operator = "neq"
                · rw [if_pos h8] at h
                  exact Or.inr ⟨_, _, _, _, _, (Except.ok.inj h).symm⟩
                · rw [if_neg h8] at h
                  by_cases h9 : c.check.operator = "in"
                  · rw [if_pos h9] at h
                    cases vb <;>
                      exact Or.inr ⟨_, _, _, _, _, (Except.ok.inj h).symm⟩
                  · rw [if_neg h9] at h
                    by_cases h10 : c.check.operator = "contains"
                    · rw [if_pos h10] at h
                      cases va <;>
                        exact Or.inr ⟨_, _, _, _, _, (Except.ok.inj h).symm⟩
                    · rw [if_neg h10] at h
                      by_cases h11 : c.check.operator = "multiply_lte"
                      · rw [if_pos h11] at h
                        obtain ⟨p, hx, hf⟩ := except_bind_ok h
                        obtain ⟨q, hx2, hf2⟩ := except_bind_ok hf
                        exact Or.inr ⟨_, _, _, _, _, (Except.ok.inj hf2).symm⟩
                      · rw [if_neg h11] at h
                        by_cases h12 : c.check.operator = "range"
                        · rw [if_pos h12] at h
                          by_cases h13 : resolve_field sandbox
                              c.check.field_b_high b ≠ Value.none
                          · rw [if_pos h13] at h
                            obtain ⟨p, hx, hf⟩ := except_bind_ok h
                            by_cases hp : p = true
                            · rw [if_pos hp] at hf
                              obtain ⟨q, hx2, hf2⟩ := except_bind_ok hf
                              exact Or.inr
                                ⟨_, _, _, _, _, (Except.ok.inj hf2).symm⟩
                            · rw [if_neg hp] at hf
                              obtain ⟨q, hx2, hf2⟩ := except_bind_ok hf
                              exact Or.inr
                                ⟨_, _, _, _, _, (Except.ok.inj hf2).symm⟩
                          · rw [if_neg h13] at h
                            obtain ⟨p, hx, hf⟩ := except_bind_ok h
                            exact Or.inr
                              ⟨_, _, _, _, _, (Except.ok.inj hf).symm⟩
                        · rw [if_neg h12] at h
                          exact Or.inr
                            ⟨_, _, _, _, _, (Except.ok.inj h).symm⟩

/-- Every successful `evaluate_constraint` result is a required-scan
skip, the unresolved-operand skip, or a `finishResult`. -/
theorem evaluate_constraint_shape (sandbox : String → Value)
    (c : Constraint) (b : Build) (r : ValidationResult)
    (h : evaluate_constraint sandbox c b = .ok r) :
    (∃ sk, requiredScan c b c.components = some sk ∧ r = sk) ∨
    r = skipUnresolved c ∨
    ∃ va vb p a l, r = finishResult c va vb p a l := by
  unfold evaluate_constraint at h
  cases hscan : requiredScan c b c.components with
  | some sk =>
    rw [hscan] at h
    exact Or.inl ⟨sk, rfl, (Except.ok.inj h).symm⟩
  | none =>
    rw [hscan] at h
    exact Or.inr (evalCore_shape sandbox c b _ _ r h)

/-- A failed `evaluate_constraint` result never carries the skipped
flag: skip results always pass. -/
theorem eval_skip_passed (sandbox : String → Value) (c : Constraint)
    (b : Build) (r : ValidationResult)
    (h : evaluate_constraint sandbox c b = .ok r) (hp : r.passed = false) :
    skipFlagSet r = false := by
  rcases evaluate_constraint_shape sandbox c b r h with
    ⟨sk, hsk, rfl⟩ | rfl | ⟨va, vb, p, a, l, rfl⟩
  · exact absurd (requiredScan_passed c b c.components _ hsk).1
      (by simp [hp])
  · simp [skipUnresolved] at hp
  · rfl

/-- Every result of a report produced by `validate_build` comes from
`evaluate_constraint` on some constraint of the rule set. -/
theorem validate_build_ok (sandbox : String → Value) (cs : List Constraint)
    (b : Build) (rep : ValidationReport)
    (h : validate_build sandbox cs b = .ok rep) :
    ∀ r ∈ rep.results, ∃ c ∈ cs, evaluate_constraint sandbox c b = .ok r := by
  unfold validate_build at h
  obtain ⟨results, hres, hpure⟩ := except_bind_ok h
  have hrep : rep = { build_name := b.name, results := results } :=
    (Except.ok.inj hpure).symm
  subst hrep
  intro r hr
  exact mapME_ok_mem _ cs results hres r hr

/-- C6: for a report produced by `validate_build`, `passed` is true iff
there are zero non-skipped critical failures; a result recorded as
skipped is a passed result, never counts as a critical failure, and a
skipped critical rule never makes `DiagnosticReport.has_critical_issues`
true — that flag is driven only by critical discrepancies and by
non-skipped critical failures. -/
theorem C6_passed_iff_no_critical (sandbox : String → Value)
    (cs : List Constraint) (b : Build) (rep : ValidationReport)
    (h : validate_build sandbox cs b = .ok rep) :
    (rep.passed = true ↔ nonSkippedCriticalFailures rep = []) ∧
    (∀ r ∈ rep.results, skipFlagSet r = true →
      r.passed = true ∧ r ∉ rep.critical_failures) ∧
    (∀ drep : DiagnosticReport, drep.compatibility_report = some rep →
      drep.has_critical_issues =
        (drep.discrepancies.any (fun d => d.severity = Severity.critical) ||
         decide (nonSkippedCriticalFailures rep ≠ []) ||
         (match drep.firmware_report with
          | some fr => decide (fr.critical_failures ≠ [])
          | Option.none => false))) := by
  have hmem := validate_build_ok sandbox cs b rep h
  have hcf : rep.critical_failures = nonSkippedCriticalFailures rep := by
    unfold ValidationReport.critical_failures nonSkippedCriticalFailures
    apply List.filter_congr
    intro r hr
    by_cases hp : r.passed = true
    · simp [hp]
    · obtain ⟨c, hc, hev⟩ := hmem r hr
      have hs := eval_skip_passed sandbox c b r hev (by simpa using hp)
      simp [hs]
  refine ⟨?_, ?_, ?_⟩
  · unfold ValidationReport.passed
    rw [hcf]
    simp [List.length_eq_zero]
  · intro r hr hsk
    obtain ⟨c, hc, hev⟩ := hmem r hr
    by_cases hp : r.passed = true
    · refine ⟨hp, ?_⟩
      unfold ValidationReport.critical_failures
      simp [List.mem_filter, hp]
    · exact absurd hsk
        (by simp [eval_skip_passed sandbox c b r hev (by simpa using hp)])
  · intro drep hcompat
    cases drep with
    | mk bn fi ds cr fr sy cc csc q =>
      have hcr : cr = some rep := hcompat
      subst hcr
      simp only [DiagnosticReport.has_critical_issues]
      rw [hcf]

/-- A one-rule report in which the single critical rule was skipped
(for the C6 witness). -/
def c6DemoReport : ValidationReport :=
  { build_name := "Empty"
    results := [skipTransmitter transmitterConstraint] }

/-- Witness for C6 on a concrete one-rule run whose critical rule is
skipped: the report still passes. -/
theorem C6_passed_iff_no_critical_witness :
    validate_build (fun _ => Value.none) [transmitterConstraint]
        noComponentsBuild = .ok c6DemoReport ∧
    (c6DemoReport.passed = true ↔
      nonSkippedCriticalFailures c6DemoReport = []) :=
  ⟨rfl, (C6_passed_iff_no_critical (fun _ => Value.none)
    [transmitterConstraint] noComponentsBuild c6DemoReport rfl).1⟩

/-- Any result emitted by `fw_check_motor_protocol` carries id `fw_001`. -/
theorem fwid_001 (config : FCConfig) (b : Build) (r : ValidationResult)
    (h : fw_check_motor_protocol config b = .ok (some r)) :
    r.constraint_id = "fw_001" := by
  unfold fw_check_motor_protocol at h
  repeat'
    first
      | (obtain ⟨x, hx, h⟩ := except_bind_ok h)
      | split at h
      | simp only at h
  all_goals
    first
      | exact Option.noConfusion (Except.ok.inj h)
      | (have he := Option.some.inj (Except.ok.inj h); subst he; rfl)

/-- Any result emitted by `fw_check_blheli_s_dshot1200` carries id `fw_002`. -/
theorem fwid_002 (config : FCConfig) (b : Build) (r : ValidationResult)
    (h : fw_check_blheli_s_dshot1200 config b = .ok (some r)) :
    r.constraint_id = "fw_002" := by
  unfold fw_check_blheli_s_dshot1200 at h
  repeat'
    first
      | (obtain ⟨x, hx, h⟩ := except_bind_ok h)
      | split at h
      | simp only at h
  all_goals
    first
      | exact Option.noConfusion (Except.ok.inj h)
      | (have he := Option.some.inj (Except.ok.inj h); subst he; rfl)

/-- Any result emitted by `fw_check_bidir_dshot` carries id `fw_003`. -/
theorem fwid_003 (config : FCConfig) (b : Build) (r : ValidationResult)
    (h : fw_check_bidir_dshot config b = .ok (some r)) :
    r.constraint_id = "fw_003" := by
  unfold fw_check_bidir_dshot at h
  repeat'
    first
      | (obtain ⟨x, hx, h⟩ := except_bind_ok h)
      | split at h
      | simp only at h
  all_goals
    first
      | exact Option.noConfusion (Except.ok.inj h)
      | (have he := Option.some.inj (Except.ok.inj h); subst he; rfl)

/-- Any result emitted by `fw_check_receiver_protocol` carries id `fw_004`. -/
theorem fwid_004 (config : FCConfig) (b : Build) (r : ValidationResult)
    (h : fw_check_receiver_protocol config b = .ok (some r)) :
    r.constraint_id = "fw_004" := by
  unfold fw_check_receiver_protocol at h
  repeat'
    first
      | (obtain ⟨x, hx, h⟩ := except_bind_ok h)
      | split at h
      | simp only at h
  all_goals
    first
      | exact Option.noConfusion (Except.ok.inj h)
      | (have he := Option.some.inj (Except.ok.inj h); subst he; rfl)

/-- Any result emitted by `fw_check_receiver_uart` carries id `fw_005`. -/
theorem fwid_005 (config : FCConfig) (b : Build) (r : ValidationResult)
    (h : fw_check_receiver_uart config b = .ok (some r)) :
    r.constraint_id = "fw_005" := by
  unfold fw_check_receiver_uart at h
  repeat'
    first
      | (obtain ⟨x, hx, h⟩ := except_bind_ok h)
      | split at h
      | simp only at h
  all_goals
    first
      | exact Option.noConfusion (Except.ok.inj h)
      | (have he := Option.some.inj (Except.ok.inj h); subst he; rfl)

/-- Any result emitted by `fw_check_sbus_inversion` carries id `fw_006`. -/
theorem fwid_006 (config : FCConfig) (b : Build) (r : ValidationResult)
    (h : fw_check_sbus_inversion config b = .ok (some r)) :
    r.constraint_id = "fw_006" := by
  unfold fw_check_sbus_inversion at h
  repeat'
    first
      | (obtain ⟨x, hx, h⟩ := except_bind_ok h)
      | split at h
      | simp only at h
  all_goals
    first
      | exact Option.noConfusion (Except.ok.inj h)
      | (have he := Option.some.inj (Except.ok.inj h); subst he; rfl)

/-- Any result emitted by `fw_check_vtx_uart` carries id `fw_007`. -/
theorem fwid_007 (config : FCConfig) (b : Build) (r : ValidationResult)
    (h : fw_check_vtx_uart config b = .ok (some r)) :
    r.constraint_id = "fw_007" := by
  unfold fw_check_vtx_uart at h
  repeat'
    first
      | (obtain ⟨x, hx, h⟩ := except_bind_ok h)
      | split at h
      | simp only at h
  all_goals
    first
      | exact Option.noConfusion (Except.ok.inj h)
      | (have he := Option.some.inj (Except.ok.inj h); subst he; rfl)

/-- Any result emitted by `fw_check_dji_msp` carries id `fw_008`. -/
theorem fwid_008 (config : FCConfig) (b : Build) (r : ValidationResult)
    (h : fw_check_dji_msp config b = .ok (some r)) :
    r.constraint_id = "fw_008" := by
  unfold fw_check_dji_msp at h
  repeat'
    first
      | (obtain ⟨x, hx, h⟩ := except_bind_ok h)
      | split at h
      | simp only at h
  all_goals
    first
      | exact Option.noConfusion (Except.ok.inj h)
      | (have he := Option.some.inj (Except.ok.inj h); subst he; rfl)

/-- Any result emitted by `fw_check_vtx_type_match` carries id `fw_009`. -/
theorem fwid_009 (config : FCConfig) (b : Build) (r : ValidationResult)
    (h : fw_check_vtx_type_match config b = .ok (some r)) :
    r.constraint_id = "fw_009" := by
  unfold fw_check_vtx_type_match at h
  repeat'
    first
      | (obtain ⟨x, hx, h⟩ := except_bind_ok h)
      | split at h
      | simp only at h
  all_goals
    first
      | exact Option.noConfusion (Except.ok.inj h)
      | (have he := Option.some.inj (Except.ok.inj h); subst he; rfl)

/-- Any result emitted by `fw_check_battery_min_voltage` carries id `fw_010`. -/
theorem fwid_010 (config : FCConfig) (b : Build) (r : ValidationResult)
    (h : fw_check_battery_min_voltage config b = .ok (some r)) :
    r.constraint_id = "fw_010" := by
  unfold fw_check_battery_min_voltage at h
  repeat'
    first
      | (obtain ⟨x, hx, h⟩ := except_bind_ok h)
      | split at h
      | simp only at h
  all_goals
    first
      | exact Option.noConfusion (Except.ok.inj h)
      | (have he := Option.some.inj (Except.ok.inj h); subst he; rfl)

/-- Any result emitted by `fw_check_battery_cell_count` carries id `fw_011`. -/
theorem fwid_011 (config : FCConfig) (b : Build) (r : ValidationResult)
    (h : fw_check_battery_cell_count config b = .ok (some r)) :
    r.constraint_id = "fw_011" := by
  unfold fw_check_battery_cell_count at h
  repeat'
    first
      | (obtain ⟨x, hx, h⟩ := except_bind_ok h)
      | split at h
      | simp only at h
  all_goals
    first
      | exact Option.noConfusion (Except.ok.inj h)
      | (have he := Option.some.inj (Except.ok.inj h); subst he; rfl)

/-- Any result emitted by `fw_check_pid_loop_rate` carries id `fw_012`. -/
theorem fwid_012 (config : FCConfig) (b : Build) (r : ValidationResult)
    (h : fw_check_pid_loop_rate config b = .ok (some r)) :
    r.constraint_id = "fw_012" := by
  unfold fw_check_pid_loop_rate at h
  repeat'
    first
      | (obtain ⟨x, hx, h⟩ := except_bind_ok h)
      | split at h
      | simp only at h
  all_goals
    first
      | exact Option.noConfusion (Except.ok.inj h)
      | (have he := Option.some.inj (Except.ok.inj h); subst he; rfl)

/-- Any result emitted by `fw_check_gyro_filter` carries id `fw_013`. -/
theorem fwid_013 (config : FCConfig) (b : Build) (r : ValidationResult)
    (h : fw_check_gyro_filter config b = .ok (some r)) :
    r.constraint_id = "fw_013" := by
  unfold fw_check_gyro_filter at h
  repeat'
    first
      | (obtain ⟨x, hx, h⟩ := except_bind_ok h)
      | split at h
      | simp only at h
  all_goals
    first
      | exact Option.noConfusion (Except.ok.inj h)
      | (have he := Option.some.inj (Except.ok.inj h); subst he; rfl)

/-- Any result emitted by `fw_check_rpm_filtering` carries id `fw_014`. -/
theorem fwid_014 (config : FCConfig) (b : Build) (r : ValidationResult)
    (h : fw_check_rpm_filtering config b = .ok (some r)) :
    r.constraint_id = "fw_014" := by
  unfold fw_check_rpm_filtering at h
  repeat'
    first
      | (obtain ⟨x, hx, h⟩ := except_bind_ok h)
      | split at h
      | simp only at h
  all_goals
    first
      | exact Option.noConfusion (Except.ok.inj h)
      | (have he := Option.some.inj (Except.ok.inj h); subst he; rfl)

/-- Any result emitted by `fw_check_osd_feature` carries id `fw_015`. -/
theorem fwid_015 (config : FCConfig) (b : Build) (r : ValidationResult)
    (h : fw_check_osd_feature config b = .ok (some r)) :
    r.constraint_id = "fw_015" := by
  unfold fw_check_osd_feature at h
  repeat'
    first
      | (obtain ⟨x, hx, h⟩ := except_bind_ok h)
      | split at h
      | simp only at h
  all_goals
    first
      | exact Option.noConfusion (Except.ok.inj h)
      | (have he := Option.some.inj (Except.ok.inj h); subst he; rfl)

/-- Any result emitted by `fw_check_telemetry_feature` carries id `fw_016`. -/
theorem fwid_016 (config : FCConfig) (b : Build) (r : ValidationResult)
    (h : fw_check_telemetry_feature config b = .ok (some r)) :
    r.constraint_id = "fw_016" := by
  unfold fw_check_telemetry_feature at h
  repeat'
    first
      | (obtain ⟨x, hx, h⟩ := except_bind_ok h)
      | split at h
      | simp only at h
  all_goals
    first
      | exact Option.noConfusion (Except.ok.inj h)
      | (have he := Option.some.inj (Except.ok.inj h); subst he; rfl)

/-- Any result emitted by `fw_check_esc_sensor` carries id `fw_017`. -/
theorem fwid_017 (config : FCConfig) (b : Build) (r : ValidationResult)
    (h : fw_check_esc_sensor config b = .ok (some r)) :
    r.constraint_id = "fw_017" := by
  unfold fw_check_esc_sensor at h
  repeat'
    first
      | (obtain ⟨x, hx, h⟩ := except_bind_ok h)
      | split at h
      | simp only at h
  all_goals
    first
      | exact Option.noConfusion (Except.ok.inj h)
      | (have he := Option.some.inj (Except.ok.inj h); subst he; rfl)

/-- Any result emitted by `fw_check_inav_nav_settings` carries id `fw_019`. -/
theorem fwid_019 (config : FCConfig) (b : Build) (r : ValidationResult)
    (h : fw_check_inav_nav_settings config b = .ok (some r)) :
    r.constraint_id = "fw_019" := by
  unfold fw_check_inav_nav_settings at h
  repeat'
    first
      | (obtain ⟨x, hx, h⟩ := except_bind_ok h)
      | split at h
      | simp only at h
  all_goals
    first
      | exact Option.noConfusion (Except.ok.inj h)
      | (have he := Option.some.inj (Except.ok.inj h); subst he; rfl)

/-- Any result emitted by `fw_check_inav_fixed_wing` carries id `fw_020`. -/
theorem fwid_020 (config : FCConfig) (b : Build) (r : ValidationResult)
    (h : fw_check_inav_fixed_wing config b = .ok (some r)) :
    r.constraint_id = "fw_020" := by
  unfold fw_check_inav_fixed_wing at h
  repeat'
    first
      | (obtain ⟨x, hx, h⟩ := except_bind_ok h)
      | split at h
      | simp only at h
  all_goals
    first
      | exact Option.noConfusion (Except.ok.inj h)
      | (have he := Option.some.inj (Except.ok.inj h); subst he; rfl)

/-- The firmware checks that run before the serial-conflict check. -/
def FW_PRE : List (FCConfig → Build → Except String (Option ValidationResult)) :=
  [fw_check_motor_protocol, fw_check_blheli_s_dshot1200, fw_check_bidir_dshot,
   fw_check_receiver_protocol, fw_check_receiver_uart, fw_check_sbus_inversion,
   fw_check_vtx_uart, fw_check_dji_msp, fw_check_vtx_type_match,
   fw_check_battery_min_voltage, fw_check_battery_cell_count,
   fw_check_pid_loop_rate, fw_check_gyro_filter, fw_check_rpm_filtering,
   fw_check_osd_feature, fw_check_telemetry_feature, fw_check_esc_sensor]

/-- The firmware checks that run after the serial-conflict check. -/
def FW_POST : List (FCConfig → Build → Except String (Option ValidationResult)) :=
  [fw_check_inav_nav_settings, fw_check_inav_fixed_wing]

/-- A successful `mapME` over an appended list splits into successful
runs over the two halves. -/
theorem mapME_append_ok {α β : Type} (f : α → Except String β) :
    ∀ (l1 l2 : List α) (ys : List β), mapME f (l1 ++ l2) = .ok ys →
      ∃ y1 y2, mapME f l1 = .ok y1 ∧ mapME f l2 = .ok y2 ∧ ys = y1 ++ y2 := by
  intro l1
  induction l1 with
  | nil => intro l2 ys h; exact ⟨[], ys, rfl, h, rfl⟩
  | cons x xs ih =>
    intro l2 ys h
    unfold mapME at h
    obtain ⟨y, hy, h⟩ := except_bind_ok h
    obtain ⟨ys', hys', h⟩ := except_bind_ok h
    have hys : ys = y :: ys' := (Except.ok.inj h).symm
    subst hys
    obtain ⟨y1, y2, h1, h2, hys2⟩ := ih l2 ys' hys'
    subst hys2
    refine ⟨y :: y1, y2, ?_, h2, rfl⟩
    unfold mapME
    rw [hy]
    show mapME f xs >>= (fun ys => pure (y :: ys)) = .ok (y :: y1)
    rw [h1]
    rfl

/-- The substring scanner accepts a list the needle prefixes. -/
theorem pyInStr_go_prefix (n : String) :
    ∀ l, n.data.isPrefixOf l = true → pyInStr.go n l = true := by
  intro l h
  cases l with
  | nil => simpa [pyInStr.go] using h
  | cons c rest => simp [pyInStr.go, h]

/-- The substring scanner is monotone under consing. -/
theorem pyInStr_go_cons (n : String) (c : Char) (rest : List Char)
    (h : pyInStr.go n rest = true) : pyInStr.go n (c :: rest) = true := by
  simp [pyInStr.go, h]

/-- An infix occurrence makes the Python substring test true. -/
theorem pyInStr_of_infix (n hay : String) (h : n.data <:+: hay.data) :
    pyInStr n hay = true := by
  obtain ⟨u, v, huv⟩ := h
  unfold pyInStr
  rw [← huv]
  clear huv
  induction u with
  | nil =>
    refine pyInStr_go_prefix n _ ?_
    rw [List.isPrefixOf_iff_prefix]
    simp
  | cons c u ih => exact pyInStr_go_cons n c _ ih

/-- Every part is an infix of the separator join. -/
theorem infix_pyJoin (sep : String) :
    ∀ (l : List String) (s : String), s ∈ l →
      s.data <:+: (pyJoin sep l).data := by
  intro l
  induction l with
  | nil => intro s hs; simp at hs
  | cons x xs ih =>
    intro s hs
    rcases List.mem_cons.mp hs with rfl | hmem
    · cases xs with
      | nil => exact ⟨[], [], by simp [pyJoin]⟩
      | cons y ys =>
        exact ⟨[], (sep ++ pyJoin sep (y :: ys)).data, by
          simp [pyJoin, String.data_append, List.append_assoc]⟩
    · cases xs with
      | nil => simp at hmem
      | cons y ys =>
        obtain ⟨u, v, huv⟩ := ih s hmem
        exact ⟨(x ++ sep).data ++ u, v, by
          simp [pyJoin, String.data_append, List.append_assoc, huv]⟩

/-- An infix of a string stays an infix after prepending. -/
theorem infix_append_left (a : String) {l : List Char} {t : String}
    (h : l <:+: t.data) : l <:+: (a ++ t).data := by
  obtain ⟨u, v, huv⟩ := h
  exact ⟨a.data ++ u, v, by simp [String.data_append, List.append_assoc, huv]⟩

/-- Two distinct members of a list appear as an ordered pair (one way
or the other) in the `i < j` pair enumeration. -/
theorem pairsAfter_mem :
    ∀ (l : List String) (a b : String), a ∈ l → b ∈ l → a ≠ b →
      (a, b) ∈ pairsAfter l ∨ (b, a) ∈ pairsAfter l := by
  intro l
  induction l with
  | nil => intro a b ha _ _; simp at ha
  | cons x rest ih =>
    intro a b ha hb hne
    rcases List.mem_cons.mp ha with rfl | ha'
    · rcases List.mem_cons.mp hb with rfl | hb'
      · exact absurd rfl hne
      · exact Or.inl (List.mem_append.mpr
          (Or.inl (List.mem_map.mpr ⟨b, hb', rfl⟩)))
    · rcases List.mem_cons.mp hb with rfl | hb'
      · exact Or.inr (List.mem_append.mpr
          (Or.inl (List.mem_map.mpr ⟨a, ha', rfl⟩)))
      · rcases ih a b ha' hb' hne with h | h
        · exact Or.inl (List.mem_append.mpr (Or.inr h))
        · exact Or.inr (List.mem_append.mpr (Or.inr h))

/-- A port carrying both GPS and SERIAL_RX contributes a conflict
string mentioning both functions. -/
theorem portConflicts_gps_rx (p : SerialPortConfig)
    (hgps : "GPS" ∈ p.functions) (hrx : "SERIAL_RX" ∈ p.functions) :
    ∃ s0 ∈ portConflicts p,
      "GPS".data <:+: s0.data ∧ "SERIAL_RX".data <:+: s0.data := by
  have hg : "GPS" ∈ p.functions.filter (fun f => f ≠ "UNUSED") :=
    List.mem_filter.mpr ⟨hgps, by decide⟩
  have hr : "SERIAL_RX" ∈ p.functions.filter (fun f => f ≠ "UNUSED") :=
    List.mem_filter.mpr ⟨hrx, by decide⟩
  rcases pairsAfter_mem _ "GPS" "SERIAL_RX" hg hr (by decide) with hpr | hpr
  · refine ⟨"UART" ++ toString p.port_id ++ ": " ++ "GPS" ++ " + " ++
      "SERIAL_RX", ?_, ?_, ?_⟩
    · simp only [portConflicts]
      exact List.mem_map.mpr ⟨("GPS", "SERIAL_RX"),
        List.mem_filter.mpr ⟨hpr, by decide⟩, rfl⟩
    · exact ⟨("UART" ++ toString p.port_id ++ ": ").data,
        (" + " ++ "SERIAL_RX").data,
        by simp [String.data_append, List.append_assoc]⟩
    · exact ⟨("UART" ++ toString p.port_id ++ ": " ++ "GPS" ++ " + ").data,
        [], by simp [String.data_append, List.append_assoc]⟩
  · refine ⟨"UART" ++ toString p.port_id ++ ": " ++ "SERIAL_RX" ++ " + " ++
      "GPS", ?_, ?_, ?_⟩
    · simp only [portConflicts]
      exact List.mem_map.mpr ⟨("SERIAL_RX", "GPS"),
        List.mem_filter.mpr ⟨hpr, by decide⟩, rfl⟩
    · exact ⟨("UART" ++ toString p.port_id ++ ": " ++ "SERIAL_RX" ++
        " + ").data, [], by simp [String.data_append, List.append_assoc]⟩
    · exact ⟨("UART" ++ toString p.port_id ++ ": ").data,
        (" + " ++ "GPS").data,
        by simp [String.data_append, List.append_assoc]⟩

/-- Under a present conflict the serial-conflict check returns the
single aggregated failing result. -/
theorem fw018_value (config : FCConfig) (b : Build)
    (hne : ¬ config.serial_ports = [])
    (hc : config.serial_ports.flatMap portConflicts ≠ []) :
    fw_check_serial_conflicts config b =
      .ok (some (fwResult "fw_018" "Serial port conflicts" Severity.critical
        false ("Conflicting serial assignments: " ++
          pyJoin "; " (config.serial_ports.flatMap portConflicts)))) := by
  unfold fw_check_serial_conflicts
  rw [if_neg hne]
  simp only
  rw [if_pos hc]

/-- No check before the serial-conflict check emits id `fw_018`. -/
theorem fwid_pre (c : FCConfig → Build → Except String (Option ValidationResult))
    (hc : c ∈ FW_PRE) (config : FCConfig) (b : Build) (y : ValidationResult)
    (hcv : c config b = .ok (some y)) : ¬ y.constraint_id = "fw_018" := by
  fin_cases hc <;>
    first
      | (rw [fwid_001 config b y hcv]; decide)
      | (rw [fwid_002 config b y hcv]; decide)
      | (rw [fwid_003 config b y hcv]; decide)
      | (rw [fwid_004 config b y hcv]; decide)
      | (rw [fwid_005 config b y hcv]; decide)
      | (rw [fwid_006 config b y hcv]; decide)
      | (rw [fwid_007 config b y hcv]; decide)
      | (rw [fwid_008 config b y hcv]; decide)
      | (rw [fwid_009 config b y hcv]; decide)
      | (rw [fwid_010 config b y hcv]; decide)
      | (rw [fwid_011 config b y hcv]; decide)
      | (rw [fwid_012 config b y hcv]; decide)
      | (rw [fwid_013 config b y hcv]; decide)
      | (rw [fwid_014 config b y hcv]; decide)
      | (rw [fwid_015 config b y hcv]; decide)
      | (rw [fwid_016 config b y hcv]; decide)
      | (rw [fwid_017 config b y hcv]; decide)

/-- No check after the serial-conflict check emits id `fw_018`. -/
theorem fwid_post (c : FCConfig → Build → Except String (Option ValidationResult))
    (hc : c ∈ FW_POST) (config : FCConfig) (b : Build) (y : ValidationResult)
    (hcv : c config b = .ok (some y)) : ¬ y.constraint_id = "fw_018" := by
  fin_cases hc <;>
    first
      | (rw [fwid_019 config b y hcv]; decide)
      | (rw [fwid_020 config b y hcv]; decide)

/-- C8: when some serial port has both the GPS and the SERIAL_RX
function assigned, a successful `validate_firmware_config` run contains
exactly one result with id `fw_018`; it is a critical failure whose
message names both functions, and every port-function conflict string
of the whole run appears in that one message — conflicts are aggregated
into a single failing result, never one per conflicting pair. -/
theorem C8_serial_conflict_aggregated (config : FCConfig) (b : Build)
    (rep : ValidationReport)
    (h : validate_firmware_config config b = .ok rep)
    (p : SerialPortConfig) (hp : p ∈ config.serial_ports)
    (hgps : "GPS" ∈ p.functions) (hrx : "SERIAL_RX" ∈ p.functions) :
    ∃ r, rep.results.filter (fun x => x.constraint_id = "fw_018") = [r] ∧
      r.passed = false ∧ r.severity = Severity.critical ∧
      pyInStr "GPS" r.message = true ∧
      pyInStr "SERIAL_RX" r.message = true ∧
      ∀ q ∈ config.serial_ports, ∀ s ∈ portConflicts q,
        pyInStr s r.message = true := by
  obtain ⟨s0, hs0mem, hs0gps, hs0rx⟩ := portConflicts_gps_rx p hgps hrx
  have hne : ¬ config.serial_ports = [] := List.ne_nil_of_mem hp
  have hs0c : s0 ∈ config.serial_ports.flatMap portConflicts :=
    List.mem_flatMap.mpr ⟨p, hp, hs0mem⟩
  have hc : config.serial_ports.flatMap portConflicts ≠ [] :=
    List.ne_nil_of_mem hs0c
  unfold validate_firmware_config at h
  obtain ⟨opts, hopts, hpure⟩ := except_bind_ok h
  have hrep : rep = { build_name := b.name, results := opts.reduceOption } :=
    (Except.ok.inj hpure).symm
  subst hrep
  rw [show ALL_CHECKS = FW_PRE ++ fw_check_serial_conflicts :: FW_POST
    from rfl] at hopts
  obtain ⟨y1, y2, hy1, hy2, hopts2⟩ := mapME_append_ok _ _ _ _ hopts
  subst hopts2
  unfold mapME at hy2
  obtain ⟨o0, ho0, hy2⟩ := except_bind_ok hy2
  obtain ⟨y3, hy3, hy2⟩ := except_bind_ok hy2
  have hy2' : y2 = o0 :: y3 := (Except.ok.inj hy2).symm
  subst hy2'
  have ho0' : o0 = some (fwResult "fw_018" "Serial port conflicts"
      Severity.critical false ("Conflicting serial assignments: " ++
        pyJoin "; " (config.serial_ports.flatMap portConflicts))) :=
    (Except.ok.inj ((fw018_value config b hne hc).symm.trans ho0)).symm
  subst ho0'
  have h1 : y1.reduceOption.filter
      (fun x => x.constraint_id = "fw_018") = [] := by
    refine List.filter_eq_nil_iff.mpr ?_
    intro y hy
    have hsome : some y ∈ y1 := List.reduceOption_mem_iff.mp hy
    obtain ⟨c, hcm, hcv⟩ :=
      mapME_ok_mem (fun check => check config b) FW_PRE y1 hy1 (some y) hsome
    simpa using fwid_pre c hcm config b y hcv
  have h3 : y3.reduceOption.filter
      (fun x => x.constraint_id = "fw_018") = [] := by
    refine List.filter_eq_nil_iff.mpr ?_
    intro y hy
    have hsome : some y ∈ y3 := List.reduceOption_mem_iff.mp hy
    obtain ⟨c, hcm, hcv⟩ :=
      mapME_ok_mem (fun check => check config b) FW_POST y3 hy3 (some y) hsome
    simpa using fwid_post c hcm config b y hcv
  refine ⟨fwResult "fw_018" "Serial port conflicts" Severity.critical false
    ("Conflicting serial assignments: " ++
      pyJoin "; " (config.serial_ports.flatMap portConflicts)),
    ?_, rfl, rfl, ?_, ?_, ?_⟩
  · show ((y1 ++ _ :: y3).reduceOption.filter
      (fun x => x.constraint_id = "fw_018")) = _
    rw [List.reduceOption_append, List.filter_append, h1,
      List.reduceOption_cons_of_some, List.filter_cons]
    simp [h3, fwResult]
  · exact pyInStr_of_infix _ _ (infix_append_left _
      (hs0gps.trans (infix_pyJoin "; " _ s0 hs0c)))
  · exact pyInStr_of_infix _ _ (infix_append_left _
      (hs0rx.trans (infix_pyJoin "; " _ s0 hs0c)))
  · intro q hq s hs
    exact pyInStr_of_infix _ _ (infix_append_left _
      (infix_pyJoin "; " _ s (List.mem_flatMap.mpr ⟨q, hq, hs⟩)))

/-- A UART with both GPS and SERIAL_RX assigned (for the C8 witness). -/
def c8DemoPort : SerialPortConfig :=
  { port_id := 0, functions := ["GPS", "SERIAL_RX"] }

/-- A config whose only serial port carries the GPS/SERIAL_RX
conflict. -/
def c8DemoConfig : FCConfig :=
  { firmware := "BTFL", firmware_version := "4.5.1",
    serial_ports := [c8DemoPort] }

/-- The report of the C8 witness run: the single aggregated fw_018
failure. -/
def c8DemoReport : ValidationReport :=
  { build_name := "Empty"
    results := [fwResult "fw_018" "Serial port conflicts" Severity.critical
      false "Conflicting serial assignments: UART0: GPS + SERIAL_RX"] }

/-- Whether an `Except` computation succeeded (no exception raised). -/
def isOkE {α : Type} : Except String α → Bool
  | .ok _ => true
  | .error _ => false

/-- `isOkE` characterised. -/
theorem isOkE_iff {α : Type} (e : Except String α) :
    isOkE e = true ↔ ∃ a, e = .ok a := by
  cases e <;> simp [isOkE]

/-- A bind succeeds when its head succeeds and its continuation
succeeds on the head's value. -/
theorem isOkE_bind {α β : Type} {x : Except String α}
    {f : α → Except String β} (hx : isOkE x = true)
    (hf : ∀ a, x = .ok a → isOkE (f a) = true) :
    isOkE (x >>= f) = true := by
  cases x with
  | error e => simp [isOkE] at hx
  | ok a => simpa [Bind.bind, Except.bind] using hf a rfl

/-- The value is a Python string. -/
def isStrV : Value → Bool
  | .str _ => true
  | _ => false

/-- The value is hashable (not a list). -/
def notListV : Value → Bool
  | .list _ => false
  | _ => true

/-- The value is a number. -/
def isNumV : Value → Bool
  | .num _ => true
  | _ => false

/-- The value is a number or `None`. -/
def numOrNoneV : Value → Bool
  | .num _ => true
  | .none => true
  | _ => false

/-- Operand safety of one constraint on one build: either it is an
expression rule (the sandboxed evaluator never raises — failures
become the `None` sentinel) or its resolved operands are numeric or
unresolved, with a numeric multiplier where `multiply_lte` needs one. -/
def constraintSafe (sandbox : String → Value) (c : Constraint) (b : Build) :
    Bool :=
  decide (c.check.operator = "expression" ∨
    (numOrNoneV (resolve_field sandbox c.check.field_a b) = true ∧
     numOrNoneV (resolve_field sandbox c.check.field_b b) = true ∧
     numOrNoneV (resolve_field sandbox c.check.field_b_high b) = true ∧
     (c.check.operator = "multiply_lte" →
       isNumV c.check.multiplier = true)))

/-- The operator core never raises under operand safety. -/
theorem evalCore_ok (sandbox : String → Value) (c : Constraint) (b : Build)
    (va vb : Value)
    (hsafe : c.check.operator = "expression" ∨
      (numOrNoneV va = true ∧ numOrNoneV vb = true ∧
       numOrNoneV (resolve_field sandbox c.check.field_b_high b) = true ∧
       (c.check.operator = "multiply_lte" →
         isNumV c.check.multiplier = true))) :
    isOkE (evalCore sandbox c b va vb) = true := by
  unfold evalCore
  simp only
  by_cases h1 : c.check.operator = "expression"
  · rw [if_pos h1]
    by_cases h2 : c.check.expression ≠ ""
    · rw [if_pos h2]; rfl
    · rw [if_neg h2]; rfl
  · rcases hsafe with h1' | ⟨hva, hvb, hhigh, hmul⟩
    · exact absurd h1' h1
    rw [if_neg h1]
    by_cases h2 : va = Value.none ∨ vb = Value.none
    · rw [if_pos h2]; rfl
    · rw [if_neg h2]
      push_neg at h2
      obtain ⟨hva', hvb'⟩ := h2
      obtain ⟨x, hx⟩ : ∃ x, va = .num x := by
        cases va <;> simp_all [numOrNoneV]
      obtain ⟨y, hy⟩ : ∃ y, vb = .num y := by
        cases vb <;> simp_all [numOrNoneV]
      subst hx; subst hy
      by_cases h3 : c.check.operator = "lt"
      · rw [if_pos h3]; rfl
      rw [if_neg h3]
      by_cases h4 : c.check.operator = "lte"
      · rw [if_pos h4]; rfl
      rw [if_neg h4]
      by_cases h5 : c.check.operator = "gt"
      · rw [if_pos h5]; rfl
      rw [if_neg h5]
      by_cases h6 : c.check.operator = "gte"
      · rw [if_pos h6]; rfl
      rw [if_neg h6]
      by_cases h7 : c.check.operator = "eq"
      · rw [if_pos h7]; rfl
      rw [if_neg h7]
      by_cases h8 : c.check.operator = "neq"
      · rw [if_pos h8]; rfl
      rw [if_neg h8]
      by_cases h9 : c.check.operator = "in"
      · rw [if_pos h9]; rfl
      rw [if_neg h9]
      by_cases h10 : c.check.operator = "contains"
      · rw [if_pos h10]; rfl
      rw [if_neg h10]
      by_cases h11 : c.check.operator = "multiply_lte"
      · rw [if_pos h11]
        obtain ⟨m, hm⟩ : ∃ m, c.check.multiplier = .num m := by
          have hm' := hmul h11
          cases hc : c.check.multiplier <;> simp_all [isNumV]
        rw [hm]; rfl
      rw [if_neg h11]
      by_cases h12 : c.check.operator = "range"
      · rw [if_pos h12]
        by_cases h13 : resolve_field sandbox c.check.field_b_high b ≠
            Value.none
        · rw [if_pos h13]
          obtain ⟨z, hz⟩ : ∃ z,
              resolve_field sandbox c.check.field_b_high b = .num z := by
            cases hcc : resolve_field sandbox c.check.field_b_high b <;>
              simp_all [numOrNoneV]
          rw [hz]
          refine isOkE_bind (by rfl) ?_
          intro p1 _
          cases p1 <;> rfl
        · rw [if_neg h13]; rfl
      · rw [if_neg h12]; rfl

/-- `evaluate_constraint` never raises under operand safety. -/
theorem evaluate_constraint_ok (sandbox : String → Value) (c : Constraint)
    (b : Build) (h : constraintSafe sandbox c b = true) :
    isOkE (evaluate_constraint sandbox c b) = true := by
  unfold evaluate_constraint
  cases hscan : requiredScan c b c.components with
  | some sk => rfl
  | none => exact evalCore_ok sandbox c b _ _ (of_decide_eq_true h)

/-- A `mapME` over elementwise-succeeding computations succeeds. -/
theorem mapME_isOk {α β : Type} (f : α → Except String β) :
    ∀ l, (∀ x ∈ l, isOkE (f x) = true) → isOkE (mapME f l) = true := by
  intro l
  induction l with
  | nil => intro _; rfl
  | cons x xs ih =>
    intro h
    unfold mapME
    refine isOkE_bind (h x (by simp)) ?_
    intro a _
    refine isOkE_bind (ih ?_) ?_
    · intro z hz; exact h z (by simp [hz])
    · intro bs _; rfl

/-- `validate_build` never raises when every constraint is
operand-safe on the build. -/
theorem validate_build_isOk (sandbox : String → Value)
    (constraints : List Constraint) (b : Build)
    (h : ∀ c ∈ constraints, constraintSafe sandbox c b = true) :
    isOkE (validate_build sandbox constraints b) = true := by
  unfold validate_build
  refine isOkE_bind (mapME_isOk _ _ ?_) ?_
  · intro c hc; exact evaluate_constraint_ok sandbox c b (h c hc)
  · intro rs _; rfl

/-- Well-formedness of the values actually present in a build: the
fields the engines call string/hash methods on are strings (or
hashable).  Missing components and missing specification fields
impose no conditions — the defaults are safe. -/
def buildWF (b : Build) : Bool :=
  (match b.get_component "fc" with
   | some fc => isStrV (fc.getD "mcu" (.str ""))
   | Option.none => true) &&
  (match b.get_component "vtx" with
   | some vtx => isStrV (vtx.getD "type" (.str "")) &&
       isStrV (vtx.getD "system" (.str ""))
   | Option.none => true) &&
  (match b.get_component "esc" with
   | some esc => notListV (esc.getD "protocol" (.str ""))
   | Option.none => true) &&
  (match b.get_component "receiver" with
   | some rx => notListV (rx.getD "output_protocol" (.str ""))
   | Option.none => true)

/-- Well-formedness of the two settings the firmware validator feeds
to an unguarded `int()`: absent (no condition) or int-parsable. -/
def configWF (config : FCConfig) : Bool :=
  (!settingTruthy (config.get_setting "vtx_table_bands") ||
    (pyIntOpt ((config.get_setting "vtx_table_bands").getD "")).isSome) &&
  (!settingTruthy (config.get_setting "rpm_filter_harmonics") ||
    (pyIntOpt ((config.get_setting "rpm_filter_harmonics").getD "")).isSome)

/-- Unpacking `buildWF`. -/
theorem buildWF_elim {b : Build} (h : buildWF b = true) :
    (∀ fc, b.get_component "fc" = some fc →
      isStrV (fc.getD "mcu" (.str "")) = true) ∧
    (∀ vtx, b.get_component "vtx" = some vtx →
      isStrV (vtx.getD "type" (.str "")) = true ∧
      isStrV (vtx.getD "system" (.str "")) = true) ∧
    (∀ esc, b.get_component "esc" = some esc →
      notListV (esc.getD "protocol" (.str "")) = true) ∧
    (∀ rx, b.get_component "receiver" = some rx →
      notListV (rx.getD "output_protocol" (.str "")) = true) := by
  refine ⟨?_, ?_, ?_, ?_⟩ <;>
    (intro comp hc
     unfold buildWF at h
     rw [hc] at h
     simp only [Bool.and_eq_true] at h
     tauto)

/-- Unpacking `configWF`. -/
theorem configWF_elim {config : FCConfig} (h : configWF config = true) :
    (settingTruthy (config.get_setting "vtx_table_bands") = true →
      (pyIntOpt ((config.get_setting "vtx_table_bands").getD
        "")).isSome = true) ∧
    (settingTruthy (config.get_setting "rpm_filter_harmonics") = true →
      (pyIntOpt ((config.get_setting "rpm_filter_harmonics").getD
        "")).isSome = true) := by
  unfold configWF at h
  rw [Bool.and_eq_true] at h
  obtain ⟨h1, h2⟩ := h
  rw [Bool.or_eq_true] at h1
  rw [Bool.or_eq_true] at h2
  constructor
  · intro ht
    rcases h1 with hx | hx
    · simp [ht] at hx
    · exact hx
  · intro ht
    rcases h2 with hx | hx
    · simp [ht] at hx
    · exact hx

/-- `.lower()` succeeds on a string value. -/
theorem pyLowerE_ok {v : Value} (h : isStrV v = true) :
    isOkE (pyLowerE v) = true := by
  cases v <;> simp_all [isStrV, pyLowerE, isOkE]

/-- `.upper()` succeeds on a string value. -/
theorem pyUpperE_ok {v : Value} (h : isStrV v = true) :
    isOkE (pyUpperE v) = true := by
  cases v <;> simp_all [isStrV, pyUpperE, isOkE]

/-- Set membership succeeds on a hashable probe. -/
theorem setMemE_ok {v : Value} (l : List String) (h : notListV v = true) :
    isOkE (setMemE v l) = true := by
  cases v <;> simp_all [notListV, setMemE, isOkE]

/-- `in` succeeds on a string haystack. -/
theorem pyInE_ok (n : String) {v : Value} (h : isStrV v = true) :
    isOkE (pyInE n v) = true := by
  cases v <;> simp_all [isStrV, pyInE, isOkE]

/-- `int()` succeeds on a parsable string. -/
theorem pyIntE_ok {s : String} (h : (pyIntOpt s).isSome = true) :
    isOkE (pyIntE s) = true := by
  unfold pyIntOpt at h
  cases he : pyIntE s with
  | error e => rw [he] at h; simp at h
  | ok n => rfl

/-- fw_001 never raises under build well-formedness. -/
theorem fwok_001 (config : FCConfig) (b : Build)
    (h : ∀ esc, b.get_component "esc" = some esc →
      notListV (esc.getD "protocol" (.str "")) = true) :
    isOkE (fw_check_motor_protocol config b) = true := by
  unfold fw_check_motor_protocol
  cases hc : b.get_component "esc" with
  | none => rfl
  | some esc =>
    simp only
    split
    · rfl
    · refine isOkE_bind (setMemE_ok _ (h esc hc)) ?_
      intro m _
      cases m <;> rfl

/-- fw_002 never raises. -/
theorem fwok_002 (config : FCConfig) (b : Build) :
    isOkE (fw_check_blheli_s_dshot1200 config b) = true := by
  unfold fw_check_blheli_s_dshot1200
  repeat' first | split | simp only []
  all_goals rfl

/-- fw_003 never raises. -/
theorem fwok_003 (config : FCConfig) (b : Build) :
    isOkE (fw_check_bidir_dshot config b) = true := by
  unfold fw_check_bidir_dshot
  repeat' first | split | simp only []
  all_goals rfl

/-- fw_004 never raises under build well-formedness. -/
theorem fwok_004 (config : FCConfig) (b : Build)
    (h : ∀ rx, b.get_component "receiver" = some rx →
      notListV (rx.getD "output_protocol" (.str "")) = true) :
    isOkE (fw_check_receiver_protocol config b) = true := by
  unfold fw_check_receiver_protocol
  cases hc : b.get_component "receiver" with
  | none => rfl
  | some rx =>
    simp only
    split
    · rfl
    · refine isOkE_bind (setMemE_ok _ (h rx hc)) ?_
      intro m _
      cases m <;> rfl

/-- fw_005 never raises. -/
theorem fwok_005 (config : FCConfig) (b : Build) :
    isOkE (fw_check_receiver_uart config b) = true := by
  unfold fw_check_receiver_uart
  repeat' first | split | simp only []
  all_goals rfl

/-- fw_006 never raises under build well-formedness. -/
theorem fwok_006 (config : FCConfig) (b : Build)
    (h : ∀ fc, b.get_component "fc" = some fc →
      isStrV (fc.getD "mcu" (.str "")) = true) :
    isOkE (fw_check_sbus_inversion config b) = true := by
  unfold fw_check_sbus_inversion
  cases hrx : b.get_component "receiver" with
  | none => rfl
  | some rx =>
    cases hfc : b.get_component "fc" with
    | none => rfl
    | some fc =>
      simp only
      split
      · rfl
      · refine isOkE_bind (pyInE_ok _ (h fc hfc)) ?_
        intro h405 _
        refine isOkE_bind (pyInE_ok _ (h fc hfc)) ?_
        intro h411 _
        repeat' first | split | simp only []
        all_goals rfl

/-- fw_007 never raises under build well-formedness. -/
theorem fwok_007 (config : FCConfig) (b : Build)
    (h : ∀ vtx, b.get_component "vtx" = some vtx →
      isStrV (vtx.getD "type" (.str "")) = true ∧
      isStrV (vtx.getD "system" (.str "")) = true) :
    isOkE (fw_check_vtx_uart config b) = true := by
  unfold fw_check_vtx_uart
  cases hv : b.get_component "vtx" with
  | none => rfl
  | some vtx =>
    refine isOkE_bind (pyLowerE_ok (h vtx hv).2) ?_
    intro s1 _
    refine isOkE_bind (pyLowerE_ok (h vtx hv).1) ?_
    intro s2 _
    repeat' first | split | simp only []
    all_goals rfl

/-- fw_008 never raises under build well-formedness. -/
theorem fwok_008 (config : FCConfig) (b : Build)
    (h : ∀ vtx, b.get_component "vtx" = some vtx →
      isStrV (vtx.getD "type" (.str "")) = true ∧
      isStrV (vtx.getD "system" (.str "")) = true) :
    isOkE (fw_check_dji_msp config b) = true := by
  unfold fw_check_dji_msp
  cases hv : b.get_component "vtx" with
  | none => rfl
  | some vtx =>
    refine isOkE_bind (pyLowerE_ok (h vtx hv).2) ?_
    intro s1 _
    refine isOkE_bind (pyLowerE_ok (h vtx hv).1) ?_
    intro s2 _
    repeat' first | split | simp only []
    all_goals rfl

/-- fw_009 never raises under build and config well-formedness. -/
theorem fwok_009 (config : FCConfig) (b : Build)
    (h : ∀ vtx, b.get_component "vtx" = some vtx →
      isStrV (vtx.getD "type" (.str "")) = true ∧
      isStrV (vtx.getD "system" (.str "")) = true)
    (hcfg : settingTruthy (config.get_setting "vtx_table_bands") = true →
      (pyIntOpt ((config.get_setting "vtx_table_bands").getD
        "")).isSome = true) :
    isOkE (fw_check_vtx_type_match config b) = true := by
  unfold fw_check_vtx_type_match
  cases hv : b.get_component "vtx" with
  | none => rfl
  | some vtx =>
    simp only
    split
    · rfl
    · rename_i hset
      refine isOkE_bind (pyLowerE_ok (h vtx hv).2) ?_
      intro s1 _
      refine isOkE_bind (pyLowerE_ok (h vtx hv).1) ?_
      intro s2 _
      split
      · refine isOkE_bind (pyIntE_ok (hcfg (not_not.mp hset))) ?_
        intro n _
        split <;> rfl
      · rfl

/-- fw_010 never raises. -/
theorem fwok_010 (config : FCConfig) (b : Build) :
    isOkE (fw_check_battery_min_voltage config b) = true := by
  unfold fw_check_battery_min_voltage
  repeat' first | split | simp only []
  all_goals rfl

/-- fw_011 never raises. -/
theorem fwok_011 (config : FCConfig) (b : Build) :
    isOkE (fw_check_battery_cell_count config b) = true := by
  unfold fw_check_battery_cell_count
  repeat' first | split | simp only []
  all_goals rfl

/-- fw_012 never raises. -/
theorem fwok_012 (config : FCConfig) (b : Build) :
    isOkE (fw_check_pid_loop_rate config b) = true := by
  unfold fw_check_pid_loop_rate
  repeat' first | split | simp only []
  all_goals rfl

/-- fw_013 never raises. -/
theorem fwok_013 (config : FCConfig) (b : Build) :
    isOkE (fw_check_gyro_filter config b) = true := by
  unfold fw_check_gyro_filter
  repeat' first | split | simp only []
  all_goals rfl

/-- fw_014 never raises under config well-formedness. -/
theorem fwok_014 (config : FCConfig) (b : Build)
    (hcfg : settingTruthy (config.get_setting "rpm_filter_harmonics") =
        true →
      (pyIntOpt ((config.get_setting "rpm_filter_harmonics").getD
        "")).isSome = true) :
    isOkE (fw_check_rpm_filtering config b) = true := by
  unfold fw_check_rpm_filtering
  simp only
  split
  · rfl
  · cases hc : b.get_component "esc" with
    | none => rfl
    | some esc =>
      simp only
      split
      · rfl
      · split
        · rename_i hset
          refine isOkE_bind (pyIntE_ok (hcfg hset)) ?_
          intro n _
          split <;> rfl
        · rfl

/-- fw_015 never raises. -/
theorem fwok_015 (config : FCConfig) (b : Build) :
    isOkE (fw_check_osd_feature config b) = true := by
  unfold fw_check_osd_feature
  repeat' first | split | simp only []
  all_goals rfl

/-- fw_016 never raises. -/
theorem fwok_016 (config : FCConfig) (b : Build) :
    isOkE (fw_check_telemetry_feature config b) = true := by
  unfold fw_check_telemetry_feature
  repeat' first | split | simp only []
  all_goals rfl

/-- fw_017 never raises. -/
theorem fwok_017 (config : FCConfig) (b : Build) :
    isOkE (fw_check_esc_sensor config b) = true := by
  unfold fw_check_esc_sensor
  repeat' first | split | simp only []
  all_goals rfl

/-- fw_018 never raises. -/
theorem fwok_018 (config : FCConfig) (b : Build) :
    isOkE (fw_check_serial_conflicts config b) = true := by
  unfold fw_check_serial_conflicts
  repeat' first | split | simp only []
  all_goals rfl

/-- fw_019 never raises. -/
theorem fwok_019 (config : FCConfig) (b : Build) :
    isOkE (fw_check_inav_nav_settings config b) = true := by
  unfold fw_check_inav_nav_settings
  repeat' first | split | simp only []
  all_goals rfl

/-- fw_020 never raises. -/
theorem fwok_020 (config : FCConfig) (b : Build) :
    isOkE (fw_check_inav_fixed_wing config b) = true := by
  unfold fw_check_inav_fixed_wing
  repeat' first | split | simp only []
  all_goals rfl

/-- `validate_firmware_config` never raises under build and config
well-formedness. -/
theorem validate_firmware_config_isOk (config : FCConfig) (b : Build)
    (hb : buildWF b = true) (hcfg : configWF config = true) :
    isOkE (validate_firmware_config config b) = true := by
  obtain ⟨hfc, hvtx, hesc, hrx⟩ := buildWF_elim hb
  obtain ⟨hvtb, hrpm⟩ := configWF_elim hcfg
  unfold validate_firmware_config
  refine isOkE_bind (mapME_isOk _ _ ?_) ?_
  · intro check hc
    fin_cases hc
    · exact fwok_001 config b hesc
    · exact fwok_002 config b
    · exact fwok_003 config b
    · exact fwok_004 config b hrx
    · exact fwok_005 config b
    · exact fwok_006 config b hfc
    · exact fwok_007 config b hvtx
    · exact fwok_008 config b hvtx
    · exact fwok_009 config b hvtx hvtb
    · exact fwok_010 config b
    · exact fwok_011 config b
    · exact fwok_012 config b
    · exact fwok_013 config b
    · exact fwok_014 config b hrpm
    · exact fwok_015 config b
    · exact fwok_016 config b
    · exact fwok_017 config b
    · exact fwok_018 config b
    · exact fwok_019 config b
    · exact fwok_020 config b
  · intro rs _; rfl

/-- disc_001 never raises under build well-formedness. -/
theorem discok_001 (config : FCConfig) (b : Build)
    (h : ∀ fc, b.get_component "fc" = some fc →
      isStrV (fc.getD "mcu" (.str "")) = true) :
    isOkE (disc_check_fc_board config b) = true := by
  unfold disc_check_fc_board
  cases hc : b.get_component "fc" with
  | none => rfl
  | some fc =>
    simp only
    split
    · rfl
    · refine isOkE_bind (pyUpperE_ok (h fc hc)) ?_
      intro s _
      repeat' first | split | simp only []
      all_goals rfl

/-- disc_002 never raises under build well-formedness. -/
theorem discok_002 (config : FCConfig) (b : Build)
    (h : ∀ rx, b.get_component "receiver" = some rx →
      notListV (rx.getD "output_protocol" (.str "")) = true) :
    isOkE (disc_check_receiver_protocol config b) = true := by
  unfold disc_check_receiver_protocol
  cases hc : b.get_component "receiver" with
  | none => rfl
  | some rx =>
    simp only
    split
    · rfl
    · refine isOkE_bind (setMemE_ok _ (h rx hc)) ?_
      intro m _
      cases m <;> rfl

/-- disc_003 never raises under build well-formedness. -/
theorem discok_003 (config : FCConfig) (b : Build)
    (h : ∀ vtx, b.get_component "vtx" = some vtx →
      isStrV (vtx.getD "type" (.str "")) = true ∧
      isStrV (vtx.getD "system" (.str "")) = true) :
    isOkE (disc_check_vtx_type config b) = true := by
  unfold disc_check_vtx_type
  cases hv : b.get_component "vtx" with
  | none => rfl
  | some vtx =>
    refine isOkE_bind (pyLowerE_ok (h vtx hv).1) ?_
    intro s _
    repeat' first | split | simp only []
    all_goals rfl

/-- disc_004 never raises under build well-formedness. -/
theorem discok_004 (config : FCConfig) (b : Build)
    (h : ∀ esc, b.get_component "esc" = some esc →
      notListV (esc.getD "protocol" (.str "")) = true) :
    isOkE (disc_check_motor_protocol config b) = true := by
  unfold disc_check_motor_protocol
  cases hc : b.get_component "esc" with
  | none => rfl
  | some esc =>
    simp only
    split
    · rfl
    · refine isOkE_bind (setMemE_ok _ (h esc hc)) ?_
      intro m _
      cases m <;> rfl

/-- disc_005 never raises. -/
theorem discok_005 (config : FCConfig) (b : Build) :
    isOkE (disc_check_bidir_dshot_firmware config b) = true := by
  unfold disc_check_bidir_dshot_firmware
  repeat' first | split | simp only []
  all_goals rfl

/-- disc_006 never raises. -/
theorem discok_006 (config : FCConfig) (b : Build) :
    isOkE (disc_check_battery_cells config b) = true := by
  unfold disc_check_battery_cells
  repeat' first | split | simp only []
  all_goals rfl

/-- disc_007 never raises — in particular a missing or empty build
nickname is handled, never an exception. -/
theorem discok_007 (config : FCConfig) (b : Build) :
    isOkE (disc_check_craft_name config b) = true := by
  unfold disc_check_craft_name
  repeat' first | split | simp only []
  all_goals rfl

/-- disc_008 never raises. -/
theorem discok_008 (config : FCConfig) (b : Build) :
    isOkE (disc_check_gps_presence config b) = true := by
  unfold disc_check_gps_presence
  repeat' first | split | simp only []
  all_goals rfl

/-- disc_009 never raises. -/
theorem discok_009 (config : FCConfig) (b : Build) :
    isOkE (disc_check_esc_telemetry config b) = true := by
  unfold disc_check_esc_telemetry
  repeat' first | split | simp only []
  all_goals rfl

/-- disc_010 never raises. -/
theorem discok_010 (config : FCConfig) (b : Build) :
    isOkE (disc_check_motor_count config b) = true := by
  unfold disc_check_motor_count
  repeat' first | split | simp only []
  all_goals rfl

/-- `detect_discrepancies` never raises under build well-formedness. -/
theorem detect_discrepancies_isOk (config : FCConfig) (b : Build)
    (hb : buildWF b = true) :
    isOkE (detect_discrepancies config b) = true := by
  obtain ⟨hfc, hvtx, hesc, hrx⟩ := buildWF_elim hb
  unfold detect_discrepancies
  refine isOkE_bind (mapME_isOk _ _ ?_) ?_
  · intro check hc
    fin_cases hc
    · exact discok_001 config b hfc
    · exact discok_002 config b hrx
    · exact discok_003 config b hvtx
    · exact discok_004 config b hesc
    · exact discok_005 config b
    · exact discok_006 config b
    · exact discok_007 config b
    · exact discok_008 config b
    · exact discok_009 config b
    · exact discok_010 config b
  · intro ds _; rfl

/-- C2: the diagnostic pipeline — discrepancy detection plus the two
validators, as assembled by `run_diagnostics` — never raises when the
data that is present is well-typed: missing components, a missing or
empty nickname, and missing specification fields or settings impose no
conditions (the well-formedness predicates are vacuous for absent
data), so missing optional data alone can only reduce the findings,
never crash the run. -/
theorem C2_pipeline_never_raises (sandbox : String → Value)
    (constraints : List Constraint) (config : FCConfig) (b : Build)
    (symptoms : Option (List String)) (previous_config : Option FCConfig)
    (hb : buildWF b = true) (hcfg : configWF config = true)
    (hcs : ∀ c ∈ constraints, constraintSafe sandbox c b = true) :
    isOkE (run_diagnostics sandbox constraints config b symptoms
      previous_config) = true := by
  unfold run_diagnostics
  refine isOkE_bind (detect_discrepancies_isOk config b hb) ?_
  intro ds _
  refine isOkE_bind (validate_build_isOk sandbox constraints b hcs) ?_
  intro cr _
  refine isOkE_bind (validate_firmware_config_isOk config b hb hcfg) ?_
  intro fr _
  rfl

/-- A minimal config (no ports, no settings) for the C2 witness. -/
def c2DemoConfig : FCConfig :=
  { firmware := "BTFL", firmware_version := "4.5.1" }

/-- Witness for C2: a run on an empty build (no components, no
nickname) and a bare config completes without an exception. -/
theorem C2_pipeline_never_raises_witness :
    buildWF noComponentsBuild = true ∧ configWF c2DemoConfig = true ∧
    isOkE (run_diagnostics (fun _ => Value.none) [] c2DemoConfig
      noComponentsBuild Option.none Option.none) = true :=
  ⟨by decide, by decide,
    C2_pipeline_never_raises (fun _ => Value.none) [] c2DemoConfig
      noComponentsBuild Option.none Option.none (by decide) (by decide)
      (by intro c hc; simp at hc)⟩

/-- Witness for C8 on a concrete conflicting configuration. -/
theorem C8_serial_conflict_aggregated_witness :
    validate_firmware_config c8DemoConfig noComponentsBuild =
      .ok c8DemoReport ∧
    ∃ r, c8DemoReport.results.filter
        (fun x => x.constraint_id = "fw_018") = [r] ∧
      r.passed = false ∧ r.severity = Severity.critical ∧
      pyInStr "GPS" r.message = true ∧
      pyInStr "SERIAL_RX" r.message = true ∧
      ∀ q ∈ c8DemoConfig.serial_ports, ∀ s ∈ portConflicts q,
        pyInStr s r.message = true :=
  ⟨by decide, C8_serial_conflict_aggregated c8DemoConfig noComponentsBuild
    c8DemoReport (by decide) c8DemoPort (by decide) (by decide) (by decide)⟩

end DB
